import Mathlib

/-!
# Barbearia Nativa: WhatsApp service and bulk workflows

A shallow embedding of `src/services/whatsapp.service.js`, of the bulk and
report routes of `src/routes/whatsapp.js`, of the collaborators router
`src/routes/colaboradores.js` and of `POST /appointments` in
`src/routes/frontend.js`.

* JavaScript strings are Lean `String`s; `to.replace(/\D/g, '')` keeps the
  ASCII digits of the character list.
* The service object, the log file, the credential directory and the record of
  calls made to the transport library are the fields of `World`.
* Everything the code obtains from outside (the clock, the outcome of each
  transport call, of the QR encoder, of each file deletion, of reading and
  parsing each database file and of writing the bookings file) is a field of
  `Env`; theorems quantify over every `Env`.
* The time values of the `Date` objects the weekly and monthly report routes
  build are the fields of `Calendar`; `Calendar.ofClock` computes them from the
  current instant and a fixed offset of local time from UTC.
* Numbers are IEEE 754 doubles: a quotient and a product are rounded to the
  nearest double, ties to even (`Binary64.round`), `Math.round` is
  `jsRound`, and an integer the code computes is rounded by `toDouble`.
* The collaborators router is a list of routes tried in registration order;
  each handler maps the stored collection and the request to a response and
  the collection stored afterwards.
* Record objects are typed structures; a field that may be absent is an
  `Option`. Keys of the grouping objects are taken not to be array indices or
  names inherited from `Object.prototype`, so that entries come in insertion
  order.
-/

namespace Barbearia

/-! ## Event log -/

/-- One element of `database/whatsapp_logs.json`. -/
structure LogEntry where
  timestamp : String
  type : String
  message : String
deriving DecidableEq, Repr

/-- A call made to the transport library, in the order it was made. -/
inductive TransportCall where
  | useMultiFileAuthState
  | fetchLatestBaileysVersion
  | makeWASocket
  | logout
  | onWhatsApp (jid : String)
  | sendMessage (jid : String) (text : String)
deriving DecidableEq, Repr

/-- What `sock.onWhatsApp(jid)` resolves to: the first element of the returned
array, when there is one. -/
structure WAResult where
  exists_ : Bool
  jid : String
deriving DecidableEq, Repr

/-- Outcomes supplied by the surroundings of the program. Transport outcomes
are indexed by the number of transport calls made so far, the clock by the
number of times it has been read. An `Option String` outcome is `none` on
success and `some msg` when the call throws an error with message `msg`. -/
structure Env where
  /-- Value of `new Date().toISOString()` at the n-th reading. -/
  now : Nat → String
  /-- Value of `new Date().toLocaleDateString('pt-BR')` (DD/MM/YYYY). -/
  todayPtBR : String
  /-- Value of `new Date(d).toLocaleDateString('pt-BR')`. -/
  fmtDate : String → String
  authState : Nat → Option String
  fetchVersion : Nat → Option String
  makeSocket : Nat → Except String Nat
  logoutOutcome : Nat → Option String
  onWhatsAppOutcome : Nat → String → Except String (Option WAResult)
  sendOutcome : Nat → String → String → Option String
  /-- Outcome of `QRCode.toDataURL(qr)`. -/
  qrToDataURL : String → Except String String
  /-- Outcome of `fs.unlinkSync` on a file of the credential directory. -/
  unlinkOutcome : String → Option String
  /-- Outcome of `JSON.parse(fs.readFileSync(file, 'utf8'))` on a file of the
  database directory that exists: `none` when it yields the list the `Database`
  holds for that file. -/
  readOutcome : String → Option String
  /-- Outcome of `fs.writeFileSync` on `agendamentos.json`, indexed by the number
  of transport calls made so far. -/
  writeOutcome : Nat → Option String

/-- The fields of the `WhatsAppService` object. `sock` is the session handle. -/
structure Service where
  sock : Option Nat
  isConnected : Bool
  isConnecting : Bool
  currentQRCode : Option String
deriving DecidableEq, Repr

/-- The service together with the files it owns and the transport trace.
`authFiles` is the listing of `auth_info_baileys` (`none`: no such directory),
`logs` the content of `whatsapp_logs.json`, `tick` the number of clock reads. -/
structure World where
  svc : Service
  logs : List LogEntry
  authFiles : Option (List String)
  calls : List TransportCall
  tick : Nat
deriving DecidableEq, Repr

/-- The service as the constructor leaves it (lines 10-24). -/
def Service.init : Service :=
  { sock := none, isConnected := false, isConnecting := false, currentQRCode := none }

/-- The body of `logMessage` on the parsed list: `push`, then
`splice(0, length - 100)` when more than 100 entries are held (lines 50-59). -/
def pushCapped (logs : List LogEntry) (e : LogEntry) : List LogEntry :=
  let logs1 := logs ++ [e]
  if logs1.length > 100 then logs1.drop (logs1.length - 100) else logs1

/-- `logMessage(type, message)` (lines 46-62): read the log file, append the
stamped entry, keep the last 100, write the file. -/
def logMessage (env : Env) (w : World) (type message : String) : World :=
  { w with
    logs := pushCapped w.logs { timestamp := env.now w.tick, type := type, message := message }
    tick := w.tick + 1 }

/-- Append a call to the transport trace. -/
def recordCall (w : World) (c : TransportCall) : World :=
  { w with calls := w.calls ++ [c] }

/-! ## Session lifecycle -/

/-- The `{ success, message }` object returned by `connect` and `disconnect`. -/
structure OpResult where
  success : Bool
  message : String
deriving DecidableEq, Repr

/-- The `catch` block of `connect` (lines 183-188). -/
def connectFailed (env : Env) (w : World) (err : String) : OpResult × World :=
  let w1 := { w with svc := { w.svc with isConnecting := false } }
  ({ success := false, message := err }, logMessage env w1 "error" ("Erro ao conectar: " ++ err))

/-- `connect()` (lines 65-189). The two guards return before anything else is
done; otherwise the credentials are loaded, the library version fetched and the
socket created, any of which may throw into the `catch` block. -/
def connect (env : Env) (w : World) : OpResult × World :=
  if w.svc.isConnected then
    ({ success := true, message := "WhatsApp já está conectado" }, w)
  else if w.svc.isConnecting then
    ({ success := false, message := "Conexão já em andamento" }, w)
  else
    let w1 := { w with svc := { w.svc with isConnecting := true } }
    let w2 := logMessage env w1 "info" "Iniciando conexão com WhatsApp"
    let w3 := recordCall w2 .useMultiFileAuthState
    match env.authState w2.calls.length with
    | some err => connectFailed env w3 err
    | none =>
      let w4 := recordCall w3 .fetchLatestBaileysVersion
      match env.fetchVersion w3.calls.length with
      | some err => connectFailed env w4 err
      | none =>
        let w5 := recordCall w4 .makeWASocket
        match env.makeSocket w4.calls.length with
        | .error err => connectFailed env w5 err
        | .ok s =>
          ({ success := true, message := "Conexão iniciada - escaneie o QR Code" },
           { w5 with svc := { w5.svc with sock := some s } })

/-- Lines 201-208 of `disconnect`: reset the flags, log, report success. -/
def disconnectReset (env : Env) (w : World) : OpResult × World :=
  let w1 := { w with svc := { w.svc with isConnected := false, isConnecting := false,
                                          currentQRCode := none } }
  ({ success := true, message := "WhatsApp desconectado com sucesso" },
   logMessage env w1 "success" "WhatsApp desconectado")

/-- `disconnect()` (lines 192-214). When `sock.logout()` throws, control goes
to the `catch` block: neither `this.sock = null` nor the reset of the flags is
executed. -/
def disconnect (env : Env) (w : World) : OpResult × World :=
  match w.svc.sock with
  | some _ =>
    let w1 := logMessage env w "info" "Desconectando WhatsApp"
    let w2 := recordCall w1 .logout
    match env.logoutOutcome w1.calls.length with
    | some err =>
      ({ success := false, message := err },
       logMessage env w2 "error" ("Erro ao desconectar: " ++ err))
    | none => disconnectReset env { w2 with svc := { w2.svc with sock := none } }
  | none => disconnectReset env w

/-- The loop of `clearSession` over `readdirSync(authDir)` (lines 227-229):
the files still present when the loop ends, and the error that ended it. -/
def unlinkAll (env : Env) : List String → List String × Option String
  | [] => ([], none)
  | f :: fs =>
    match env.unlinkOutcome f with
    | some err => (f :: fs, some err)
    | none => unlinkAll env fs

/-- `clearSession()` (lines 217-238). The result of `disconnect` is ignored. -/
def clearSession (env : Env) (w : World) : World :=
  let w1 := (disconnect env w).2
  match w1.authFiles with
  | none => w1
  | some files =>
    match unlinkAll env files with
    | (remaining, some err) =>
      logMessage env { w1 with authFiles := some remaining } "error"
        ("Erro ao limpar sessão: " ++ err)
    | (_, none) =>
      logMessage env { w1 with authFiles := some [] } "info" "Sessão do WhatsApp limpa"

/-- The object returned by `getStatus()` (lines 286-294). -/
structure Status where
  connected : Bool
  isConnected : Bool
  isConnecting : Bool
  hasQRCode : Bool
  qrCode : Option String
deriving DecidableEq, Repr

/-- JavaScript truthiness of a string that may be absent. -/
def truthy : Option String → Bool
  | some s => s != ""
  | none => false

/-- `getStatus()` (lines 286-294). -/
def getStatus (w : World) : Status :=
  { connected := w.svc.isConnected
    isConnected := w.svc.isConnected
    isConnecting := w.svc.isConnecting
    hasQRCode := truthy w.svc.currentQRCode
    qrCode := w.svc.currentQRCode }

/-- `DisconnectReason.loggedOut` of the transport library. -/
def DisconnectReason.loggedOut : Int := 401

/-- `DisconnectReason.restartRequired` of the transport library. -/
def DisconnectReason.restartRequired : Int := 515

/-- The argument of the `connection.update` handler: `connection`, the status
code `lastDisconnect?.error?.output?.statusCode`, and `qr`. -/
structure ConnectionUpdate where
  connection : Option String
  statusCode : Option Int
  qr : Option String
deriving DecidableEq, Repr

/-- The `if (qr)` block of the handler (lines 124-138). -/
def handleQR (env : Env) (w : World) (u : ConnectionUpdate) : World :=
  match u.qr with
  | none => w
  | some qr =>
    if qr = "" then w
    else
      match env.qrToDataURL qr with
      | .ok qrBase64 =>
        logMessage env { w with svc := { w.svc with currentQRCode := some qrBase64 } }
          "info" "QR Code gerado - aguardando escaneamento"
      | .error msg =>
        let w1 := logMessage env w "error" ("Erro ao gerar QR Code: " ++ msg)
        { w1 with svc := { w1.svc with currentQRCode := some qr } }

/-- The `connection === 'open'` block (lines 140-147). -/
def handleOpen (env : Env) (w : World) (u : ConnectionUpdate) : World :=
  if u.connection = some "open" then
    logMessage env
      { w with svc := { w.svc with isConnected := true, isConnecting := false,
                                    currentQRCode := none } }
      "success" "WhatsApp conectado com sucesso"
  else w

/-- The `connection === 'close'` block (lines 149-178). -/
def handleClose (env : Env) (w : World) (u : ConnectionUpdate) : World :=
  if u.connection = some "close" then
    let w1 := { w with svc := { w.svc with isConnected := false, isConnecting := false,
                                            currentQRCode := none } }
    if u.statusCode = some DisconnectReason.loggedOut then
      clearSession env (logMessage env w1 "warning" "Logout do WhatsApp - sessão removida")
    else if u.statusCode = some DisconnectReason.restartRequired then
      logMessage env w1 "warning" "Reinício necessário - sessão mantida para reconexão"
    else
      logMessage env w1 "warning" "Conexão perdida - sessão mantida para reconexão"
  else w

/-- The `connection.update` handler registered by `connect` (lines 119-179). -/
def onConnectionUpdate (env : Env) (w : World) (u : ConnectionUpdate) : World :=
  handleClose env (handleOpen env (handleQR env w u) u) u

/-! ## Message dispatch -/

/-- The errors `sendMessage` can throw, by the place that raises them. -/
inductive SendError where
  | notConnected
  | invalidPhone
  | notRegistered (phoneNumber : String)
  | transport (msg : String)
deriving DecidableEq, Repr

/-- The `message` of the thrown `Error`. -/
def SendError.message : SendError → String
  | .notConnected => "WhatsApp não está conectado"
  | .invalidPhone => "Número de telefone inválido"
  | .notRegistered phoneNumber => "Número " ++ phoneNumber ++ " não está registrado no WhatsApp"
  | .transport msg => msg

/-- The object `sendMessage` returns on success. -/
structure SendOk where
  recipient : String
deriving DecidableEq, Repr

/-- `to.replace(/\D/g, '')`: the ASCII digits of `to`, in order. -/
def digitsOf (to_ : String) : String :=
  String.mk (to_.data.filter Char.isDigit)

/-- The protocol address of line 253. -/
def buildJid (to_ : String) : String :=
  if '@' ∈ to_.data then to_ else digitsOf to_ ++ "@s.whatsapp.net"

/-- The test of line 256. -/
def isTestNumber (phoneNumber : String) : Bool :=
  "5511".data.isPrefixOf phoneNumber.data && phoneNumber.length == 13

/-- The `try` block of `sendMessage` up to the last transport call
(lines 247-268): the normalised number on success, the thrown error otherwise. -/
def sendBody (env : Env) (w : World) (to_ message : String) : Except SendError String × World :=
  let phoneNumber := digitsOf to_
  if phoneNumber.length < 10 then (.error .invalidPhone, w)
  else
    let jid := buildJid to_
    if !isTestNumber phoneNumber then
      let w1 := recordCall w (.onWhatsApp jid)
      match env.onWhatsAppOutcome w.calls.length jid with
      | .error msg => (.error (.transport msg), w1)
      | .ok none => (.error (.notRegistered phoneNumber), w1)
      | .ok (some result) =>
        if !result.exists_ then (.error (.notRegistered phoneNumber), w1)
        else
          let w2 := recordCall w1 (.sendMessage result.jid message)
          match env.sendOutcome w1.calls.length result.jid message with
          | some msg => (.error (.transport msg), w2)
          | none => (.ok phoneNumber, w2)
    else
      let w1 := recordCall w (.sendMessage jid message)
      match env.sendOutcome w.calls.length jid message with
      | some msg => (.error (.transport msg), w1)
      | none => (.ok phoneNumber, w1)

/-- `sendMessage(to, message)` (lines 241-283). The connection guard throws
before the `try` block is entered; every error raised inside it is logged by
the `catch` block and thrown again. -/
def sendMessage (env : Env) (w : World) (to_ message : String) : Except SendError SendOk × World :=
  if !w.svc.isConnected || w.svc.sock.isNone then (.error .notConnected, w)
  else
    match sendBody env w to_ message with
    | (.ok phoneNumber, w1) =>
      (.ok { recipient := phoneNumber },
       logMessage env w1 "success" ("Mensagem enviada para " ++ phoneNumber))
    | (.error e, w1) =>
      (.error e, logMessage env w1 "error" ("Erro ao enviar mensagem: " ++ e.message))

/-! ## Bulk workflows (`src/routes/whatsapp.js`) -/

/-- An element of `database/agendamentos.json`. `outros` holds the fields the
bulk routes neither read nor write. -/
structure Agendamento where
  id : Int
  cliente_id : Int
  servico_id : Int
  data_agendamento : String
  horario : Option String
  horario_agendamento : Option String
  status : String
  confirmado_em : Option String
  cancelado_em : Option String
  motivo_cancelamento : Option String
  outros : List (String × String)
deriving DecidableEq, Repr

/-- An element of `database/clientes.json`. -/
structure Cliente where
  id : Int
  nome : Option String
  telefone : Option String
deriving DecidableEq, Repr

/-- An element of `database/servicos.json`. -/
structure Servico where
  id : Int
  nome : Option String
deriving DecidableEq, Repr

/-- The three JSON files the bulk routes use; `none` when the file is absent. -/
structure Database where
  agendamentos : Option (List Agendamento)
  clientes : Option (List Cliente)
  servicos : Option (List Servico)
deriving DecidableEq, Repr

/-- An element of the `results` array of a bulk route. -/
structure ItemResult where
  agendamento_id : Int
  status : String
  message : String
deriving DecidableEq, Repr

/-- The variables a bulk loop updates: the service and its files, the counter
(`sentCount` / `cancelledCount`) and the `results` array. -/
structure LoopState where
  w : World
  count : Nat
  results : List ItemResult
deriving DecidableEq, Repr

/-- The response of a bulk route. -/
inductive BulkResponse where
  /-- 400, 'WhatsApp não está conectado'. -/
  | notConnected
  /-- 400, 'Motivo do cancelamento é obrigatório'. -/
  | missingReason
  /-- 404, 'Arquivo de agendamentos não encontrado'. -/
  | fileNotFound
  /-- 200 with counter 0 and total 0: nothing selected. -/
  | nothingToDo
  /-- 200 with the counter, the total and the results. -/
  | done (count total : Nat) (results : List ItemResult)
  /-- 500 with the message of the error caught by the outer `catch`
  (lines 245-251, 377-383): a file could not be read or written. -/
  | serverError (message : String)
deriving DecidableEq, Repr

/-- How a template literal renders a string that may be `undefined`. -/
def jsStr : Option String → String
  | some s => s
  | none => "undefined"

/-- `s.split(sep)` for a one-character separator, on character lists. -/
def splitChar (sep : Char) : List Char → List (List Char)
  | [] => [[]]
  | c :: cs =>
    if c = sep then [] :: splitChar sep cs
    else
      match splitChar sep cs with
      | [] => [[c]]
      | part :: parts => (c :: part) :: parts

/-- `new Date().toLocaleDateString('pt-BR').split('/').reverse().join('-')`. -/
def todayISO (env : Env) : String :=
  "-".intercalate ((splitChar '/' env.todayPtBR.data).reverse.map String.mk)

/-- `agendamento.horario || agendamento.horario_agendamento`. -/
def horarioOf (a : Agendamento) : Option String :=
  if truthy a.horario then a.horario else a.horario_agendamento

/-- `servico ? servico.nome : 'Não especificado'`. -/
def servicoNome (servico : Option Servico) : String :=
  match servico with
  | some sv => jsStr sv.nome
  | none => "Não especificado"

/-- The filter of lines 158-160. -/
def isConfirmTarget (today : String) (apt : Agendamento) : Bool :=
  apt.data_agendamento == today && (apt.status == "pendente" || apt.status == "Agendado")

/-- The filter of lines 287-289. -/
def isCancelTarget (today : String) (apt : Agendamento) : Bool :=
  apt.data_agendamento == today &&
    (apt.status == "pendente" || apt.status == "confirmado" || apt.status == "Agendado")

/-- The confirmation text of lines 198-208. -/
def confirmText (env : Env) (cliente : Cliente) (servico : Option Servico)
    (agendamento : Agendamento) : String :=
  "Olá " ++ jsStr cliente.nome ++ "! \n\nConfirmação de agendamento:\n\n📅 Data: " ++
    env.fmtDate agendamento.data_agendamento ++ "\n⏰ Horário: " ++
    jsStr (horarioOf agendamento) ++ "\n✂️ Serviço: " ++ servicoNome servico ++
    "\n\nPor favor, confirme sua presença respondendo esta mensagem.\n\nBarbearia Nativa"

/-- The cancellation text of lines 327-339. -/
def cancelText (env : Env) (reason : String) (cliente : Cliente) (servico : Option Servico)
    (agendamento : Agendamento) : String :=
  "Olá " ++ jsStr cliente.nome ++
    "! \n\nInfelizmente precisamos cancelar seu agendamento:\n\n📅 Data: " ++
    env.fmtDate agendamento.data_agendamento ++ "\n⏰ Horário: " ++
    jsStr (horarioOf agendamento) ++ "\n✂️ Serviço: " ++ servicoNome servico ++
    "\n\nMotivo: " ++ reason ++
    "\n\nPedimos desculpas pelo inconveniente. Entre em contato para reagendar.\n\nBarbearia Nativa"

/-- The result pushed when the client is missing or has no phone. -/
def semTelefone (agendamento : Agendamento) : ItemResult :=
  { agendamento_id := agendamento.id, status := "erro",
    message := "Cliente não encontrado ou sem telefone" }

/-- One iteration of the confirmation loop (lines 184-229): the record as the
iteration leaves it and the updated loop variables. -/
def confirmItem (env : Env) (clientes : List Cliente) (servicos : List Servico)
    (st : LoopState) (agendamento : Agendamento) : Agendamento × LoopState :=
  let cliente := clientes.find? (fun c => c.id == agendamento.cliente_id)
  let servico := servicos.find? (fun sv => sv.id == agendamento.servico_id)
  match cliente with
  | none => (agendamento, { st with results := st.results ++ [semTelefone agendamento] })
  | some c =>
    match c.telefone with
    | none => (agendamento, { st with results := st.results ++ [semTelefone agendamento] })
    | some telefone =>
      if telefone = "" then
        (agendamento, { st with results := st.results ++ [semTelefone agendamento] })
      else
        match sendMessage env st.w telefone (confirmText env c servico agendamento) with
        | (.ok _, w1) =>
          ({ agendamento with status := "confirmado", confirmado_em := some (env.now w1.tick) },
           { w := { w1 with tick := w1.tick + 1 }
             count := st.count + 1
             results := st.results ++
               [{ agendamento_id := agendamento.id, status := "enviado",
                  message := "Confirmação enviada com sucesso" }] })
        | (.error e, w1) =>
          (agendamento,
           { st with
             w := w1
             results := st.results ++
               [{ agendamento_id := agendamento.id, status := "erro", message := e.message }] })

/-- One iteration of the cancellation loop (lines 313-361). -/
def cancelItem (env : Env) (reason : String) (clientes : List Cliente) (servicos : List Servico)
    (st : LoopState) (agendamento : Agendamento) : Agendamento × LoopState :=
  let cliente := clientes.find? (fun c => c.id == agendamento.cliente_id)
  let servico := servicos.find? (fun sv => sv.id == agendamento.servico_id)
  match cliente with
  | none => (agendamento, { st with results := st.results ++ [semTelefone agendamento] })
  | some c =>
    match c.telefone with
    | none => (agendamento, { st with results := st.results ++ [semTelefone agendamento] })
    | some telefone =>
      if telefone = "" then
        (agendamento, { st with results := st.results ++ [semTelefone agendamento] })
      else
        match sendMessage env st.w telefone (cancelText env reason c servico agendamento) with
        | (.ok _, w1) =>
          ({ agendamento with status := "cancelado", cancelado_em := some (env.now w1.tick),
                              motivo_cancelamento := some reason },
           { w := { w1 with tick := w1.tick + 1 }
             count := st.count + 1
             results := st.results ++
               [{ agendamento_id := agendamento.id, status := "cancelado",
                  message := "Confirmação cancelada com sucesso" }] })
        | (.error e, w1) =>
          (agendamento,
           { st with
             w := w1
             results := st.results ++
               [{ agendamento_id := agendamento.id, status := "erro", message := e.message }] })

/-- `for (const agendamento of agendamentos.filter(target)) body(agendamento)`.
The filtered array holds the very objects of `agendamentos`, in their order, and
an iteration assigns only to fields of its own object: the loop is a pass over
`agendamentos` that runs `body` on the selected elements and leaves the others
in place. Returns the collection after the loop and the loop variables. -/
def bulkLoop (target : Agendamento → Bool)
    (body : LoopState → Agendamento → Agendamento × LoopState) :
    List Agendamento → LoopState → List Agendamento × LoopState
  | [], st => ([], st)
  | a :: rest, st =>
    if target a then
      let (a1, st1) := body st a
      let (rest1, st2) := bulkLoop target body rest st1
      (a1 :: rest1, st2)
    else
      let (rest1, st2) := bulkLoop target body rest st
      (a :: rest1, st2)

/-- The error thrown by `fs.existsSync(p) ? JSON.parse(fs.readFileSync(p, 'utf8')) : []`,
if any: a file that does not exist is not read. -/
def leituraOpcional (env : Env) (file : String) (existe : Bool) : Option String :=
  if existe then env.readOutcome file else none

/-- The error, if any, thrown while the client file and then the service file
are read (lines 180-181, 309-310, 417-418). -/
def erroDeLeitura (env : Env) (db : Database) : Option String :=
  match leituraOpcional env "clientes.json" db.clientes.isSome with
  | some e => some e
  | none => leituraOpcional env "servicos.json" db.servicos.isSome

/-- `POST /send-bulk-confirmations` (lines 134-252): the response, the service
afterwards and the files afterwards. An error thrown by a file read or by the
final `fs.writeFileSync` goes to the outer `catch`, which answers 500; the
file then holds what it held before. -/
def sendBulkConfirmations (env : Env) (w : World) (db : Database) :
    BulkResponse × World × Database :=
  if !w.svc.isConnected then (.notConnected, w, db)
  else
    match db.agendamentos with
    | none => (.fileNotFound, w, db)
    | some agendamentos =>
      match env.readOutcome "agendamentos.json" with
      | some e => (.serverError e, w, db)
      | none =>
        let today := todayISO env
        let agendamentosHoje := agendamentos.filter (isConfirmTarget today)
        if agendamentosHoje.length = 0 then (.nothingToDo, w, db)
        else
          match erroDeLeitura env db with
          | some e => (.serverError e, w, db)
          | none =>
            let clientes := db.clientes.getD []
            let servicos := db.servicos.getD []
            let (written, st) :=
              bulkLoop (isConfirmTarget today) (confirmItem env clientes servicos) agendamentos
                { w := w, count := 0, results := [] }
            match env.writeOutcome st.w.calls.length with
            | some e => (.serverError e, st.w, db)
            | none =>
              (.done st.count agendamentosHoje.length st.results, st.w,
               { db with agendamentos := some written })

/-- `POST /cancel-confirmations` (lines 255-384); `reason` is `req.body.reason`. -/
def cancelConfirmations (env : Env) (w : World) (db : Database) (reason : Option String) :
    BulkResponse × World × Database :=
  if !w.svc.isConnected then (.notConnected, w, db)
  else
    match reason with
    | none => (.missingReason, w, db)
    | some motivo =>
      if motivo = "" then (.missingReason, w, db)
      else
        match db.agendamentos with
        | none => (.fileNotFound, w, db)
        | some agendamentos =>
          match env.readOutcome "agendamentos.json" with
          | some e => (.serverError e, w, db)
          | none =>
            let today := todayISO env
            let agendamentosHoje := agendamentos.filter (isCancelTarget today)
            if agendamentosHoje.length = 0 then (.nothingToDo, w, db)
            else
              match erroDeLeitura env db with
              | some e => (.serverError e, w, db)
              | none =>
                let clientes := db.clientes.getD []
                let servicos := db.servicos.getD []
                let (written, st) :=
                  bulkLoop (isCancelTarget today) (cancelItem env motivo clientes servicos)
                    agendamentos { w := w, count := 0, results := [] }
                match env.writeOutcome st.w.calls.length with
                | some e => (.serverError e, st.w, db)
                | none =>
                  (.done st.count agendamentosHoje.length st.results, st.w,
                   { db with agendamentos := some written })

/-- The loop of the confirmation route (lines 173-230) from its initial
variables: the collection as the loop leaves it in memory, which is what the
route hands to the final write, and the loop variables. -/
def confirmLoop (env : Env) (w : World) (db : Database) (agendamentos : List Agendamento) :
    List Agendamento × LoopState :=
  bulkLoop (isConfirmTarget (todayISO env))
    (confirmItem env (db.clientes.getD []) (db.servicos.getD [])) agendamentos
    { w := w, count := 0, results := [] }

/-- The loop of the cancellation route (lines 302-362) from its initial
variables. -/
def cancelLoop (env : Env) (reason : String) (w : World) (db : Database)
    (agendamentos : List Agendamento) : List Agendamento × LoopState :=
  bulkLoop (isCancelTarget (todayISO env))
    (cancelItem env reason (db.clientes.getD []) (db.servicos.getD [])) agendamentos
    { w := w, count := 0, results := [] }

/-- The address of a `sock.sendMessage` call; `none` for the other calls. -/
def TransportCall.sendJid : TransportCall → Option String
  | .sendMessage jid _ => some jid
  | _ => none

/-- The send of one booking returned success: its client is found, has a
non-empty phone, and `sendMessage` called in state `w` with the text `render`
builds for it returns normally. -/
def SentOk (env : Env) (clientes : List Cliente) (servicos : List Servico)
    (render : Cliente → Option Servico → Agendamento → String)
    (w : World) (agendamento : Agendamento) : Prop :=
  ∃ c telefone r,
    clientes.find? (fun c => c.id == agendamento.cliente_id) = some c ∧
    c.telefone = some telefone ∧ telefone ≠ "" ∧
    (sendMessage env w telefone
      (render c (servicos.find? (fun sv => sv.id == agendamento.servico_id)) agendamento)).1
      = .ok r

/-! ## JavaScript numbers

Numbers are IEEE 754 binary64 values. The program divides, multiplies and adds
non-negative integers; a finite non-negative double is kept as a mantissa and
an exponent, and each operation rounds its exact result to the nearest double,
ties to the even mantissa. -/

/-- The number of binary digits of `n`, by halving at most `fuel` times. -/
def bitsAux : Nat → Nat → Nat
  | 0, _ => 0
  | fuel + 1, n => if n = 0 then 0 else bitsAux fuel (n / 2) + 1

/-- The number of binary digits of `n` (0 for 0). -/
def bitLength (n : Nat) : Nat := bitsAux n n

/-- The integer nearest to `num / den`, the even one of the two when `num / den`
lies halfway between them (`den > 0`). -/
def roundHalfEven (num den : Nat) : Nat :=
  let q := num / den
  let r := num % den
  if 2 * r < den then q
  else if den < 2 * r then q + 1
  else if q % 2 = 0 then q else q + 1

/-- The integer nearest to `(n / d) * 2 ^ s`, ties to even. -/
def scaledRound (n d : Nat) (s : Int) : Nat :=
  if 0 ≤ s then roundHalfEven (n * 2 ^ s.toNat) d else roundHalfEven n (d * 2 ^ (-s).toNat)

/-- A finite non-negative double: the value `mant * 2 ^ exp`. -/
structure Binary64 where
  mant : Nat
  exp : Int
deriving DecidableEq, Repr

/-- The value of a double as a rational number. -/
def Binary64.toRat (x : Binary64) : ℚ := (x.mant : ℚ) * (2 : ℚ) ^ x.exp

/-- Whether `2 ^ l ≤ n / d`. -/
def geTwoPow (n d : Nat) (l : Int) : Bool :=
  if 0 ≤ l then decide (d * 2 ^ l.toNat ≤ n) else decide (d ≤ n * 2 ^ (-l).toNat)

/-- The double nearest to the exact value `(n / d) * 2 ^ k` (`d > 0`), ties to
even: the mantissa is the value divided by the unit in the last place and
rounded; that unit is `2 ^ e` with `2 ^ 52 ≤ value / 2 ^ e < 2 ^ 53`, and not
below `2 ^ -1074`, the spacing of the subnormal numbers. Overflow to
`Infinity` is not represented: callers that can reach `2 ^ 1024` test for it. -/
def Binary64.round (n d : Nat) (k : Int) : Binary64 :=
  if n = 0 then { mant := 0, exp := 0 }
  else
    let l : Int := (bitLength n : Int) - (bitLength d : Int)
    let e : Int := if geTwoPow n d l then l - 52 else l - 53
    let ulp : Int := max (e + k) (-1074)
    { mant := scaledRound n d (k - ulp), exp := ulp }

/-- `Math.round(x)` for a non-negative double: the integer nearest to `x`, the
larger one when `x` lies halfway between two. -/
def jsRound (x : Binary64) : Nat :=
  if 0 ≤ x.exp then x.mant * 2 ^ x.exp.toNat
  else (2 * x.mant + 2 ^ (-x.exp).toNat) / 2 ^ ((-x.exp).toNat + 1)

/-- The double nearest to a natural number: itself up to `2 ^ 53`, beyond that
the number rounded to 53 significant binary digits. -/
def toDoubleNat (n : Nat) : Nat :=
  if n ≤ 2 ^ 53 then n
  else
    let x := Binary64.round n 1 0
    x.mant * 2 ^ x.exp.toNat

/-- The double nearest to an integer. -/
def toDouble (z : Int) : Int :=
  if 0 ≤ z then (toDoubleNat z.toNat : Int) else -(toDoubleNat (-z).toNat : Int)

/-! ## Report routes (`src/routes/whatsapp.js`) -/

/-- What the `Date` objects of the weekly and monthly routes evaluate to in the
running process (its clock and time zone). Times are milliseconds since the
epoch, as `getTime()` returns them. -/
structure Calendar where
  /-- Time value of `new Date(s)`; `none` when it is an invalid date, for which
  every comparison is false. -/
  dateMs : String → Option Int
  /-- Time value of `startOfWeek` after lines 519-522. -/
  startOfWeek : Int
  /-- Time value of `endOfWeek` after lines 524-526. -/
  endOfWeek : Int
  /-- Time value of `startOfMonth` (line 624). -/
  startOfMonth : Int
  /-- Time value of `endOfMonth` (line 625). -/
  endOfMonth : Int
  /-- Value of `startOfWeek.toLocaleDateString('pt-BR')`. -/
  startOfWeekLabel : String
  /-- Value of `endOfWeek.toLocaleDateString('pt-BR')`. -/
  endOfWeekLabel : String
  /-- Value of `today.toLocaleString('pt-BR', { month: 'long', year: 'numeric' })`. -/
  monthLabel : String

/-- The response of a report route. -/
inductive ReportResponse where
  /-- 400, 'WhatsApp não está conectado'. -/
  | notConnected
  /-- 404, 'Arquivo de agendamentos não encontrado'. -/
  | fileNotFound
  /-- 200 with the window label and the four counts. -/
  | sent (label : String) (total pending confirmed cancelled : Nat)
  /-- 500 with the message of the error thrown by a file read or by
  `sendMessage`. -/
  | serverError (message : String)
deriving DecidableEq, Repr

/-- The `ownerNumber` constant of the three report routes. -/
def ownerNumber : String := "5511998761833"

/-- The `statusEmoji` of lines 443 and 574. -/
def statusEmoji (status : String) : String :=
  if status = "confirmado" then "✅" else if status = "cancelado" then "❌" else "⏳"

/-- `l.filter(apt => apt.status === status).length`. -/
def countStatus (status : String) (l : List Agendamento) : Nat :=
  (l.filter (fun apt => apt.status == status)).length

/-- The 'RESUMO GERAL' block common to the three reports. -/
def resumoGeral (l : List Agendamento) : String :=
  "\n\n📈 RESUMO GERAL:\n• Total de agendamentos: " ++ toString l.length ++
    "\n• Pendentes: " ++ toString (countStatus "pendente" l) ++
    "\n• Confirmados: " ++ toString (countStatus "confirmado" l) ++
    "\n• Cancelados: " ++ toString (countStatus "cancelado" l)

/-- The text at the end of every report. -/
def rodape : String := "\n\nBarbearia Nativa - Sistema Automático"

/-- The client name of line 446. -/
def clienteNome (cliente : Option Cliente) : String :=
  match cliente with
  | some c => jsStr c.nome
  | none => "Cliente não encontrado"

/-- The service name of line 446. -/
def servicoNomeRelatorio (servico : Option Servico) : String :=
  match servico with
  | some sv => jsStr sv.nome
  | none => "Serviço não especificado"

/-- The listing line the daily report adds for one booking (lines 441-446). -/
def dailyLine (clientes : List Cliente) (servicos : List Servico) (apt : Agendamento) : String :=
  let cliente := clientes.find? (fun c => c.id == apt.cliente_id)
  let servico := servicos.find? (fun sv => sv.id == apt.servico_id)
  "\n" ++ statusEmoji apt.status ++ " " ++ jsStr (horarioOf apt) ++ " - " ++
    clienteNome cliente ++ " (" ++ servicoNomeRelatorio servico ++ ")"

/-- The text of the daily report (lines 427-450). -/
def dailyReportText (env : Env) (clientes : List Cliente) (servicos : List Servico)
    (agendamentosHoje : List Agendamento) : String :=
  "📊 RELATÓRIO DIÁRIO - " ++ env.todayPtBR ++ resumoGeral agendamentosHoje ++
    "\n\n📋 AGENDAMENTOS DO DIA:" ++
    (if agendamentosHoje.length = 0 then "\n• Nenhum agendamento para hoje"
     else String.join (agendamentosHoje.map (dailyLine clientes servicos))) ++
    rodape

/-- The end of a report route: send the text to the owner, answer 200, or 500
when `sendMessage` throws. -/
def dispatchReport (env : Env) (w : World) (db : Database) (text label : String)
    (selected : List Agendamento) : ReportResponse × World × Database :=
  match sendMessage env w ownerNumber text with
  | (.ok _, w1) =>
    (.sent label selected.length (countStatus "pendente" selected)
       (countStatus "confirmado" selected) (countStatus "cancelado" selected), w1, db)
  | (.error e, w1) => (.serverError e.message, w1, db)

/-- `POST /send-report-daily` (lines 387-477). -/
def sendReportDaily (env : Env) (w : World) (db : Database) :
    ReportResponse × World × Database :=
  if !w.svc.isConnected then (.notConnected, w, db)
  else
    match db.agendamentos with
    | none => (.fileNotFound, w, db)
    | some agendamentos =>
      match env.readOutcome "agendamentos.json" with
      | some e => (.serverError e, w, db)
      | none =>
        let today := todayISO env
        let agendamentosHoje := agendamentos.filter (fun apt => apt.data_agendamento == today)
        match erroDeLeitura env db with
        | some e => (.serverError e, w, db)
        | none =>
          let clientes := db.clientes.getD []
          let servicos := db.servicos.getD []
          dispatchReport env w db (dailyReportText env clientes servicos agendamentosHoje) today
            agendamentosHoje

/-- `aptDate >= lo && aptDate <= hi` for `aptDate = new Date(apt.data_agendamento)`. -/
def inWindow (cal : Calendar) (lo hi : Int) (apt : Agendamento) : Bool :=
  match cal.dateMs apt.data_agendamento with
  | some t => decide (lo ≤ t) && decide (t ≤ hi)
  | none => false

/-- Lines 564-567: add a booking to the group of its day, creating the group
after the existing ones when the day is new. -/
def pushGroup (dia : String) (apt : Agendamento) :
    List (String × List Agendamento) → List (String × List Agendamento)
  | [] => [(dia, [apt])]
  | (k, apts) :: rest =>
    if k = dia then (k, apts ++ [apt]) :: rest else (k, apts) :: pushGroup dia apt rest

/-- The object `agendamentosPorDia` of the weekly report (lines 561-568), as the
list of its entries in insertion order. -/
def groupByDia (env : Env) (l : List Agendamento) : List (String × List Agendamento) :=
  l.foldl (fun acc apt => pushGroup (env.fmtDate apt.data_agendamento) apt acc) []

/-- Lexicographic comparison of character lists by character code. -/
def lexLe : List Char → List Char → Bool
  | [], _ => true
  | _ :: _, [] => false
  | a :: as, b :: bs => a.toNat < b.toNat || (a.toNat == b.toNat && lexLe as bs)

/-- The order `Array.prototype.sort()` uses without a comparator, on strings. -/
def jsStrLe (a b : String) : Bool := lexLe a.data b.data

/-- One line of a weekly group (lines 574-576). -/
def weeklyLine (apt : Agendamento) : String :=
  "\n" ++ statusEmoji apt.status ++ " " ++ jsStr (horarioOf apt) ++ " - Status: " ++ apt.status

/-- The block the weekly report adds for one day (lines 571-577). -/
def weeklyGroup (groups : List (String × List Agendamento)) (dia : String) : String :=
  let apts := (groups.lookup dia).getD []
  "\n\n📅 " ++ dia ++ " (" ++ toString apts.length ++ " agendamentos):" ++
    String.join (apts.map weeklyLine)

/-- The text of the weekly report (lines 550-580). -/
def weeklyReportText (env : Env) (cal : Calendar) (agendamentosSemana : List Agendamento) :
    String :=
  let groups := groupByDia env agendamentosSemana
  "📊 RELATÓRIO SEMANAL - " ++ cal.startOfWeekLabel ++ " a " ++ cal.endOfWeekLabel ++
    resumoGeral agendamentosSemana ++ "\n\n📅 AGENDAMENTOS POR DIA:" ++
    String.join
      (((groups.map Prod.fst).insertionSort (fun a b => jsStrLe a b = true)).map
        (weeklyGroup groups)) ++
    rodape

/-- `POST /send-report-weekly` (lines 506-607). -/
def sendReportWeekly (env : Env) (cal : Calendar) (w : World) (db : Database) :
    ReportResponse × World × Database :=
  if !w.svc.isConnected then (.notConnected, w, db)
  else
    match db.agendamentos with
    | none => (.fileNotFound, w, db)
    | some agendamentos =>
      match env.readOutcome "agendamentos.json" with
      | some e => (.serverError e, w, db)
      | none =>
        let agendamentosSemana :=
          agendamentos.filter (inWindow cal cal.startOfWeek cal.endOfWeek)
        dispatchReport env w db (weeklyReportText env cal agendamentosSemana)
          (cal.startOfWeekLabel ++ " a " ++ cal.endOfWeekLabel) agendamentosSemana

/-- The integer nearest to `num / den` in exact arithmetic, halves up
(`den > 0`). -/
def roundDiv (num den : Nat) : Nat :=
  (2 * num + den) / (2 * den)

/-- The `total > 0 ? Math.round((parte / total) * 100) : 0` of lines 658-659, for
counts below `2 ^ 53`, which a double holds exactly (an array length is below
`2 ^ 32`): the quotient is rounded to a double, its product by 100 is rounded
to a double, and `Math.round` is applied to that. -/
def taxaPct (parte total : Nat) : Nat :=
  if total > 0 then
    let quociente := Binary64.round parte total 0
    jsRound (Binary64.round (quociente.mant * 100) 1 quociente.exp)
  else 0

/-- The `total > 0 ? Math.round(total / 30) : 0` of line 660. The quotient
`total / 30` rounded to a double and the exact quotient round to the same
integer for every array length (`mediaPorDia_eq_double`). -/
def mediaPorDia (total : Nat) : Nat :=
  if total > 0 then roundDiv total 30 else 0

/-- Line 666: `agendamentosPorDia[dia] = (agendamentosPorDia[dia] || 0) + 1`. -/
def bumpCount (dia : String) : List (String × Nat) → List (String × Nat)
  | [] => [(dia, 1)]
  | (k, n) :: rest => if k = dia then (k, n + 1) :: rest else (k, n) :: bumpCount dia rest

/-- `Object.entries(agendamentosPorDia)` of the monthly report (lines 663-669):
one entry per date, in the order the dates first occur. -/
def contarPorDia (l : List Agendamento) : List (String × Nat) :=
  l.foldl (fun acc apt => bumpCount apt.data_agendamento acc) []

/-- The `topDias` of lines 669-671: the entries sorted by count, larger first,
equal counts keeping their order, cut to five. -/
def topDias (agendamentosMes : List Agendamento) : List (String × Nat) :=
  ((contarPorDia agendamentosMes).insertionSort (fun a b => b.2 ≤ a.2)).take 5

/-- One line of the top-days block (line 676); `index` counts from 0. -/
def topDiaLine (env : Env) (entry : Nat × String × Nat) : String :=
  "\n" ++ toString (entry.1 + 1) ++ ". " ++ env.fmtDate entry.2.1 ++ ": " ++
    toString entry.2.2 ++ " agendamentos"

/-- The text of the monthly report (lines 649-680). -/
def monthlyReportText (env : Env) (cal : Calendar) (agendamentosMes : List Agendamento) :
    String :=
  let total := agendamentosMes.length
  let confirmados := countStatus "confirmado" agendamentosMes
  let cancelados := countStatus "cancelado" agendamentosMes
  "📊 RELATÓRIO MENSAL - " ++ cal.monthLabel ++ resumoGeral agendamentosMes ++
    "\n\n📊 ESTATÍSTICAS:\n• Taxa de confirmação: " ++
    toString (taxaPct confirmados total) ++
    "%\n• Taxa de cancelamento: " ++
    toString (taxaPct cancelados total) ++
    "%\n• Média de agendamentos por dia: " ++
    toString (mediaPorDia total) ++
    (if (topDias agendamentosMes).length > 0 then
       "\n\n📅 TOP 5 DIAS COM MAIS AGENDAMENTOS:" ++
         String.join ((topDias agendamentosMes).enum.map (topDiaLine env))
     else "") ++
    rodape

/-- `POST /send-report-monthly` (lines 610-707). -/
def sendReportMonthly (env : Env) (cal : Calendar) (w : World) (db : Database) :
    ReportResponse × World × Database :=
  if !w.svc.isConnected then (.notConnected, w, db)
  else
    match db.agendamentos with
    | none => (.fileNotFound, w, db)
    | some agendamentos =>
      match env.readOutcome "agendamentos.json" with
      | some e => (.serverError e, w, db)
      | none =>
        let agendamentosMes :=
          agendamentos.filter (inWindow cal cal.startOfMonth cal.endOfMonth)
        dispatchReport env w db (monthlyReportText env cal agendamentosMes) cal.monthLabel
          agendamentosMes

/-! ## Collaborators (`src/routes/colaboradores.js`) -/

/-- An element of `database/colaboradores.json`. `id` is the integer the stored
number is (the ids on file are integers, which a double holds exactly);
`especialidades` and `horario_trabalho` hold the JSON text of the stored
value. -/
structure Colaborador where
  id : Int
  nome : String
  cargo : String
  telefone : String
  email : String
  status : String
  servicos_semana : Int
  avaliacao : Int
  data_cadastro : String
  especialidades : String
  horario_trabalho : String
  observacoes : String
deriving DecidableEq, Repr

/-- The fields a collaborator route reads from `req.body`; `none` when absent. -/
structure ColaboradorBody where
  nome : Option String
  cargo : Option String
  telefone : Option String
  email : Option String
  status : Option String
  especialidades : Option String
  horario_trabalho : Option String
  observacoes : Option String
deriving DecidableEq, Repr

/-- The response of a collaborator route: the HTTP status with the payload. -/
inductive ColabResposta where
  /-- `{ success: true, data, total }` with status 200. -/
  | lista (data : List Colaborador) (total : Nat)
  /-- `{ success: true, data }` with the given status. -/
  | um (status : Nat) (data : Colaborador)
  /-- `{ success: false, error }` with the given status. -/
  | erro (status : Nat) (error : String)
deriving DecidableEq, Repr

/-- `getNextId` (lines 39-42). The sum `Math.max(...) + 1` is a double: from
`2 ^ 53` on it may round back to the largest stored id. -/
def getNextId (colaboradores : List Colaborador) : Int :=
  match colaboradores with
  | [] => 1
  | c :: rest => toDouble ((rest.map (fun x => x.id)).foldl max c.id + 1)

/-- `a || b` for a string that may be absent and a default. -/
def orElse (a : Option String) (b : String) : String :=
  if truthy a then jsStr a else b

/-- The characters `parseInt` skips at the start of its argument: the white
space and line terminator code points of ECMAScript (TAB, LF, VT, FF, CR,
space, U+00A0, U+1680, U+2000 to U+200A, U+2028, U+2029, U+202F, U+205F, U+3000,
U+FEFF). -/
def isJsWhitespace (c : Char) : Bool :=
  (9 ≤ c.toNat && c.toNat ≤ 13) || c.toNat = 32 || c.toNat = 160 || c.toNat = 5760 ||
    (8192 ≤ c.toNat && c.toNat ≤ 8202) || c.toNat = 8232 || c.toNat = 8233 ||
    c.toNat = 8239 || c.toNat = 8287 || c.toNat = 12288 || c.toNat = 65279

/-- The value of a character as a digit in the given radix. -/
def digitVal (radix : Nat) (c : Char) : Option Nat :=
  let v :=
    if c.isDigit then some (c.toNat - 48)
    else if 'a'.toNat ≤ c.toNat ∧ c.toNat ≤ 'z'.toNat then some (c.toNat - 87)
    else if 'A'.toNat ≤ c.toNat ∧ c.toNat ≤ 'Z'.toNat then some (c.toNat - 55)
    else none
  match v with
  | some n => if n < radix then some n else none
  | none => none

/-- The longest prefix of digits of the given radix, as digit values. -/
def takeDigits (radix : Nat) : List Char → List Nat
  | [] => []
  | c :: cs =>
    match digitVal radix c with
    | some n => n :: takeDigits radix cs
    | none => []

/-- The number `parseInt` returns: `NaN`, an infinity, or an integer that a
double holds. -/
inductive JsNumber where
  | nan
  | infinity (negative : Bool)
  | finite (value : Int)
deriving DecidableEq, Repr

/-- `parseInt(s)` without a radix: leading white space is skipped, then a sign,
then `0x` or `0X` selects radix 16; the longest run of digits is read, and
`NaN` is the result when there is none. The integer read is rounded to the
nearest double (an engine may approximate it beyond the 20th significant
digit; the correctly rounded value is taken), and is an infinity from
`2 ^ 1024` on, that is when the rounded integer has more than 1024 bits. -/
def jsParseInt (s : String) : JsNumber :=
  let cs := s.data.dropWhile isJsWhitespace
  let signed : Bool × List Char :=
    match cs with
    | '-' :: r => (true, r)
    | '+' :: r => (false, r)
    | _ => (false, cs)
  let based : Nat × List Char :=
    match signed.2 with
    | '0' :: 'x' :: r => (16, r)
    | '0' :: 'X' :: r => (16, r)
    | _ => (10, signed.2)
  let ds := takeDigits based.1 based.2
  if ds = [] then .nan
  else
    let magnitude := toDoubleNat (ds.foldl (fun acc d => acc * based.1 + d) 0)
    if 1024 < bitLength magnitude then .infinity signed.1
    else .finite (if signed.1 then -(magnitude : Int) else (magnitude : Int))

/-- `c.id === id` for a stored id and `id = parseInt(...)`: `NaN` and the
infinities are equal to no stored id. -/
def idIgual (stored : Int) (id : JsNumber) : Bool :=
  match id with
  | .finite n => stored == n
  | _ => false

/-- `colaboradores.findIndex(c => c.id === id)`; `none` stands for -1. -/
def findIndexById (colaboradores : List Colaborador) (id : JsNumber) : Option Nat :=
  let i := colaboradores.findIdx (fun c => idIgual c.id id)
  if i < colaboradores.length then some i else none

/-- `GET /` (lines 45-60). -/
def listarColaboradores (colaboradores : List Colaborador) : ColabResposta :=
  .lista colaboradores colaboradores.length

/-- `GET /:id` (lines 63-87). -/
def buscarColaborador (colaboradores : List Colaborador) (param : String) : ColabResposta :=
  let id := jsParseInt param
  match colaboradores.find? (fun c => idIgual c.id id) with
  | none => .erro 404 "Colaborador não encontrado"
  | some colaborador => .um 200 colaborador

/-- `POST /` (lines 90-156): the response and the stored collection afterwards.
`hoje` is `new Date().toISOString().split('T')[0]`, `writeOk` the result of
`writeColaboradores`. -/
def criarColaborador (hoje : String) (writeOk : Bool) (colaboradores : List Colaborador)
    (body : ColaboradorBody) : ColabResposta × List Colaborador :=
  if !truthy body.nome || !truthy body.cargo || !truthy body.telefone || !truthy body.email then
    (.erro 400 "Campos obrigatórios: nome, cargo, telefone, email", colaboradores)
  else if colaboradores.any (fun c => c.email == jsStr body.email) then
    (.erro 400 "Email já cadastrado", colaboradores)
  else
    let novoColaborador : Colaborador :=
      { id := getNextId colaboradores
        nome := jsStr body.nome
        cargo := jsStr body.cargo
        telefone := jsStr body.telefone
        email := jsStr body.email
        status := orElse body.status "Ativo"
        servicos_semana := 0
        avaliacao := 0
        data_cadastro := hoje
        especialidades := orElse body.especialidades "[]"
        horario_trabalho := orElse body.horario_trabalho
          ("\x7b\"segunda\":\"08:00-18:00\",\"terca\":\"08:00-18:00\",\"quarta\":\"08:00-18:00\"," ++
           "\"quinta\":\"08:00-18:00\",\"sexta\":\"08:00-18:00\",\"sabado\":\"08:00-14:00\"," ++
           "\"domingo\":\"Fechado\"\x7d")
        observacoes := orElse body.observacoes "" }
    if writeOk then (.um 201 novoColaborador, colaboradores ++ [novoColaborador])
    else (.erro 500 "Erro ao salvar colaborador", colaboradores)

/-- `PUT /:id` (lines 159-223). -/
def atualizarColaborador (writeOk : Bool) (colaboradores : List Colaborador) (param : String)
    (body : ColaboradorBody) : ColabResposta × List Colaborador :=
  let id := jsParseInt param
  match findIndexById colaboradores id with
  | none => (.erro 404 "Colaborador não encontrado", colaboradores)
  | some colaboradorIndex =>
    if !truthy body.nome || !truthy body.cargo || !truthy body.telefone || !truthy body.email
    then (.erro 400 "Campos obrigatórios: nome, cargo, telefone, email", colaboradores)
    else if colaboradores.any (fun c => c.email == jsStr body.email && !idIgual c.id id) then
      (.erro 400 "Email já cadastrado em outro colaborador", colaboradores)
    else
      match colaboradores[colaboradorIndex]? with
      | none => (.erro 404 "Colaborador não encontrado", colaboradores)
      | some atual =>
        let novo : Colaborador :=
          { atual with
            nome := jsStr body.nome
            cargo := jsStr body.cargo
            telefone := jsStr body.telefone
            email := jsStr body.email
            status := orElse body.status atual.status
            especialidades := orElse body.especialidades atual.especialidades
            horario_trabalho := orElse body.horario_trabalho atual.horario_trabalho
            observacoes := orElse body.observacoes atual.observacoes }
        if writeOk then (.um 200 novo, colaboradores.set colaboradorIndex novo)
        else (.erro 500 "Erro ao salvar alterações", colaboradores)

/-- `DELETE /:id` (lines 226-261). -/
def excluirColaborador (writeOk : Bool) (colaboradores : List Colaborador) (param : String) :
    ColabResposta × List Colaborador :=
  match findIndexById colaboradores (jsParseInt param) with
  | none => (.erro 404 "Colaborador não encontrado", colaboradores)
  | some colaboradorIndex =>
    match colaboradores[colaboradorIndex]? with
    | none => (.erro 404 "Colaborador não encontrado", colaboradores)
    | some colaboradorRemovido =>
      if writeOk then (.um 200 colaboradorRemovido, colaboradores.eraseIdx colaboradorIndex)
      else (.erro 500 "Erro ao excluir colaborador", colaboradores)

/-- `PUT /:id/status` (lines 264-306). -/
def atualizarStatusColaborador (writeOk : Bool) (colaboradores : List Colaborador) (param : String)
    (body : ColaboradorBody) : ColabResposta × List Colaborador :=
  match findIndexById colaboradores (jsParseInt param) with
  | none => (.erro 404 "Colaborador não encontrado", colaboradores)
  | some colaboradorIndex =>
    if !truthy body.status then (.erro 400 "Status é obrigatório", colaboradores)
    else
      match colaboradores[colaboradorIndex]? with
      | none => (.erro 404 "Colaborador não encontrado", colaboradores)
      | some atual =>
        let novo : Colaborador := { atual with status := jsStr body.status }
        if writeOk then (.um 200 novo, colaboradores.set colaboradorIndex novo)
        else (.erro 500 "Erro ao atualizar status", colaboradores)

/-- The handler of `GET /ativos` (lines 309-326). -/
def colaboradoresAtivos (colaboradores : List Colaborador) : ColabResposta :=
  .lista (colaboradores.filter (fun c => c.status == "Ativo"))
    (colaboradores.filter (fun c => c.status == "Ativo")).length

/-- HTTP methods used by the router. -/
inductive Metodo where
  | GET
  | POST
  | PUT
  | DELETE
deriving DecidableEq, Repr

/-- The routes of the collaborators router. -/
inductive Rota where
  | listar
  | buscarPorId
  | criar
  | atualizar
  | excluir
  | atualizarStatus
  | ativos
deriving DecidableEq, Repr

/-- The routes in the order the file registers them (lines 45, 63, 90, 159,
226, 264, 309). -/
def rotasRegistradas : List Rota :=
  [.listar, .buscarPorId, .criar, .atualizar, .excluir, .atualizarStatus, .ativos]

/-- Whether a route matches a method and a path, given as its segments, and
the value of `req.params.id` when it does. -/
def Rota.casa (r : Rota) (metodo : Metodo) (path : List String) : Option String :=
  match r, metodo, path with
  | .listar, .GET, [] => some ""
  | .buscarPorId, .GET, [id] => some id
  | .criar, .POST, [] => some ""
  | .atualizar, .PUT, [id] => some id
  | .excluir, .DELETE, [id] => some id
  | .atualizarStatus, .PUT, [id, "status"] => some id
  | .ativos, .GET, ["ativos"] => some ""
  | _, _, _ => none

/-- The handler of a route. -/
def Rota.tratar (r : Rota) (hoje : String) (writeOk : Bool) (colaboradores : List Colaborador)
    (param : String) (body : ColaboradorBody) : ColabResposta × List Colaborador :=
  match r with
  | .listar => (listarColaboradores colaboradores, colaboradores)
  | .buscarPorId => (buscarColaborador colaboradores param, colaboradores)
  | .criar => criarColaborador hoje writeOk colaboradores body
  | .atualizar => atualizarColaborador writeOk colaboradores param body
  | .excluir => excluirColaborador writeOk colaboradores param
  | .atualizarStatus => atualizarStatusColaborador writeOk colaboradores param body
  | .ativos => (colaboradoresAtivos colaboradores, colaboradores)

/-- The router: the first registered route that matches handles the request
and ends it (no handler calls `next`); a request no route matches gets the
application's 404. -/
def despachar (hoje : String) (writeOk : Bool) (colaboradores : List Colaborador)
    (metodo : Metodo) (path : List String) (body : ColaboradorBody) :
    ColabResposta × List Colaborador :=
  match rotasRegistradas.find? (fun r => (r.casa metodo path).isSome) with
  | some r => r.tratar hoje writeOk colaboradores ((r.casa metodo path).getD "") body
  | none => (.erro 404 "Rota não encontrada! 🤷‍♂️", colaboradores)

/-! ## Sequences of calls and events -/

/-- One thing that can happen to the service: a call of one of its three
lifecycle methods, or a `connection.update` event (a QR challenge, an open, a
close, or any other update). -/
inductive Step where
  | connect
  | disconnect
  | clearSession
  | event (u : ConnectionUpdate)
deriving DecidableEq, Repr

/-- The state after one step. -/
def applyStep (env : Env) (w : World) : Step → World
  | .connect => (connect env w).2
  | .disconnect => (disconnect env w).2
  | .clearSession => clearSession env w
  | .event u => onConnectionUpdate env w u

/-- The state after a sequence of steps, each run to completion before the
next begins. -/
def runSteps (env : Env) (steps : List Step) (w : World) : World :=
  steps.foldl (applyStep env) w

/-! ## The clock behind the `Date` objects -/

/-- The clock of the process: `nowMs` is the time value of `new Date()`, `tzMs`
the offset of local time from UTC in milliseconds (local = UTC + `tzMs`), taken
constant: no daylight saving change inside the window. -/
structure Clock where
  nowMs : Int
  tzMs : Int
deriving DecidableEq, Repr

/-- Milliseconds in a day. -/
def msPerDay : Int := 86400000

/-- Day number (days since 1970-01-01) of a date of the Gregorian calendar;
a day beyond the end of the month runs into the next month, as in `Date`. -/
def daysFromCivil (y m d : Int) : Int :=
  let y1 := if m ≤ 2 then y - 1 else y
  let era := y1 / 400
  let yoe := y1 - era * 400
  let mp := (m + 9) % 12
  let doy := (153 * mp + 2) / 5 + d - 1
  let doe := yoe * 365 + yoe / 4 - yoe / 100 + doy
  era * 146097 + doe - 719468

/-- Year, month (1-12) and day of the month of a day number. -/
def civilFromDays (z : Int) : Int × Int × Int :=
  let z1 := z + 719468
  let era := z1 / 146097
  let doe := z1 - era * 146097
  let yoe := (doe - doe / 1460 + doe / 36524 - doe / 146096) / 365
  let doy := doe - (365 * yoe + yoe / 4 - yoe / 100)
  let mp := (5 * doy + 2) / 153
  let d := doy - (153 * mp + 2) / 5 + 1
  let m := if mp < 10 then mp + 3 else mp - 9
  (if m ≤ 2 then yoe + era * 400 + 1 else yoe + era * 400, m, d)

/-- The local day number of `new Date()`. -/
def localDay (c : Clock) : Int := (c.nowMs + c.tzMs) / msPerDay

/-- `today.getDay()`: 0 is Sunday (1970-01-01 was a Thursday). -/
def getDay (c : Clock) : Int := (localDay c + 4) % 7

/-- The decimal digit `n % 10` as a character. -/
def digitChar (n : Int) : Char := Char.ofNat (48 + (n % 10).toNat)

/-- `toLocaleDateString('pt-BR')` of a local day number: DD/MM/YYYY (years
1000 to 9999). -/
def ptBRDate (day : Int) : String :=
  let ymd := civilFromDays day
  String.mk [digitChar (ymd.2.2 / 10), digitChar ymd.2.2, '/',
    digitChar (ymd.2.1 / 10), digitChar ymd.2.1, '/',
    digitChar (ymd.1 / 1000), digitChar (ymd.1 / 100), digitChar (ymd.1 / 10), digitChar ymd.1]

/-- The month names `toLocaleString('pt-BR', { month: 'long' })` prints. -/
def nomeDoMes (m : Int) : String :=
  (["janeiro", "fevereiro", "março", "abril", "maio", "junho", "julho", "agosto", "setembro",
    "outubro", "novembro", "dezembro"].get? (m - 1).toNat).getD ""

/-- The value of a decimal digit character. -/
def digitOf (c : Char) : Option Int :=
  if c.isDigit then some ((c.toNat : Int) - 48) else none

/-- Year, month and day written in a date-only ISO string `YYYY-MM-DD`, month
01 to 12 and day 01 to 31; `none` for any other string (other formats `Date`
accepts are not modelled). -/
def parseIsoDate (s : String) : Option (Int × Int × Int) :=
  match s.data with
  | [y1, y2, y3, y4, '-', m1, m2, '-', d1, d2] =>
    match digitOf y1, digitOf y2, digitOf y3, digitOf y4, digitOf m1, digitOf m2, digitOf d1,
      digitOf d2 with
    | some a, some b, some c, some d, some e, some f, some g, some h =>
      let m := e * 10 + f
      let dd := g * 10 + h
      if 1 ≤ m ∧ m ≤ 12 ∧ 1 ≤ dd ∧ dd ≤ 31 then
        some (a * 1000 + b * 100 + c * 10 + d, m, dd)
      else none
    | _, _, _, _, _, _, _, _ => none
  | _ => none

/-- Time value of `new Date(s)` for a date-only ISO string: midnight UTC of
that date. -/
def isoDateMs (s : String) : Option Int :=
  match parseIsoDate s with
  | some ymd => some (daysFromCivil ymd.1 ymd.2.1 ymd.2.2 * msPerDay)
  | none => none

/-- The first day number of the month after the month of year `y`, month `m`:
`new Date(y, m + 1, ...)` carries month 12 into the next year. -/
def firstOfNextMonth (y m : Int) : Int :=
  if m = 12 then daysFromCivil (y + 1) 1 1 else daysFromCivil y (m + 1) 1

/-- Number of days of the month of year `y`, month `m`. -/
def diasNoMes (y m : Int) : Int :=
  firstOfNextMonth y m - daysFromCivil y m 1

/-- The `Date` objects of the weekly route (lines 519-526) and of the monthly
route (lines 623-625) for a given clock. `startOfWeek` is local midnight
`getDay()` days before today, `endOfWeek` is 23:59:59.999 local six days later;
`startOfMonth` is local midnight of day 1 and `endOfMonth` local midnight of
day 0 of the next month, that is of the last day of this month. -/
def Calendar.ofClock (c : Clock) : Calendar :=
  let hoje := civilFromDays (localDay c)
  { dateMs := isoDateMs
    startOfWeek := (localDay c - getDay c) * msPerDay - c.tzMs
    endOfWeek := (localDay c - getDay c + 6) * msPerDay + 86399999 - c.tzMs
    startOfMonth := daysFromCivil hoje.1 hoje.2.1 1 * msPerDay - c.tzMs
    endOfMonth := (firstOfNextMonth hoje.1 hoje.2.1 - 1) * msPerDay - c.tzMs
    startOfWeekLabel := ptBRDate (localDay c - getDay c)
    endOfWeekLabel := ptBRDate (localDay c - getDay c + 6)
    monthLabel := nomeDoMes hoje.2.1 ++ " de " ++
      String.mk [digitChar (hoje.1 / 1000), digitChar (hoje.1 / 100), digitChar (hoje.1 / 10),
        digitChar hoje.1] }

/-- `new Date(d).toLocaleDateString('pt-BR')` for a clock: the local date of
midnight UTC of `d`. -/
def fmtDateAt (c : Clock) (d : String) : String :=
  match isoDateMs d with
  | some t => ptBRDate ((t + c.tzMs) / msPerDay)
  | none => "Invalid Date"

/-! ## Booking creation (`src/routes/frontend.js`) -/

/-- The `id` of a created booking: a number, or the `-Infinity` that
`Math.max()` of no argument yields (written to the file as `null`). -/
inductive IdCriado where
  | num (n : Int)
  | negInfinity
deriving DecidableEq, Repr

/-- The request body of `POST /appointments`: its own `id` and `status` when it
carries them, and its other fields. -/
structure AgendamentoBody where
  id : Option Int
  status : Option String
  outros : List (String × String)
deriving DecidableEq, Repr

/-- The booking `POST /appointments` creates. -/
structure AgendamentoCriado where
  id : IdCriado
  status : String
  data_criacao : String
  outros : List (String × String)
deriving DecidableEq, Repr

/-- Line 81: `Math.max(...agendamentos.map(a => a.id || 0)) + 1`, the sum
rounded to a double. -/
def newId (agendamentos : List Agendamento) : IdCriado :=
  match agendamentos.map (fun a => if a.id = 0 then 0 else a.id) with
  | [] => .negInfinity
  | x :: xs => .num (toDouble (xs.foldl max x + 1))

/-- Lines 84-89: `{ id: newId, ...req.body, data_criacao, status: 'pendente' }`.
The fields of the body are spread after `id` and before the other two. -/
def novoAgendamento (agora : String) (agendamentos : List Agendamento)
    (body : AgendamentoBody) : AgendamentoCriado :=
  { id := match body.id with
      | some i => .num i
      | none => newId agendamentos
    status := "pendente"
    data_criacao := agora
    outros := body.outros }

/-- `POST /appointments` (lines 71-100): the created booking, or `none` for
the 404 answered when the bookings file does not exist. -/
def postAppointments (agora : String) (stored : Option (List Agendamento))
    (body : AgendamentoBody) : Option AgendamentoCriado :=
  match stored with
  | none => none
  | some agendamentos => some (novoAgendamento agora agendamentos body)

/-! ## Concrete environments and states -/

/-- An environment in which every external call succeeds. -/
def Env.allOk : Env :=
  { now := fun _ => "2024-05-10T12:00:00.000Z"
    todayPtBR := "10/05/2024"
    fmtDate := fun d => d
    authState := fun _ => none
    fetchVersion := fun _ => none
    makeSocket := fun n => .ok n
    logoutOutcome := fun _ => none
    onWhatsAppOutcome := fun _ jid => .ok (some { exists_ := true, jid := jid })
    sendOutcome := fun _ _ _ => none
    qrToDataURL := fun qr => .ok qr
    unlinkOutcome := fun _ => none
    readOutcome := fun _ => none
    writeOutcome := fun _ => none }

/-- As `Env.allOk`, but `sock.logout()` throws. -/
def Env.logoutFails : Env :=
  { Env.allOk with logoutOutcome := fun _ => some "Connection Closed" }

/-- As `Env.allOk`, but `fs.unlinkSync` throws. -/
def Env.unlinkFails : Env :=
  { Env.allOk with unlinkOutcome := fun _ => some "EPERM: operation not permitted" }

/-- As `Env.allOk`, but the registration check finds nobody. -/
def Env.nobodyRegistered : Env :=
  { Env.allOk with onWhatsAppOutcome := fun _ _ => .ok none }

/-- The state right after construction, with an empty credential directory. -/
def World.fresh : World :=
  { svc := Service.init, logs := [], authFiles := some [], calls := [], tick := 0 }

/-- A connected session with one credential file. -/
def World.connected : World :=
  { svc := { sock := some 0, isConnected := true, isConnecting := false, currentQRCode := none }
    logs := []
    authFiles := some ["creds.json"]
    calls := []
    tick := 0 }

/-- A session whose handshake is in progress. -/
def World.connecting : World :=
  { svc := { sock := some 0, isConnected := false, isConnecting := true,
             currentQRCode := some "data:image/png;base64,AAAA" }
    logs := []
    authFiles := some []
    calls := []
    tick := 0 }

/-- A booking pending today whose client has a phone. -/
def exemploPendente : Agendamento :=
  { id := 1, cliente_id := 1, servico_id := 1, data_agendamento := "2024-05-10",
    horario := some "09:00", horario_agendamento := none, status := "pendente",
    confirmado_em := none, cancelado_em := none, motivo_cancelamento := none, outros := [] }

/-- A booking pending today whose client is not on file. -/
def exemploSemCliente : Agendamento :=
  { id := 2, cliente_id := 99, servico_id := 1, data_agendamento := "2024-05-10",
    horario := some "10:00", horario_agendamento := none, status := "pendente",
    confirmado_em := none, cancelado_em := none, motivo_cancelamento := none, outros := [] }

/-- A booking pending on another day. -/
def exemploOutroDia : Agendamento :=
  { id := 3, cliente_id := 1, servico_id := 1, data_agendamento := "2024-05-11",
    horario := some "11:00", horario_agendamento := none, status := "pendente",
    confirmado_em := none, cancelado_em := none, motivo_cancelamento := none, outros := [] }

/-- Bookings used in the examples. -/
def exemploAgendamentos : List Agendamento :=
  [exemploPendente, exemploSemCliente, exemploOutroDia]

/-- The files used in the examples. -/
def exemploDb : Database :=
  { agendamentos := some exemploAgendamentos
    clientes := some [{ id := 1, nome := some "Ana", telefone := some "5511998761833" }]
    servicos := some [{ id := 1, nome := some "Corte" }] }

/-- The calendar of a process running in UTC on Friday 10 May 2024: the week
runs from Sunday 5 May, 00:00, to Saturday 11 May, 23:59:59.999. -/
def exemploCalendar : Calendar :=
  { dateMs := fun d =>
      if d = "2024-05-10" then some 1715299200000
      else if d = "2024-05-11" then some 1715385600000
      else none
    startOfWeek := 1714867200000
    endOfWeek := 1715471999999
    startOfMonth := 1714521600000
    endOfMonth := 1717113600000
    startOfWeekLabel := "05/05/2024"
    endOfWeekLabel := "11/05/2024"
    monthLabel := "maio de 2024" }

/-- A client record that has no `nome` field. -/
def exemploClienteSemNome : Cliente :=
  { id := 1, nome := none, telefone := some "5511998761833" }

/-- A second booking pending today whose client has a phone. -/
def exemploPendente2 : Agendamento :=
  { id := 4, cliente_id := 2, servico_id := 1, data_agendamento := "2024-05-10",
    horario := none, horario_agendamento := some "15:30", status := "Agendado",
    confirmado_em := none, cancelado_em := none, motivo_cancelamento := none, outros := [] }

/-- Three bookings pending today: two with a client on file with a phone, one
whose client is not on file. -/
def exemploTresDb : Database :=
  { agendamentos := some [exemploPendente, exemploSemCliente, exemploPendente2]
    clientes := some [{ id := 1, nome := some "Ana", telefone := some "5511998761833" },
                      { id := 2, nome := some "Bia", telefone := some "(21) 98765-4321" }]
    servicos := some [{ id := 1, nome := some "Corte" }] }

/-- What one iteration of a bulk loop owes to its booking: one result carrying
the booking's id, marked `okStatus` with the counter incremented when the send
succeeded (`Q`), marked 'erro' with the counter kept otherwise. -/
def ItemSpec (okStatus : String) (Q : World → Agendamento → Prop)
    (body : LoopState → Agendamento → Agendamento × LoopState) : Prop :=
  ∀ st a, ∃ r,
    (body st a).2.results = st.results ++ [r] ∧ r.agendamento_id = a.id ∧
    (Q st.w a → r.status = okStatus ∧ (body st a).2.count = st.count + 1) ∧
    (¬ Q st.w a → r.status = "erro" ∧ (body st a).2.count = st.count)

/-- A booking on the given date, for the examples of the monthly report. -/
def exemploNoDia (dia : String) : Agendamento :=
  { id := 0, cliente_id := 1, servico_id := 1, data_agendamento := dia,
    horario := some "09:00", horario_agendamento := none, status := "pendente",
    confirmado_em := none, cancelado_em := none, motivo_cancelamento := none, outros := [] }

/-- A monthly selection with 3, 1, 4, 1 and 5 bookings on five dates. -/
def exemploMes : List Agendamento :=
  List.replicate 3 (exemploNoDia "2024-05-02") ++ List.replicate 1 (exemploNoDia "2024-05-03") ++
    List.replicate 4 (exemploNoDia "2024-05-06") ++ List.replicate 1 (exemploNoDia "2024-05-07") ++
    List.replicate 5 (exemploNoDia "2024-05-10")

/-- An active collaborator. -/
def exemploColaborador : Colaborador :=
  { id := 1, nome := "João", cargo := "Barbeiro", telefone := "11999990000",
    email := "joao@barbearia.com", status := "Ativo", servicos_semana := 0, avaliacao := 0,
    data_cadastro := "2024-05-10", especialidades := "[]", horario_trabalho := "{}",
    observacoes := "" }

/-- A second record stored under the same id with another email. -/
def exemploColaboradorMesmoId : Colaborador :=
  { exemploColaborador with nome := "Pedro", email := "pedro@barbearia.com" }

/-- A body with the four required fields. -/
def exemploBody (email : String) : ColaboradorBody :=
  { nome := some "João", cargo := some "Barbeiro", telefone := some "11999990000",
    email := some email, status := none, especialidades := none, horario_trabalho := none,
    observacoes := none }

/-- Friday 10 May 2024, 12:00 in São Paulo (UTC-3): 15:00 UTC. -/
def relogioSaoPaulo : Clock :=
  { nowMs := 1715353200000, tzMs := -10800000 }

/-- Friday 10 May 2024, 12:00 in a process running in UTC. -/
def relogioUTC : Clock :=
  { nowMs := 1715342400000, tzMs := 0 }

/-- Wednesday 29 May 2024, 12:00 in a process running in UTC: the week runs
from Sunday 26 May to Saturday 1 June. -/
def relogioFimDeMaio : Clock :=
  { nowMs := 1716984000000, tzMs := 0 }

/-- An environment whose date formatting follows the given clock. -/
def Env.comRelogio (c : Clock) : Env :=
  { Env.allOk with fmtDate := fmtDateAt c, todayPtBR := ptBRDate (localDay c) }

/-- As `Env.allOk`, but `fs.writeFileSync` on the bookings file throws. -/
def Env.writeFails : Env :=
  { Env.allOk with writeOutcome := fun _ => some "ENOSPC: no space left on device" }

/-- As `Env.allOk`, but `clientes.json` does not parse. -/
def Env.clientesIlegivel : Env :=
  { Env.allOk with
    readOutcome := fun f => if f = "clientes.json" then some "Unexpected end of JSON input" else none }

/-- A booking pending on 29 May 2024 whose client has a phone. -/
def exemploFimDeMaio : Agendamento :=
  { exemploPendente with id := 5, data_agendamento := "2024-05-29" }

/-- The files of `exemploTresDb` with one more booking, on 29 May 2024. -/
def exemploDoisDiasDb : Database :=
  { exemploTresDb with
    agendamentos := some [exemploPendente, exemploSemCliente, exemploPendente2, exemploFimDeMaio] }

/-- A monthly selection of forty bookings, twenty-three of them confirmed. -/
def exemploQuarenta : List Agendamento :=
  List.replicate 23 { exemploNoDia "2024-05-02" with status := "confirmado" } ++
    List.replicate 17 (exemploNoDia "2024-05-03")

/-- A monthly selection of eight bookings, one of them confirmed. -/
def exemploOito : List Agendamento :=
  { exemploNoDia "2024-05-02" with status := "confirmado" } ::
    List.replicate 7 (exemploNoDia "2024-05-03")

/-! ## Theorems -/

theorem pushCapped_eq (logs : List LogEntry) (e : LogEntry) :
    pushCapped logs e = (logs ++ [e]).drop (logs.length + 1 - 100) := by
  unfold pushCapped
  simp only [List.length_append, List.length_singleton]
  split
  · rfl
  · have h : logs.length + 1 - 100 = 0 := by omega
    rw [h, List.drop_zero]

/-- C1: for every prior log list and every entry, `logMessage` leaves a list of
length `min (n + 1) 100` that is a suffix of the prior list with the new entry
appended (so exactly its last 100 elements); the new entry is last, and when
the prior list held 100 entries exactly its oldest entry is removed. -/
theorem logMessage_keeps_last_100 (env : Env) (w : World) (type message : String) :
    let e : LogEntry := { timestamp := env.now w.tick, type := type, message := message }
    let logs1 := (logMessage env w type message).logs
    logs1.length = min (w.logs.length + 1) 100 ∧
    logs1 <:+ w.logs ++ [e] ∧
    logs1.getLast? = some e ∧
    (∀ oldest rest, w.logs = oldest :: rest → rest.length = 99 → logs1 = rest ++ [e]) := by
  intro e logs1
  have h : logs1 = (w.logs ++ [e]).drop (w.logs.length + 1 - 100) := pushCapped_eq w.logs e
  refine ⟨?_, ?_, ?_, ?_⟩
  · rw [h]; simp only [List.length_drop, List.length_append, List.length_singleton]; omega
  · rw [h]; exact List.drop_suffix _ _
  · rw [h, List.getLast?_drop]
    simp only [List.length_append, List.length_singleton, List.getLast?_append, List.getLast?_singleton]
    split
    · omega
    · rfl
  · intro oldest rest hl hr
    rw [h, hl]
    simp [hr]

/-! ### Frame lemmas -/

@[simp] theorem logMessage_svc (env : Env) (w : World) (t m : String) :
    (logMessage env w t m).svc = w.svc := rfl

@[simp] theorem logMessage_calls (env : Env) (w : World) (t m : String) :
    (logMessage env w t m).calls = w.calls := rfl

@[simp] theorem logMessage_authFiles (env : Env) (w : World) (t m : String) :
    (logMessage env w t m).authFiles = w.authFiles := rfl

@[simp] theorem logMessage_logs (env : Env) (w : World) (t m : String) :
    (logMessage env w t m).logs =
      pushCapped w.logs { timestamp := env.now w.tick, type := t, message := m } := rfl

theorem pushCapped_getLast (logs : List LogEntry) (e : LogEntry) :
    (pushCapped logs e).getLast? = some e := by
  rw [pushCapped_eq, List.getLast?_drop]
  simp only [List.length_append, List.length_singleton, List.getLast?_append,
    List.getLast?_singleton]
  split
  · omega
  · rfl

@[simp] theorem disconnect_authFiles (env : Env) (w : World) :
    (disconnect env w).2.authFiles = w.authFiles := by
  unfold disconnect disconnectReset
  cases w.svc.sock with
  | none => rfl
  | some s =>
    dsimp only
    cases env.logoutOutcome (logMessage env w "info" "Desconectando WhatsApp").calls.length <;> rfl

/-- C2: while connected `connect()` reports success, while connecting (and not
connected) it reports failure; either way the state is returned as it was, so
no credential load and no socket creation is recorded and `sock`,
`isConnected`, `isConnecting` and `currentQRCode` keep their values. -/
theorem connect_guarded (env : Env) (w : World)
    (h : w.svc.isConnected = true ∨ w.svc.isConnecting = true) :
    (connect env w).1.success = w.svc.isConnected ∧
    (connect env w).2 = w ∧
    (connect env w).2.calls = w.calls ∧
    (connect env w).2.svc = w.svc := by
  unfold connect
  by_cases hc : w.svc.isConnected = true
  · simp [hc]
  · have hg : w.svc.isConnecting = true := h.resolve_left hc
    simp [hc, hg]

theorem connect_guarded_witness :
    ((connect Env.allOk World.connected).1.success = true ∧
      (connect Env.allOk World.connected).2 = World.connected) ∧
    ((connect Env.allOk World.connecting).1.success = false ∧
      (connect Env.allOk World.connecting).2 = World.connecting) :=
  ⟨⟨(connect_guarded Env.allOk World.connected (Or.inl rfl)).1,
    (connect_guarded Env.allOk World.connected (Or.inl rfl)).2.1⟩,
   ⟨(connect_guarded Env.allOk World.connecting (Or.inr rfl)).1,
    (connect_guarded Env.allOk World.connecting (Or.inr rfl)).2.1⟩⟩

/-- C3 fails as stated: on a connected session whose `logout` throws,
`disconnect()` leaves `connected = true` and keeps the session handle. -/
theorem disconnect_logout_fails_counterexample :
    (getStatus (disconnect Env.logoutFails World.connected).2).connected = true ∧
    (disconnect Env.logoutFails World.connected).2.svc.sock = some 0 := by
  decide

/-- C3 (amended): when there is no session handle or `logout` succeeds,
`disconnect()` reports success and a following `getStatus()` yields
`connected = false`, `qrCode = null`, with the handle discarded; when `logout`
throws, `disconnect()` reports failure with the error's message, logs an
`error` entry and leaves the service fields as they were. -/
theorem disconnect_then_getStatus (env : Env) (w : World) :
    (w.svc.sock = none ∨ env.logoutOutcome w.calls.length = none →
      (disconnect env w).1.success = true ∧
      (getStatus (disconnect env w).2).connected = false ∧
      (getStatus (disconnect env w).2).qrCode = none ∧
      (disconnect env w).2.svc.sock = none) ∧
    (∀ s err, w.svc.sock = some s → env.logoutOutcome w.calls.length = some err →
      (disconnect env w).1 = { success := false, message := err } ∧
      (disconnect env w).2.svc = w.svc ∧
      (disconnect env w).2.logs.getLast? =
        some { timestamp := env.now (w.tick + 1), type := "error",
               message := "Erro ao desconectar: " ++ err }) := by
  constructor
  · intro h
    unfold disconnect disconnectReset getStatus
    cases hs : w.svc.sock with
    | none => simp [hs]
    | some s =>
      have hl : env.logoutOutcome w.calls.length = none := by
        rcases h with h | h
        · rw [hs] at h; cases h
        · exact h
      simp [hl, recordCall]
  · intro s err hs hl
    have hd : disconnect env w =
        ({ success := false, message := err },
         logMessage env (recordCall (logMessage env w "info" "Desconectando WhatsApp") .logout)
           "error" ("Erro ao desconectar: " ++ err)) := by
      unfold disconnect
      simp only [hs, logMessage_calls, hl]
    rw [hd]
    exact ⟨rfl, rfl, pushCapped_getLast _ _⟩

theorem disconnect_then_getStatus_witness :
    ((disconnect Env.allOk World.connected).1.success = true ∧
      (getStatus (disconnect Env.allOk World.connected).2).connected = false ∧
      (getStatus (disconnect Env.allOk World.connected).2).qrCode = none ∧
      (disconnect Env.allOk World.connected).2.svc.sock = none) ∧
    (disconnect Env.logoutFails World.connected).2.svc = World.connected.svc :=
  ⟨(disconnect_then_getStatus Env.allOk World.connected).1 (Or.inr rfl),
   ((disconnect_then_getStatus Env.logoutFails World.connected).2 0 "Connection Closed"
      rfl rfl).2.1⟩

@[simp] theorem handleQR_authFiles (env : Env) (w : World) (u : ConnectionUpdate) :
    (handleQR env w u).authFiles = w.authFiles := by
  unfold handleQR
  cases u.qr with
  | none => rfl
  | some qr =>
    dsimp only
    split
    · rfl
    · cases env.qrToDataURL qr <;> rfl

@[simp] theorem handleOpen_authFiles (env : Env) (w : World) (u : ConnectionUpdate) :
    (handleOpen env w u).authFiles = w.authFiles := by
  unfold handleOpen
  split <;> rfl

theorem unlinkAll_remaining (env : Env) (files : List String) :
    (unlinkAll env files).1 = files.dropWhile (fun f => (env.unlinkOutcome f).isNone) := by
  induction files with
  | nil => rfl
  | cons f fs ih =>
    unfold unlinkAll
    cases h : env.unlinkOutcome f with
    | none => simpa [List.dropWhile, h] using ih
    | some err => simp [List.dropWhile, h]

theorem clearSession_authFiles (env : Env) (w : World) :
    (clearSession env w).authFiles =
      w.authFiles.map (List.dropWhile (fun f => (env.unlinkOutcome f).isNone)) := by
  unfold clearSession
  have hd := disconnect_authFiles env w
  generalize (disconnect env w).2 = w1 at hd
  dsimp only
  cases hf : w1.authFiles with
  | none => rw [← hd, hf]; rfl
  | some files =>
    rw [← hd, hf]
    have hr := unlinkAll_remaining env files
    dsimp only
    rcases hu : unlinkAll env files with ⟨remaining, _ | err⟩
    · rw [hu] at hr
      have hnone : ∀ l : List String, (unlinkAll env l).2 = none → (unlinkAll env l).1 = [] := by
        intro l
        induction l with
        | nil => intro _; rfl
        | cons f fs ih =>
          unfold unlinkAll
          cases env.unlinkOutcome f with
          | none => exact ih
          | some e => intro hc; cases hc
      have he := hnone files (by rw [hu])
      rw [hu] at he
      simp only at he hr
      simp only [logMessage_authFiles, Option.map_some', ← hr, he]
    · rw [hu] at hr
      simp only at hr
      simp only [logMessage_authFiles, Option.map_some', ← hr]

/-- C4 fails as stated: a close with status `loggedOut` whose file deletion
throws leaves the credential file in place. -/
theorem loggedOut_close_keeps_file_counterexample :
    (onConnectionUpdate Env.unlinkFails World.connected
      { connection := some "close", statusCode := some DisconnectReason.loggedOut,
        qr := none }).authFiles = some ["creds.json"] := by
  decide

/-- C4 (amended): on a close event with status `loggedOut` the credential files
are deleted in listing order up to the first deletion that throws, whether or
not the transport logout succeeds; in particular the directory holds no file
afterwards when no deletion throws. With status `restartRequired`, any other
status or none, the credential files are exactly those held before. -/
theorem close_event_credentials (env : Env) (w : World) (u : ConnectionUpdate)
    (hclose : u.connection = some "close") :
    (u.statusCode = some DisconnectReason.loggedOut →
      (onConnectionUpdate env w u).authFiles =
        w.authFiles.map (List.dropWhile (fun f => (env.unlinkOutcome f).isNone)) ∧
      ((∀ f ∈ w.authFiles.getD [], env.unlinkOutcome f = none) →
        (onConnectionUpdate env w u).authFiles.getD [] = [])) ∧
    (u.statusCode ≠ some DisconnectReason.loggedOut →
      (onConnectionUpdate env w u).authFiles = w.authFiles) := by
  constructor
  · intro hs
    have h1 : (onConnectionUpdate env w u).authFiles =
        w.authFiles.map (List.dropWhile (fun f => (env.unlinkOutcome f).isNone)) := by
      unfold onConnectionUpdate handleClose
      simp only [hclose, hs, if_true]
      rw [clearSession_authFiles]
      simp
    refine ⟨h1, ?_⟩
    intro hall
    rw [h1]
    cases hf : w.authFiles with
    | none => rfl
    | some files =>
      rw [hf] at hall
      simp only [Option.getD_some] at hall
      simp only [Option.map_some', Option.getD_some, List.dropWhile_eq_nil_iff]
      intro f hfm
      simp [hall f hfm]
  · intro hs
    unfold onConnectionUpdate handleClose
    simp only [hclose, hs, if_true, if_false]
    split <;> simp

theorem close_event_credentials_witness :
    (onConnectionUpdate Env.logoutFails World.connected
      { connection := some "close", statusCode := some DisconnectReason.loggedOut,
        qr := none }).authFiles.getD [] = [] ∧
    (onConnectionUpdate Env.allOk World.connected
      { connection := some "close", statusCode := some DisconnectReason.restartRequired,
        qr := none }).authFiles = some ["creds.json"] :=
  ⟨((close_event_credentials Env.logoutFails World.connected
      { connection := some "close", statusCode := some DisconnectReason.loggedOut,
        qr := none } rfl).1 rfl).2 (by intro f _; rfl),
   (close_event_credentials Env.allOk World.connected
      { connection := some "close", statusCode := some DisconnectReason.restartRequired,
        qr := none } rfl).2 (by decide)⟩

/-! ### Message dispatch -/

theorem digitsOf_length (to_ : String) :
    (digitsOf to_).length = to_.data.countP Char.isDigit := by
  unfold digitsOf
  rw [List.countP_eq_length_filter]
  rfl

theorem isTestNumber_iff (phoneNumber : String) :
    isTestNumber phoneNumber = true ↔
      "5511".data <+: phoneNumber.data ∧ phoneNumber.length = 13 := by
  unfold isTestNumber
  rw [Bool.and_eq_true, List.isPrefixOf_iff_prefix, beq_iff_eq]

theorem guard_passes (w : World) (hc : w.svc.isConnected = true) (hs : w.svc.sock ≠ none) :
    (!w.svc.isConnected || w.svc.sock.isNone) = false := by
  cases h : w.svc.sock with
  | none => exact absurd h hs
  | some s => simp [hc]

theorem sendMessage_of_guard (env : Env) (w : World) (to_ message : String)
    (hg : (!w.svc.isConnected || w.svc.sock.isNone) = false) :
    sendMessage env w to_ message =
      match sendBody env w to_ message with
      | (.ok phoneNumber, w1) =>
        (.ok { recipient := phoneNumber },
         logMessage env w1 "success" ("Mensagem enviada para " ++ phoneNumber))
      | (.error e, w1) =>
        (.error e, logMessage env w1 "error" ("Erro ao enviar mensagem: " ++ e.message)) := by
  unfold sendMessage
  simp only [hg, Bool.false_eq_true, if_false]

theorem sendBody_invalid (env : Env) (w : World) (to_ message : String)
    (h : (digitsOf to_).length < 10) :
    sendBody env w to_ message = (.error .invalidPhone, w) := by
  unfold sendBody
  simp only [h, if_true]

theorem sendBody_test (env : Env) (w : World) (to_ message : String)
    (h : ¬ (digitsOf to_).length < 10) (ht : isTestNumber (digitsOf to_) = true) :
    sendBody env w to_ message =
      ((match env.sendOutcome w.calls.length (buildJid to_) message with
        | some msg => .error (.transport msg)
        | none => .ok (digitsOf to_)),
       recordCall w (.sendMessage (buildJid to_) message)) := by
  unfold sendBody
  simp only [h, if_false, ht, Bool.not_true, Bool.false_eq_true]
  cases env.sendOutcome w.calls.length (buildJid to_) message <;> rfl

theorem sendBody_real (env : Env) (w : World) (to_ message : String)
    (h : ¬ (digitsOf to_).length < 10) (ht : isTestNumber (digitsOf to_) = false) :
    sendBody env w to_ message =
      match env.onWhatsAppOutcome w.calls.length (buildJid to_) with
      | .error msg => (.error (.transport msg), recordCall w (.onWhatsApp (buildJid to_)))
      | .ok none =>
        (.error (.notRegistered (digitsOf to_)), recordCall w (.onWhatsApp (buildJid to_)))
      | .ok (some result) =>
        if result.exists_ = false then
          (.error (.notRegistered (digitsOf to_)), recordCall w (.onWhatsApp (buildJid to_)))
        else
          ((match env.sendOutcome (w.calls.length + 1) result.jid message with
            | some msg => .error (.transport msg)
            | none => .ok (digitsOf to_)),
           recordCall (recordCall w (.onWhatsApp (buildJid to_)))
             (.sendMessage result.jid message)) := by
  unfold sendBody
  simp only [h, if_false, ht, Bool.not_false, if_true]
  rcases env.onWhatsAppOutcome w.calls.length (buildJid to_) with msg | _ | result
  · rfl
  · rfl
  · dsimp only
    cases hx : result.exists_
    · simp
    · simp only [Bool.not_true, Bool.false_eq_true, if_false, recordCall, List.length_append,
        List.length_singleton]
      cases env.sendOutcome (w.calls.length + 1) result.jid message <;> rfl

theorem sendBody_frame (env : Env) (w : World) (to_ message : String) :
    (sendBody env w to_ message).2.logs = w.logs ∧
    (sendBody env w to_ message).2.tick = w.tick ∧
    (sendBody env w to_ message).2.svc = w.svc ∧
    (sendBody env w to_ message).2.authFiles = w.authFiles := by
  by_cases h : (digitsOf to_).length < 10
  · rw [sendBody_invalid env w to_ message h]
    exact ⟨rfl, rfl, rfl, rfl⟩
  · cases ht : isTestNumber (digitsOf to_)
    · rw [sendBody_real env w to_ message h ht]
      rcases env.onWhatsAppOutcome w.calls.length (buildJid to_) with msg | _ | result
      · exact ⟨rfl, rfl, rfl, rfl⟩
      · exact ⟨rfl, rfl, rfl, rfl⟩
      · dsimp only
        split <;> exact ⟨rfl, rfl, rfl, rfl⟩
    · rw [sendBody_test env w to_ message h ht]
      exact ⟨rfl, rfl, rfl, rfl⟩

theorem sendBody_not_invalid (env : Env) (w : World) (to_ message : String)
    (h : ¬ (digitsOf to_).length < 10) :
    (sendBody env w to_ message).1 ≠ .error .invalidPhone := by
  cases ht : isTestNumber (digitsOf to_)
  · rw [sendBody_real env w to_ message h ht]
    rcases env.onWhatsAppOutcome w.calls.length (buildJid to_) with msg | _ | result
    · simp
    · simp
    · dsimp only
      split
      · simp
      · dsimp only
        cases env.sendOutcome (w.calls.length + 1) result.jid message <;> simp
  · rw [sendBody_test env w to_ message h ht]
    dsimp only
    cases env.sendOutcome w.calls.length (buildJid to_) message <;> simp

theorem sendMessage_fst (env : Env) (w : World) (to_ message : String)
    (hg : (!w.svc.isConnected || w.svc.sock.isNone) = false) :
    (sendMessage env w to_ message).1 =
      match (sendBody env w to_ message).1 with
      | .ok phoneNumber => .ok { recipient := phoneNumber }
      | .error e => .error e := by
  rw [sendMessage_of_guard env w to_ message hg]
  rcases sendBody env w to_ message with ⟨_ | _, w1⟩ <;> rfl

theorem sendMessage_calls (env : Env) (w : World) (to_ message : String)
    (hg : (!w.svc.isConnected || w.svc.sock.isNone) = false) :
    (sendMessage env w to_ message).2.calls = (sendBody env w to_ message).2.calls := by
  rw [sendMessage_of_guard env w to_ message hg]
  rcases sendBody env w to_ message with ⟨_ | _, w1⟩ <;> rfl

theorem sendMessage_guard_fails (env : Env) (w : World) (to_ message : String)
    (h : w.svc.isConnected = false ∨ w.svc.sock = none) :
    sendMessage env w to_ message = (.error .notConnected, w) := by
  have hg : (!w.svc.isConnected || w.svc.sock.isNone) = true := by
    rcases h with h | h <;> simp [h]
  unfold sendMessage
  simp [hg]

/-- C5: when `isConnected` is false or the session handle is null,
`sendMessage` fails with the not-connected error whatever the address and body,
and returns the state as it was: neither the registration check nor the
transport send is recorded. -/
theorem sendMessage_not_connected (env : Env) (w : World) (to_ message : String)
    (h : w.svc.isConnected = false ∨ w.svc.sock = none) :
    sendMessage env w to_ message = (.error .notConnected, w) ∧
    (sendMessage env w to_ message).2.calls = w.calls := by
  have hr := sendMessage_guard_fails env w to_ message h
  exact ⟨hr, by rw [hr]⟩

theorem sendMessage_not_connected_witness :
    sendMessage Env.allOk World.fresh "123" "oi" = (.error .notConnected, World.fresh) ∧
    (sendMessage Env.allOk World.fresh "123" "oi").2.calls = [] :=
  sendMessage_not_connected Env.allOk World.fresh "123" "oi" (Or.inl rfl)

/-- C6: on a connected session an address with fewer than 10 digit characters
makes `sendMessage` fail with the invalid-phone-number error without any
transport call; an address with at least 10 digits never gets this error. -/
theorem sendMessage_invalid_phone (env : Env) (w : World) (to_ message : String)
    (hc : w.svc.isConnected = true) (hs : w.svc.sock ≠ none) :
    (to_.data.countP Char.isDigit < 10 →
      (sendMessage env w to_ message).1 = .error .invalidPhone ∧
      (sendMessage env w to_ message).2.calls = w.calls) ∧
    (10 ≤ to_.data.countP Char.isDigit →
      (sendMessage env w to_ message).1 ≠ .error .invalidPhone) := by
  have hg := guard_passes w hc hs
  have hlen := digitsOf_length to_
  constructor
  · intro hlt
    have h10 : (digitsOf to_).length < 10 := by omega
    rw [sendMessage_fst env w to_ message hg, sendMessage_calls env w to_ message hg,
      sendBody_invalid env w to_ message h10]
    exact ⟨rfl, rfl⟩
  · intro hge
    have h10 : ¬ (digitsOf to_).length < 10 := by omega
    have hb := sendBody_not_invalid env w to_ message h10
    rw [sendMessage_fst env w to_ message hg]
    rcases hr : (sendBody env w to_ message).1 with e | p
    · rw [hr] at hb
      simpa using hb
    · simp

theorem sendMessage_invalid_phone_witness :
    ((sendMessage Env.allOk World.connected "123@s.whatsapp.net" "oi").1 = .error .invalidPhone ∧
      (sendMessage Env.allOk World.connected "123@s.whatsapp.net" "oi").2.calls = []) ∧
    (sendMessage Env.allOk World.connected "(11) 99876-1833" "oi").1 ≠ .error .invalidPhone :=
  ⟨(sendMessage_invalid_phone Env.allOk World.connected "123@s.whatsapp.net" "oi" rfl
      (by decide)).1 (by decide),
   (sendMessage_invalid_phone Env.allOk World.connected "(11) 99876-1833" "oi" rfl
      (by decide)).2 (by decide)⟩

theorem sendBody_first_call (env : Env) (w : World) (to_ message : String)
    (h : ¬ (digitsOf to_).length < 10) :
    ∃ rest,
      (sendBody env w to_ message).2.calls =
        w.calls ++ (if isTestNumber (digitsOf to_) = true
          then TransportCall.sendMessage (buildJid to_) message
          else TransportCall.onWhatsApp (buildJid to_)) :: rest := by
  cases ht : isTestNumber (digitsOf to_)
  · rw [sendBody_real env w to_ message h ht]
    rcases env.onWhatsAppOutcome w.calls.length (buildJid to_) with msg | _ | result
    · exact ⟨[], rfl⟩
    · exact ⟨[], rfl⟩
    · dsimp only
      split
      · exact ⟨[], rfl⟩
      · exact ⟨[TransportCall.sendMessage result.jid message], by simp [recordCall]⟩
  · rw [sendBody_test env w to_ message h ht]
    exact ⟨[], rfl⟩

theorem sendBody_error_kind (env : Env) (w : World) (to_ message : String) :
    ∀ e, (sendBody env w to_ message).1 = .error e →
      e = .invalidPhone ∨ e = .notRegistered (digitsOf to_) ∨ ∃ msg, e = .transport msg := by
  by_cases h : (digitsOf to_).length < 10
  · rw [sendBody_invalid env w to_ message h]
    intro e he
    cases he
    exact Or.inl rfl
  · cases ht : isTestNumber (digitsOf to_)
    · rw [sendBody_real env w to_ message h ht]
      rcases env.onWhatsAppOutcome w.calls.length (buildJid to_) with msg | _ | result
      · intro e he
        cases he
        exact Or.inr (Or.inr ⟨msg, rfl⟩)
      · intro e he
        cases he
        exact Or.inr (Or.inl rfl)
      · dsimp only
        split
        · intro e he
          cases he
          exact Or.inr (Or.inl rfl)
        · dsimp only
          cases env.sendOutcome (w.calls.length + 1) result.jid message with
          | none => intro e he; cases he
          | some msg =>
            intro e he
            cases he
            exact Or.inr (Or.inr ⟨msg, rfl⟩)
    · rw [sendBody_test env w to_ message h ht]
      dsimp only
      cases env.sendOutcome w.calls.length (buildJid to_) message with
      | none => intro e he; cases he
      | some msg =>
        intro e he
        cases he
        exact Or.inr (Or.inr ⟨msg, rfl⟩)

/-- C7: for a valid address on a connected session, the protocol address built
by `sendMessage`, which is the one handed to the first transport call it makes,
is the input itself when the input contains '@' and otherwise the digits of the
input followed by '@s.whatsapp.net'. -/
theorem sendMessage_builds_jid (env : Env) (w : World) (to_ message : String)
    (hc : w.svc.isConnected = true) (hs : w.svc.sock ≠ none)
    (hv : 10 ≤ to_.data.countP Char.isDigit) :
    ∃ jid rest,
      jid = (if '@' ∈ to_.data then to_
             else String.mk (to_.data.filter Char.isDigit) ++ "@s.whatsapp.net") ∧
      buildJid to_ = jid ∧
      ((sendMessage env w to_ message).2.calls = w.calls ++ .onWhatsApp jid :: rest ∨
       (sendMessage env w to_ message).2.calls = w.calls ++ .sendMessage jid message :: rest) := by
  have hg := guard_passes w hc hs
  have h10 : ¬ (digitsOf to_).length < 10 := by
    have := digitsOf_length to_
    omega
  obtain ⟨rest, hrest⟩ := sendBody_first_call env w to_ message h10
  refine ⟨buildJid to_, rest, rfl, rfl, ?_⟩
  rw [sendMessage_calls env w to_ message hg, hrest]
  cases isTestNumber (digitsOf to_)
  · exact Or.inl rfl
  · exact Or.inr rfl

theorem sendMessage_builds_jid_witness :
    ∃ jid rest,
      jid = (if '@' ∈ "5521987654321@s.whatsapp.net".data then "5521987654321@s.whatsapp.net"
             else String.mk ("5521987654321@s.whatsapp.net".data.filter Char.isDigit) ++
               "@s.whatsapp.net") ∧
      buildJid "5521987654321@s.whatsapp.net" = jid ∧
      ((sendMessage Env.allOk World.connected "5521987654321@s.whatsapp.net" "oi").2.calls =
          World.connected.calls ++ .onWhatsApp jid :: rest ∨
       (sendMessage Env.allOk World.connected "5521987654321@s.whatsapp.net" "oi").2.calls =
          World.connected.calls ++ .sendMessage jid "oi" :: rest) :=
  sendMessage_builds_jid Env.allOk World.connected "5521987654321@s.whatsapp.net" "oi" rfl
    (by decide) (by decide)

/-- C8: for a valid address on a connected session, the message is sent
directly, with no registration check, exactly when the normalised number
starts with '5511' and has 13 digits; otherwise the registration check is the
first transport call, and when it reports no existing registration
`sendMessage` fails with the error naming the normalised number and the
transport send is not invoked. -/
theorem sendMessage_registration_policy (env : Env) (w : World) (to_ message : String)
    (hc : w.svc.isConnected = true) (hs : w.svc.sock ≠ none)
    (hv : 10 ≤ to_.data.countP Char.isDigit) :
    (("5511".data <+: (digitsOf to_).data ∧ (digitsOf to_).length = 13) ↔
      (sendMessage env w to_ message).2.calls =
        w.calls ++ [.sendMessage (buildJid to_) message]) ∧
    (¬ ("5511".data <+: (digitsOf to_).data ∧ (digitsOf to_).length = 13) →
      (∃ rest, (sendMessage env w to_ message).2.calls =
        w.calls ++ .onWhatsApp (buildJid to_) :: rest) ∧
      ((env.onWhatsAppOutcome w.calls.length (buildJid to_) = .ok none ∨
        ∃ result, env.onWhatsAppOutcome w.calls.length (buildJid to_) = .ok (some result) ∧
          result.exists_ = false) →
        (sendMessage env w to_ message).1 = .error (.notRegistered (digitsOf to_)) ∧
        (SendError.notRegistered (digitsOf to_)).message =
          "Número " ++ digitsOf to_ ++ " não está registrado no WhatsApp" ∧
        (sendMessage env w to_ message).2.calls = w.calls ++ [.onWhatsApp (buildJid to_)])) := by
  have hg := guard_passes w hc hs
  have h10 : ¬ (digitsOf to_).length < 10 := by
    have := digitsOf_length to_
    omega
  rw [← isTestNumber_iff, sendMessage_calls env w to_ message hg,
    sendMessage_fst env w to_ message hg]
  obtain ⟨rest, hrest⟩ := sendBody_first_call env w to_ message h10
  cases ht : isTestNumber (digitsOf to_)
  · rw [ht] at hrest
    refine ⟨?_, ?_⟩
    · constructor
      · intro hf; cases hf
      · intro hcalls
        rw [hrest] at hcalls
        have := List.append_cancel_left hcalls
        simp at this
    · intro _
      refine ⟨⟨rest, by simpa using hrest⟩, ?_⟩
      intro hreg
      rw [sendBody_real env w to_ message h10 ht]
      rcases hreg with hreg | ⟨result, hreg, hex⟩
      · rw [hreg]
        exact ⟨rfl, rfl, rfl⟩
      · rw [hreg]
        dsimp only
        rw [if_pos hex]
        exact ⟨rfl, rfl, rfl⟩
  · refine ⟨?_, ?_⟩
    · constructor
      · intro _
        rw [sendBody_test env w to_ message h10 ht]
        rfl
      · intro _; rfl
    · intro hn
      exact absurd rfl hn

theorem sendMessage_registration_policy_witness :
    (sendMessage Env.nobodyRegistered World.connected "5511998761833" "oi").2.calls =
      [.sendMessage "5511998761833@s.whatsapp.net" "oi"] ∧
    (sendMessage Env.nobodyRegistered World.connected "(21) 98765-4321" "oi").1 =
      .error (.notRegistered "21987654321") ∧
    (sendMessage Env.nobodyRegistered World.connected "(21) 98765-4321" "oi").2.calls =
      [.onWhatsApp "21987654321@s.whatsapp.net"] :=
  ⟨(sendMessage_registration_policy Env.nobodyRegistered World.connected "5511998761833" "oi"
      rfl (by decide) (by decide)).1.1 (by decide),
   (((sendMessage_registration_policy Env.nobodyRegistered World.connected "(21) 98765-4321"
      "oi" rfl (by decide) (by decide)).2 (by decide)).2 (Or.inl rfl)).1,
   (((sendMessage_registration_policy Env.nobodyRegistered World.connected "(21) 98765-4321"
      "oi" rfl (by decide) (by decide)).2 (by decide)).2 (Or.inl rfl)).2.2⟩

/-- C9 fails as stated: the not-connected failure is thrown before the `try`
block, so it reaches the caller without any entry being added to the log. -/
theorem sendMessage_not_connected_unlogged_counterexample :
    (sendMessage Env.allOk World.fresh "5511998761833" "oi").1 = .error .notConnected ∧
    (sendMessage Env.allOk World.fresh "5511998761833" "oi").2.logs = [] :=
  ⟨rfl, rfl⟩

/-- C9 (amended): every failure of `sendMessage` raised after the connection
check (invalid address, unregistered recipient, transport error) is returned to
the caller as raised, after one entry of level 'error' carrying its message has
been appended to the event log; the not-connected failure is returned as well,
with the state, log included, left as it was. -/
theorem sendMessage_failures_logged (env : Env) (w : World) (to_ message : String) :
    (w.svc.isConnected = true → w.svc.sock ≠ none →
      ∀ e, (sendBody env w to_ message).1 = .error e →
        e ≠ .notConnected ∧
        (sendMessage env w to_ message).1 = .error e ∧
        (sendMessage env w to_ message).2.logs =
          pushCapped w.logs { timestamp := env.now w.tick, type := "error",
                              message := "Erro ao enviar mensagem: " ++ e.message } ∧
        (sendMessage env w to_ message).2.logs.getLast? =
          some { timestamp := env.now w.tick, type := "error",
                 message := "Erro ao enviar mensagem: " ++ e.message }) ∧
    (w.svc.isConnected = true → w.svc.sock ≠ none →
      ∀ r, (sendMessage env w to_ message).1 = .ok r →
        (sendBody env w to_ message).1 = .ok r.recipient) ∧
    (w.svc.isConnected = false ∨ w.svc.sock = none →
      sendMessage env w to_ message = (.error .notConnected, w)) := by
  refine ⟨?_, ?_, ?_⟩
  · intro hc hs e he
    have hg := guard_passes w hc hs
    have hne : e ≠ .notConnected := by
      rcases sendBody_error_kind env w to_ message e he with h | h | ⟨msg, h⟩ <;>
        rw [h] <;> simp
    have hf := sendBody_frame env w to_ message
    have hlogs : (sendMessage env w to_ message).2.logs =
        pushCapped w.logs { timestamp := env.now w.tick, type := "error",
                            message := "Erro ao enviar mensagem: " ++ e.message } := by
      rw [sendMessage_of_guard env w to_ message hg]
      rcases hb : sendBody env w to_ message with ⟨r, w1⟩
      rw [hb] at he hf
      dsimp only at he hf
      subst he
      dsimp only
      rw [logMessage_logs, hf.1, hf.2.1]
    refine ⟨hne, ?_, hlogs, ?_⟩
    · rw [sendMessage_fst env w to_ message hg, he]
    · rw [hlogs]
      exact pushCapped_getLast _ _
  · intro hc hs r hr
    have hg := guard_passes w hc hs
    rw [sendMessage_fst env w to_ message hg] at hr
    rcases hb : (sendBody env w to_ message).1 with e | p
    · rw [hb] at hr
      cases hr
    · rw [hb] at hr
      cases hr
      rfl
  · intro h
    exact sendMessage_guard_fails env w to_ message h

theorem sendMessage_failures_logged_witness :
    (sendMessage Env.allOk World.connected "123" "oi").1 = .error .invalidPhone ∧
    (sendMessage Env.allOk World.connected "123" "oi").2.logs.getLast? =
      some { timestamp := Env.allOk.now 0, type := "error",
             message := "Erro ao enviar mensagem: " ++ SendError.invalidPhone.message } ∧
    sendMessage Env.allOk World.fresh "123" "oi" = (.error .notConnected, World.fresh) :=
  ⟨((sendMessage_failures_logged Env.allOk World.connected "123" "oi").1 rfl (by decide)
      .invalidPhone rfl).2.1,
   ((sendMessage_failures_logged Env.allOk World.connected "123" "oi").1 rfl (by decide)
      .invalidPhone rfl).2.2.2,
   (sendMessage_failures_logged Env.allOk World.fresh "123" "oi").2.2 (Or.inl rfl)⟩

/-! ### Bulk workflows -/

theorem bulkLoop_cons (target : Agendamento → Bool)
    (body : LoopState → Agendamento → Agendamento × LoopState)
    (a : Agendamento) (rest : List Agendamento) (st : LoopState) :
    bulkLoop target body (a :: rest) st =
      (let r := if target a = true then body st a else (a, st)
       (r.1 :: (bulkLoop target body rest r.2).1, (bulkLoop target body rest r.2).2)) := by
  rw [bulkLoop]
  split <;> rfl

theorem bulkLoop_length (target : Agendamento → Bool)
    (body : LoopState → Agendamento → Agendamento × LoopState) :
    ∀ (l : List Agendamento) (st : LoopState), (bulkLoop target body l st).1.length = l.length
  | [], _ => rfl
  | a :: rest, st => by
    rw [bulkLoop_cons]
    simp only [List.length_cons, bulkLoop_length target body rest]

theorem bulkLoop_changed (target : Agendamento → Bool)
    (body : LoopState → Agendamento → Agendamento × LoopState)
    (Q : World → Agendamento → Prop)
    (hbody : ∀ st a, (body st a).1 ≠ a → Q st.w a) :
    ∀ (l : List Agendamento) (st : LoopState) (j : Nat) (a : Agendamento),
      l[j]? = some a → (bulkLoop target body l st).1[j]? ≠ some a →
        target a = true ∧ Q (bulkLoop target body (l.take j) st).2.w a
  | [], _, j, a => by
    intro h
    simp at h
  | x :: rest, st, 0, a => by
    intro h hne
    simp only [List.getElem?_cons_zero, Option.some.injEq] at h
    subst h
    rw [bulkLoop_cons] at hne
    simp only [List.getElem?_cons_zero, ne_eq, Option.some.injEq] at hne
    by_cases ht : target x = true
    · simp only [ht, if_true] at hne
      exact ⟨ht, hbody st x hne⟩
    · rw [if_neg ht] at hne
      exact absurd rfl hne
  | x :: rest, st, j + 1, a => by
    intro h hne
    simp only [List.getElem?_cons_succ] at h
    rw [bulkLoop_cons] at hne
    simp only [List.getElem?_cons_succ] at hne
    have ih := bulkLoop_changed target body Q hbody rest
      (if target x = true then body st x else (x, st)).2 j a h hne
    rw [List.take_succ_cons, bulkLoop_cons]
    exact ih

theorem confirmItem_changed (env : Env) (clientes : List Cliente) (servicos : List Servico)
    (st : LoopState) (a : Agendamento) :
    (confirmItem env clientes servicos st a).1 ≠ a →
      SentOk env clientes servicos (confirmText env) st.w a := by
  unfold confirmItem SentOk
  dsimp only
  cases hc : clientes.find? (fun c => c.id == a.cliente_id) with
  | none => intro h; exact absurd rfl h
  | some c =>
    dsimp only
    cases ht : c.telefone with
    | none => intro h; exact absurd rfl h
    | some telefone =>
      dsimp only
      by_cases he : telefone = ""
      · rw [if_pos he]; intro h; exact absurd rfl h
      · rw [if_neg he]
        rcases hs : sendMessage env st.w telefone
          (confirmText env c (servicos.find? (fun sv => sv.id == a.servico_id)) a) with ⟨e | r, w1⟩
        · intro h; exact absurd rfl h
        · intro _
          exact ⟨c, telefone, r, rfl, ht, he, by rw [hs]⟩

theorem cancelItem_changed (env : Env) (reason : String) (clientes : List Cliente)
    (servicos : List Servico) (st : LoopState) (a : Agendamento) :
    (cancelItem env reason clientes servicos st a).1 ≠ a →
      SentOk env clientes servicos (cancelText env reason) st.w a := by
  unfold cancelItem SentOk
  dsimp only
  cases hc : clientes.find? (fun c => c.id == a.cliente_id) with
  | none => intro h; exact absurd rfl h
  | some c =>
    dsimp only
    cases ht : c.telefone with
    | none => intro h; exact absurd rfl h
    | some telefone =>
      dsimp only
      by_cases he : telefone = ""
      · rw [if_pos he]; intro h; exact absurd rfl h
      · rw [if_neg he]
        rcases hs : sendMessage env st.w telefone
          (cancelText env reason c (servicos.find? (fun sv => sv.id == a.servico_id)) a)
          with ⟨e | r, w1⟩
        · intro h; exact absurd rfl h
        · intro _
          exact ⟨c, telefone, r, rfl, ht, he, by rw [hs]⟩

theorem sendBulkConfirmations_db (env : Env) (w : World) (db : Database) :
    (sendBulkConfirmations env w db).2.2 = db ∨
    ∃ ags, db.agendamentos = some ags ∧
      (sendBulkConfirmations env w db).2.2 =
        { db with
          agendamentos := some (bulkLoop (isConfirmTarget (todayISO env))
            (confirmItem env (db.clientes.getD []) (db.servicos.getD [])) ags
            { w := w, count := 0, results := [] }).1 } := by
  unfold sendBulkConfirmations
  split
  · exact Or.inl rfl
  · cases hd : db.agendamentos with
    | none => exact Or.inl rfl
    | some ags =>
      dsimp only
      split
      · exact Or.inl rfl
      · split
        · exact Or.inl rfl
        · split
          · exact Or.inl rfl
          · split
            · exact Or.inl rfl
            · exact Or.inr ⟨ags, rfl, rfl⟩

theorem cancelConfirmations_db (env : Env) (w : World) (db : Database) (reason : Option String) :
    (cancelConfirmations env w db reason).2.2 = db ∨
    ∃ ags, db.agendamentos = some ags ∧
      (cancelConfirmations env w db reason).2.2 =
        { db with
          agendamentos := some (bulkLoop (isCancelTarget (todayISO env))
            (cancelItem env (reason.getD "") (db.clientes.getD []) (db.servicos.getD [])) ags
            { w := w, count := 0, results := [] }).1 } := by
  unfold cancelConfirmations
  split
  · exact Or.inl rfl
  · cases reason with
    | none => exact Or.inl rfl
    | some motivo =>
      dsimp only
      split
      · exact Or.inl rfl
      · cases hd : db.agendamentos with
        | none => exact Or.inl rfl
        | some ags =>
          dsimp only
          split
          · exact Or.inl rfl
          · split
            · exact Or.inl rfl
            · split
              · exact Or.inl rfl
              · split
                · exact Or.inl rfl
                · exact Or.inr ⟨ags, rfl, rfl⟩

theorem only_sent_of_changed {before after : List Agendamento} {T : Agendamento → Bool}
    {S : Nat → Agendamento → Prop} (hlen : after.length = before.length)
    (h : ∀ j a, before[j]? = some a → after[j]? ≠ some a → T a = true ∧ S j a) :
    after.length = before.length ∧
    ∀ j a, before[j]? = some a →
      (after[j]? ≠ some a → T a = true ∧ S j a) ∧
      (T a = false ∨ ¬ S j a → after[j]? = some a) := by
  refine ⟨hlen, fun j a hj => ⟨h j a hj, ?_⟩⟩
  intro hor
  by_contra hne
  obtain ⟨ht, hs⟩ := h j a hj hne
  rcases hor with hf | hn
  · rw [ht] at hf
    cases hf
  · exact hn hs

/-- C10: in the collection written back by the confirmation flow, and likewise
by the cancellation flow, every position holds a record; the record at a
position differs from the one there before only if that booking is in the
flow's target set and its own send (client found, phone present, `sendMessage`
returning normally in the state the loop had reached) succeeded. Hence a
booking outside the target set, without client or phone, or whose send failed,
is written back unchanged. -/
theorem bulk_flows_change_only_sent (env : Env) (w : World) (db : Database)
    (reason : Option String) :
    (((sendBulkConfirmations env w db).2.2.agendamentos.getD []).length =
        (db.agendamentos.getD []).length ∧
      ∀ j a, (db.agendamentos.getD [])[j]? = some a →
        (((sendBulkConfirmations env w db).2.2.agendamentos.getD [])[j]? ≠ some a →
          isConfirmTarget (todayISO env) a = true ∧
          SentOk env (db.clientes.getD []) (db.servicos.getD []) (confirmText env)
            (bulkLoop (isConfirmTarget (todayISO env))
              (confirmItem env (db.clientes.getD []) (db.servicos.getD []))
              ((db.agendamentos.getD []).take j) { w := w, count := 0, results := [] }).2.w a) ∧
        (isConfirmTarget (todayISO env) a = false ∨
          ¬ SentOk env (db.clientes.getD []) (db.servicos.getD []) (confirmText env)
            (bulkLoop (isConfirmTarget (todayISO env))
              (confirmItem env (db.clientes.getD []) (db.servicos.getD []))
              ((db.agendamentos.getD []).take j) { w := w, count := 0, results := [] }).2.w a →
          ((sendBulkConfirmations env w db).2.2.agendamentos.getD [])[j]? = some a)) ∧
    (((cancelConfirmations env w db reason).2.2.agendamentos.getD []).length =
        (db.agendamentos.getD []).length ∧
      ∀ j a, (db.agendamentos.getD [])[j]? = some a →
        (((cancelConfirmations env w db reason).2.2.agendamentos.getD [])[j]? ≠ some a →
          isCancelTarget (todayISO env) a = true ∧
          SentOk env (db.clientes.getD []) (db.servicos.getD [])
            (cancelText env (reason.getD ""))
            (bulkLoop (isCancelTarget (todayISO env))
              (cancelItem env (reason.getD "") (db.clientes.getD []) (db.servicos.getD []))
              ((db.agendamentos.getD []).take j) { w := w, count := 0, results := [] }).2.w a) ∧
        (isCancelTarget (todayISO env) a = false ∨
          ¬ SentOk env (db.clientes.getD []) (db.servicos.getD [])
            (cancelText env (reason.getD ""))
            (bulkLoop (isCancelTarget (todayISO env))
              (cancelItem env (reason.getD "") (db.clientes.getD []) (db.servicos.getD []))
              ((db.agendamentos.getD []).take j) { w := w, count := 0, results := [] }).2.w a →
          ((cancelConfirmations env w db reason).2.2.agendamentos.getD [])[j]? = some a)) := by
  constructor
  · rcases sendBulkConfirmations_db env w db with h | ⟨ags, hags, h⟩
    · rw [h]
      exact only_sent_of_changed rfl (fun j a hj hne => absurd hj hne)
    · rw [h, hags]
      simp only [Option.getD_some]
      exact only_sent_of_changed (bulkLoop_length _ _ ags _)
        (bulkLoop_changed _ _ _ (confirmItem_changed env _ _) ags _)
  · rcases cancelConfirmations_db env w db reason with h | ⟨ags, hags, h⟩
    · rw [h]
      exact only_sent_of_changed rfl (fun j a hj hne => absurd hj hne)
    · rw [h, hags]
      simp only [Option.getD_some]
      exact only_sent_of_changed (bulkLoop_length _ _ ags _)
        (bulkLoop_changed _ _ _ (cancelItem_changed env _ _ _) ags _)

theorem bulk_flows_change_only_sent_witness :
    isConfirmTarget (todayISO Env.allOk) exemploPendente = true ∧
    ((sendBulkConfirmations Env.allOk World.connected exemploDb).2.2.agendamentos.getD [])[2]?
      = some exemploOutroDia ∧
    ((cancelConfirmations Env.allOk World.connected exemploDb
      (some "Imprevisto")).2.2.agendamentos.getD [])[2]? = some exemploOutroDia :=
  ⟨(((bulk_flows_change_only_sent Env.allOk World.connected exemploDb
      (some "Imprevisto")).1.2 0 exemploPendente rfl).1 (by decide)).1,
   ((bulk_flows_change_only_sent Env.allOk World.connected exemploDb
      (some "Imprevisto")).1.2 2 exemploOutroDia rfl).2 (Or.inl (by decide)),
   ((bulk_flows_change_only_sent Env.allOk World.connected exemploDb
      (some "Imprevisto")).2.2 2 exemploOutroDia rfl).2 (Or.inl (by decide))⟩

/-! ### Preconditions of the flows -/

/-- C12 fails as stated: on a session that is not connected, the cancellation
flow called without a reason fails with the not-connected error. -/
theorem cancel_without_reason_not_connected_counterexample :
    (cancelConfirmations Env.allOk World.fresh exemploDb none).1 = .notConnected ∧
    (cancelConfirmations Env.allOk World.fresh exemploDb none).1 ≠ .missingReason := by
  decide

/-- C12 (amended): the cancellation flow called with an empty or absent reason
fails with the missing-reason error on every connected session, and with the
not-connected error on every session that is not connected; in both cases the
service state and the files are returned as they were (no send, no write), and
the response does not depend on the booking collection (no read). -/
theorem cancel_missing_reason (env : Env) (w : World) (db : Database) (reason : Option String)
    (hr : reason = none ∨ reason = some "") :
    (w.svc.isConnected = true →
      cancelConfirmations env w db reason = (.missingReason, w, db)) ∧
    (w.svc.isConnected = false →
      cancelConfirmations env w db reason = (.notConnected, w, db)) ∧
    (∀ db1, (cancelConfirmations env w db1 reason).1 = (cancelConfirmations env w db reason).1 ∧
      (cancelConfirmations env w db1 reason).2.1 = w ∧
      (cancelConfirmations env w db1 reason).2.2 = db1) := by
  have key : ∀ d : Database, cancelConfirmations env w d reason =
      (if w.svc.isConnected = true then BulkResponse.missingReason else .notConnected, w, d) := by
    intro d
    unfold cancelConfirmations
    cases hc : w.svc.isConnected
    · simp
    · rcases hr with hr | hr <;> subst hr <;> simp
  refine ⟨fun hc => ?_, fun hc => ?_, fun db1 => ?_⟩
  · rw [key, if_pos hc]
  · rw [key, if_neg (by rw [hc]; exact Bool.false_ne_true)]
  · rw [key, key]
    exact ⟨rfl, rfl, rfl⟩

theorem cancel_missing_reason_witness :
    cancelConfirmations Env.allOk World.connected exemploDb (some "") =
      (.missingReason, World.connected, exemploDb) ∧
    cancelConfirmations Env.allOk World.fresh exemploDb none =
      (.notConnected, World.fresh, exemploDb) :=
  ⟨(cancel_missing_reason Env.allOk World.connected exemploDb (some "") (Or.inr rfl)).1 rfl,
   (cancel_missing_reason Env.allOk World.fresh exemploDb none (Or.inl rfl)).2.1 rfl⟩

/-- C13: when the session is not connected, each of the confirmation,
cancellation, daily, weekly and monthly flows answers with the not-connected
error and returns the service state and the files as they were, whatever the
files hold: nothing is read, written or sent. -/
theorem flows_fail_fast_when_not_connected (env : Env) (cal : Calendar) (w : World)
    (db : Database) (reason : Option String) (h : w.svc.isConnected = false) :
    sendBulkConfirmations env w db = (.notConnected, w, db) ∧
    cancelConfirmations env w db reason = (.notConnected, w, db) ∧
    sendReportDaily env w db = (.notConnected, w, db) ∧
    sendReportWeekly env cal w db = (.notConnected, w, db) ∧
    sendReportMonthly env cal w db = (.notConnected, w, db) := by
  unfold sendBulkConfirmations cancelConfirmations sendReportDaily sendReportWeekly
    sendReportMonthly
  simp [h]

theorem flows_fail_fast_when_not_connected_witness :
    sendBulkConfirmations Env.allOk World.connecting exemploDb =
      (.notConnected, World.connecting, exemploDb) ∧
    cancelConfirmations Env.allOk World.connecting exemploDb (some "Imprevisto") =
      (.notConnected, World.connecting, exemploDb) ∧
    sendReportDaily Env.allOk World.connecting exemploDb =
      (.notConnected, World.connecting, exemploDb) ∧
    sendReportWeekly Env.allOk exemploCalendar World.connecting exemploDb =
      (.notConnected, World.connecting, exemploDb) ∧
    sendReportMonthly Env.allOk exemploCalendar World.connecting exemploDb =
      (.notConnected, World.connecting, exemploDb) :=
  flows_fail_fast_when_not_connected Env.allOk exemploCalendar World.connecting exemploDb
    (some "Imprevisto") rfl

/-! ### Reports -/

theorem dispatchReport_db (env : Env) (w : World) (db : Database) (text label : String)
    (selected : List Agendamento) :
    (dispatchReport env w db text label selected).2.2 = db := by
  unfold dispatchReport
  rcases sendMessage env w ownerNumber text with ⟨_ | _, w1⟩ <;> rfl

/-- C16: whatever the bookings and whatever the outcome of the send, the
daily, weekly and monthly report flows return the three record files
(bookings, clients, services) exactly as they received them. -/
theorem reports_leave_records_unchanged (env : Env) (cal : Calendar) (w : World)
    (db : Database) :
    (sendReportDaily env w db).2.2 = db ∧
    (sendReportWeekly env cal w db).2.2 = db ∧
    (sendReportMonthly env cal w db).2.2 = db := by
  unfold sendReportDaily sendReportWeekly sendReportMonthly
  refine ⟨?_, ?_, ?_⟩
  all_goals
    split
    · rfl
    · cases db.agendamentos with
      | none => rfl
      | some ags =>
        dsimp only
        repeat' split
        all_goals first | rfl | exact dispatchReport_db _ _ _ _ _ _

/-- C18 fails as stated: a client that is on file without a `nome` field is
listed as 'undefined'. -/
theorem dailyLine_client_without_name_counterexample :
    dailyLine [exemploClienteSemNome] [{ id := 1, nome := some "Corte" }] exemploPendente =
      "\n⏳ 09:00 - undefined (Corte)" := by
  decide

/-- C18 (amended): the daily report lists the selected bookings one line each,
and the line of a booking is the marker (check for 'confirmado', cross for
'cancelado', hourglass for every other status), the booking's time, the
client's name and the service's name; when no client (service) with the
booking's id is on file the name is the explicit placeholder text, and
otherwise it is the `nome` of the first such record as a template literal
renders it. -/
theorem dailyLine_format (env : Env) (clientes : List Cliente) (servicos : List Servico)
    (apt : Agendamento) :
    ∃ marker cn sn,
      dailyLine clientes servicos apt =
        "\n" ++ marker ++ " " ++ jsStr (horarioOf apt) ++ " - " ++ cn ++ " (" ++ sn ++ ")" ∧
      (apt.status = "confirmado" → marker = "✅") ∧
      (apt.status = "cancelado" → marker = "❌") ∧
      (apt.status ≠ "confirmado" → apt.status ≠ "cancelado" → marker = "⏳") ∧
      ((∀ c ∈ clientes, c.id ≠ apt.cliente_id) → cn = "Cliente não encontrado") ∧
      (∀ c, clientes.find? (fun c => c.id == apt.cliente_id) = some c → cn = jsStr c.nome) ∧
      ((∀ sv ∈ servicos, sv.id ≠ apt.servico_id) → sn = "Serviço não especificado") ∧
      (∀ sv, servicos.find? (fun sv => sv.id == apt.servico_id) = some sv →
        sn = jsStr sv.nome) ∧
      (∀ hoje : List Agendamento, hoje ≠ [] →
        dailyReportText env clientes servicos hoje =
          "📊 RELATÓRIO DIÁRIO - " ++ env.todayPtBR ++ resumoGeral hoje ++
            "\n\n📋 AGENDAMENTOS DO DIA:" ++
            String.join (hoje.map (dailyLine clientes servicos)) ++ rodape) := by
  refine ⟨statusEmoji apt.status,
    clienteNome (clientes.find? (fun c => c.id == apt.cliente_id)),
    servicoNomeRelatorio (servicos.find? (fun sv => sv.id == apt.servico_id)),
    rfl, ?_, ?_, ?_, ?_, ?_, ?_, ?_, ?_⟩
  · intro h
    simp [statusEmoji, h]
  · intro h
    simp [statusEmoji, h]
  · intro h1 h2
    simp [statusEmoji, h1, h2]
  · intro h
    have hnone : clientes.find? (fun c => c.id == apt.cliente_id) = none := by
      rw [List.find?_eq_none]
      intro c hc
      simpa using h c hc
    rw [hnone]
    rfl
  · intro c hc
    rw [hc]
    rfl
  · intro h
    have hnone : servicos.find? (fun sv => sv.id == apt.servico_id) = none := by
      rw [List.find?_eq_none]
      intro sv hsv
      simpa using h sv hsv
    rw [hnone]
    rfl
  · intro sv hsv
    rw [hsv]
    rfl
  · intro hoje hne
    unfold dailyReportText
    have hlen : ¬ hoje.length = 0 := by
      intro h0
      exact hne (List.length_eq_zero.mp h0)
    rw [if_neg hlen]

theorem dailyLine_format_witness :
    ∃ marker cn sn,
      dailyLine [] [] exemploPendente =
        "\n" ++ marker ++ " " ++ jsStr (horarioOf exemploPendente) ++ " - " ++ cn ++
          " (" ++ sn ++ ")" ∧
      marker = "⏳" ∧ cn = "Cliente não encontrado" ∧ sn = "Serviço não especificado" := by
  obtain ⟨marker, cn, sn, h, _, _, hm, hc, _, hs, _, _⟩ :=
    dailyLine_format Env.allOk [] [] exemploPendente
  exact ⟨marker, cn, sn, h, hm (by decide) (by decide), hc (by simp), hs (by simp)⟩

/-! ### Connection events and session clearing -/

theorem disconnect_keeps_cleared (env : Env) (w : World)
    (h : w.svc.isConnected = false ∧ w.svc.isConnecting = false ∧ w.svc.currentQRCode = none) :
    (disconnect env w).2.svc.isConnected = false ∧
    (disconnect env w).2.svc.isConnecting = false ∧
    (disconnect env w).2.svc.currentQRCode = none := by
  unfold disconnect disconnectReset
  cases w.svc.sock with
  | none => exact ⟨rfl, rfl, rfl⟩
  | some s =>
    dsimp only
    cases env.logoutOutcome (logMessage env w "info" "Desconectando WhatsApp").calls.length with
    | none => exact ⟨rfl, rfl, rfl⟩
    | some err => exact h

theorem clearSession_svc (env : Env) (w : World) :
    (clearSession env w).svc = (disconnect env w).2.svc := by
  unfold clearSession
  dsimp only
  cases (disconnect env w).2.authFiles with
  | none => rfl
  | some files =>
    dsimp only
    rcases unlinkAll env files with ⟨remaining, _ | err⟩ <;> rfl

/-- C19: after a connection update reporting 'open' the service has
`isConnected = true`, `isConnecting = false` and no QR code, also when the
same event carries a QR challenge; after one reporting 'close' it has
`isConnected = false`, `isConnecting = false` and no QR code, whatever the
status code of the close and whatever the outcome of the cleanup. -/
theorem connection_update_flags (env : Env) (w : World) (u : ConnectionUpdate) :
    (u.connection = some "open" →
      (onConnectionUpdate env w u).svc.isConnected = true ∧
      (onConnectionUpdate env w u).svc.isConnecting = false ∧
      (onConnectionUpdate env w u).svc.currentQRCode = none) ∧
    (u.connection = some "close" →
      (onConnectionUpdate env w u).svc.isConnected = false ∧
      (onConnectionUpdate env w u).svc.isConnecting = false ∧
      (onConnectionUpdate env w u).svc.currentQRCode = none) := by
  constructor
  · intro ho
    have hnc : ¬ u.connection = some "close" := by
      rw [ho]
      decide
    unfold onConnectionUpdate handleClose handleOpen
    rw [if_neg hnc, if_pos ho]
    exact ⟨rfl, rfl, rfl⟩
  · intro hcl
    unfold onConnectionUpdate handleClose
    rw [if_pos hcl]
    dsimp only
    split
    · rw [clearSession_svc]
      exact disconnect_keeps_cleared env _ ⟨rfl, rfl, rfl⟩
    · split <;> exact ⟨rfl, rfl, rfl⟩

theorem connection_update_flags_witness :
    ((onConnectionUpdate Env.allOk World.connecting
        { connection := some "open", statusCode := none, qr := some "2@abc" }).svc.isConnected
        = true ∧
      (onConnectionUpdate Env.allOk World.connecting
        { connection := some "open", statusCode := none, qr := some "2@abc" }).svc.isConnecting
        = false ∧
      (onConnectionUpdate Env.allOk World.connecting
        { connection := some "open", statusCode := none, qr := some "2@abc" }).svc.currentQRCode
        = none) ∧
    ((onConnectionUpdate Env.logoutFails World.connected
        { connection := some "close", statusCode := some DisconnectReason.loggedOut,
          qr := none }).svc.isConnected = false ∧
      (onConnectionUpdate Env.logoutFails World.connected
        { connection := some "close", statusCode := some DisconnectReason.loggedOut,
          qr := none }).svc.isConnecting = false ∧
      (onConnectionUpdate Env.logoutFails World.connected
        { connection := some "close", statusCode := some DisconnectReason.loggedOut,
          qr := none }).svc.currentQRCode = none) :=
  ⟨(connection_update_flags Env.allOk World.connecting
      { connection := some "open", statusCode := none, qr := some "2@abc" }).1 rfl,
   (connection_update_flags Env.logoutFails World.connected
      { connection := some "close", statusCode := some DisconnectReason.loggedOut,
        qr := none }).2 rfl⟩

theorem mem_pushCapped_of_getLast (logs : List LogEntry) (e e1 : LogEntry)
    (h : logs.getLast? = some e) : e ∈ pushCapped logs e1 := by
  rw [pushCapped_eq]
  obtain ⟨init, rfl⟩ : ∃ init, logs = init ++ [e] := by
    rcases List.eq_nil_or_concat logs with hnil | ⟨init, x, hx⟩
    · rw [hnil] at h
      cases h
    · refine ⟨init, ?_⟩
      rw [hx, List.concat_eq_append] at h ⊢
      rw [List.getLast?_append] at h
      simp only [List.getLast?_singleton, Option.or, Option.some.injEq] at h
      rw [h]
  have hk : (init ++ [e]).length + 1 - 100 ≤ init.length := by
    simp only [List.length_append, List.length_singleton]
    omega
  rw [List.append_assoc, List.drop_append_of_le_length hk]
  simp

theorem disconnect_logout_throws (env : Env) (w : World) (s : Nat) (err : String)
    (hs : w.svc.sock = some s) (hl : env.logoutOutcome w.calls.length = some err) :
    disconnect env w =
      ({ success := false, message := err },
       logMessage env (recordCall (logMessage env w "info" "Desconectando WhatsApp") .logout)
         "error" ("Erro ao desconectar: " ++ err)) := by
  unfold disconnect
  simp only [hs, logMessage_calls, hl]

theorem unlinkAll_first_failure (env : Env) (pre post : List String) (f err : String)
    (hpre : ∀ g ∈ pre, env.unlinkOutcome g = none) (hf : env.unlinkOutcome f = some err) :
    unlinkAll env (pre ++ f :: post) = (f :: post, some err) := by
  induction pre with
  | nil =>
    rw [List.nil_append, unlinkAll, hf]
  | cons g gs ih =>
    rw [List.cons_append, unlinkAll, hpre g (List.mem_cons_self g gs)]
    exact ih (fun x hx => hpre x (List.mem_cons_of_mem g hx))

theorem clearSession_logs (env : Env) (w : World) :
    (clearSession env w).logs = (disconnect env w).2.logs ∨
    ∃ e, (clearSession env w).logs = pushCapped (disconnect env w).2.logs e := by
  unfold clearSession
  dsimp only
  cases (disconnect env w).2.authFiles with
  | none => exact Or.inl rfl
  | some files =>
    dsimp only
    rcases unlinkAll env files with ⟨remaining, _ | err⟩
    · exact Or.inr ⟨_, rfl⟩
    · exact Or.inr ⟨_, rfl⟩

/-- C20: `clearSession` returns a state for every input, never an error. When
the transport logout throws, an 'error' entry with its message is in the
event log afterwards; when the deletion of a credential file throws, the
last entry of the event log is an 'error' entry with its message; and when no
deletion throws, the credential directory holds no file afterwards. -/
theorem clearSession_logs_failures (env : Env) (w : World) :
    (∀ s err, w.svc.sock = some s → env.logoutOutcome w.calls.length = some err →
      ∃ e ∈ (clearSession env w).logs,
        e.type = "error" ∧ e.message = "Erro ao desconectar: " ++ err) ∧
    (∀ pre post f err, w.authFiles = some (pre ++ f :: post) →
      (∀ g ∈ pre, env.unlinkOutcome g = none) → env.unlinkOutcome f = some err →
      ∃ e, (clearSession env w).logs.getLast? = some e ∧
        e.type = "error" ∧ e.message = "Erro ao limpar sessão: " ++ err) ∧
    ((∀ f ∈ w.authFiles.getD [], env.unlinkOutcome f = none) →
      (clearSession env w).authFiles.getD [] = []) := by
  refine ⟨?_, ?_, ?_⟩
  · intro s err hs hl
    have hd := disconnect_logout_throws env w s err hs hl
    have hlast : (disconnect env w).2.logs.getLast? =
        some { timestamp := env.now (w.tick + 1), type := "error",
               message := "Erro ao desconectar: " ++ err } := by
      rw [hd]
      exact pushCapped_getLast _ _
    refine ⟨{ timestamp := env.now (w.tick + 1), type := "error",
              message := "Erro ao desconectar: " ++ err }, ?_, rfl, rfl⟩
    rcases clearSession_logs env w with h | ⟨e1, h⟩
    · rw [h]
      exact List.mem_of_getLast?_eq_some hlast
    · rw [h]
      exact mem_pushCapped_of_getLast _ _ _ hlast
  · intro pre post f err hfiles hpre hf
    have hu := unlinkAll_first_failure env pre post f err hpre hf
    have ha : (disconnect env w).2.authFiles = some (pre ++ f :: post) := by
      rw [disconnect_authFiles, hfiles]
    unfold clearSession
    dsimp only
    rw [ha]
    dsimp only
    rw [hu]
    exact ⟨_, pushCapped_getLast _ _, rfl, rfl⟩
  · intro hall
    rw [clearSession_authFiles]
    cases hf : w.authFiles with
    | none => rfl
    | some files =>
      rw [hf] at hall
      simp only [Option.getD_some] at hall
      simp only [Option.map_some', Option.getD_some, List.dropWhile_eq_nil_iff]
      intro f hfm
      simp [hall f hfm]

theorem clearSession_logs_failures_witness :
    (∃ e ∈ (clearSession Env.logoutFails World.connected).logs,
      e.type = "error" ∧ e.message = "Erro ao desconectar: " ++ "Connection Closed") ∧
    (∃ e, (clearSession Env.unlinkFails World.connected).logs.getLast? = some e ∧
      e.type = "error" ∧
      e.message = "Erro ao limpar sessão: " ++ "EPERM: operation not permitted") ∧
    (clearSession Env.logoutFails World.connected).authFiles.getD [] = [] :=
  ⟨(clearSession_logs_failures Env.logoutFails World.connected).1 0 "Connection Closed" rfl rfl,
   (clearSession_logs_failures Env.unlinkFails World.connected).2.1 [] [] "creds.json"
     "EPERM: operation not permitted" rfl (by simp) rfl,
   (clearSession_logs_failures Env.logoutFails World.connected).2.2 (by intro f _; rfl)⟩

/-! ### Results and updates of the bulk flows -/

theorem bulkLoop_state (target : Agendamento → Bool)
    (body : LoopState → Agendamento → Agendamento × LoopState) :
    ∀ (l : List Agendamento) (st : LoopState),
      (bulkLoop target body l st).2 = (l.filter target).foldl (fun s a => (body s a).2) st
  | [], _ => rfl
  | a :: rest, st => by
    rw [bulkLoop_cons]
    dsimp only
    rw [bulkLoop_state target body rest]
    by_cases ht : target a = true
    · rw [if_pos ht, List.filter_cons_of_pos ht, List.foldl_cons]
    · rw [if_neg ht, List.filter_cons_of_neg ht]

theorem bulkLoop_getElem (target : Agendamento → Bool)
    (body : LoopState → Agendamento → Agendamento × LoopState) :
    ∀ (l : List Agendamento) (st : LoopState) (j : Nat) (a : Agendamento),
      l[j]? = some a →
        (bulkLoop target body l st).1[j]? =
          some (if target a = true then (body (bulkLoop target body (l.take j) st).2 a).1 else a)
  | [], _, j, a => by
    intro h
    simp at h
  | x :: rest, st, 0, a => by
    intro h
    simp only [List.getElem?_cons_zero, Option.some.injEq] at h
    subst h
    rw [bulkLoop_cons]
    simp only [List.getElem?_cons_zero, List.take_zero]
    by_cases ht : target x = true
    · rw [if_pos ht, if_pos ht]
      rfl
    · rw [if_neg ht, if_neg ht]
  | x :: rest, st, j + 1, a => by
    intro h
    simp only [List.getElem?_cons_succ] at h
    rw [bulkLoop_cons]
    simp only [List.getElem?_cons_succ]
    rw [bulkLoop_getElem target body rest _ j a h, List.take_succ_cons, bulkLoop_cons]

theorem foldl_results (okStatus : String) (hok : okStatus ≠ "erro")
    (Q : World → Agendamento → Prop)
    (body : LoopState → Agendamento → Agendamento × LoopState)
    (hspec : ItemSpec okStatus Q body) :
    ∀ (ts : List Agendamento) (st : LoopState),
      ∃ rs,
        (ts.foldl (fun s a => (body s a).2) st).results = st.results ++ rs ∧
        rs.map (fun r => r.agendamento_id) = ts.map (fun a => a.id) ∧
        (ts.foldl (fun s a => (body s a).2) st).count =
          st.count + rs.countP (fun r => r.status == okStatus) ∧
        ∀ k a, ts[k]? = some a →
          ((rs[k]?).map (fun r => r.status) = some okStatus ↔
            Q ((ts.take k).foldl (fun s a => (body s a).2) st).w a)
  | [], st => ⟨[], by simp⟩
  | t :: ts, st => by
    obtain ⟨r, hres, hid, hq, hnq⟩ := hspec st t
    obtain ⟨rs, h1, h2, h3, h4⟩ := foldl_results okStatus hok Q body hspec ts (body st t).2
    refine ⟨r :: rs, ?_, ?_, ?_, ?_⟩
    · rw [List.foldl_cons, h1, hres, List.append_assoc]
      rfl
    · simp only [List.map_cons, hid, h2]
    · rw [List.foldl_cons, h3]
      by_cases hQ : Q st.w t
      · obtain ⟨hs, hc⟩ := hq hQ
        have hpos : (r.status == okStatus) = true := by
          rw [hs]
          exact beq_self_eq_true okStatus
        rw [hc, List.countP_cons, if_pos hpos]
        omega
      · obtain ⟨hs, hc⟩ := hnq hQ
        have hneg : ¬ (r.status == okStatus) = true := by
          rw [hs]
          simpa using fun h => hok h.symm
        rw [hc, List.countP_cons, if_neg hneg]
        rfl
    · intro k a hk
      cases k with
      | zero =>
        simp only [List.getElem?_cons_zero, Option.some.injEq] at hk
        subst hk
        simp only [List.getElem?_cons_zero, Option.map_some', Option.some.injEq, List.take_zero,
          List.foldl_nil]
        constructor
        · intro hs
          by_contra hQ
          rw [(hnq hQ).1] at hs
          exact hok hs.symm
        · intro hQ
          exact (hq hQ).1
      | succ k =>
        simp only [List.getElem?_cons_succ] at hk
        simp only [List.getElem?_cons_succ, List.take_succ_cons, List.foldl_cons]
        exact h4 k a hk

theorem confirmItem_cases (env : Env) (clientes : List Cliente)
    (servicos : List Servico) (st : LoopState) (a : Agendamento) :
    (SentOk env clientes servicos (confirmText env) st.w a ∧
      (∃ n, (confirmItem env clientes servicos st a).1 =
        { a with status := "confirmado", confirmado_em := some (env.now n) }) ∧
      (confirmItem env clientes servicos st a).2.count = st.count + 1 ∧
      (confirmItem env clientes servicos st a).2.results = st.results ++
        [{ agendamento_id := a.id, status := "enviado", message := "Confirmação enviada com sucesso" }]) ∨
    (¬ SentOk env clientes servicos (confirmText env) st.w a ∧
      (confirmItem env clientes servicos st a).1 = a ∧
      (confirmItem env clientes servicos st a).2.count = st.count ∧
      ∃ msg, (confirmItem env clientes servicos st a).2.results = st.results ++
        [{ agendamento_id := a.id, status := "erro", message := msg }]) := by
  unfold confirmItem SentOk
  dsimp only
  cases hc : clientes.find? (fun c => c.id == a.cliente_id) with
  | none =>
    refine Or.inr ⟨?_, rfl, rfl, _, rfl⟩
    rintro ⟨c, telefone, r, h, _⟩
    cases h
  | some c =>
    dsimp only
    cases ht : c.telefone with
    | none =>
      refine Or.inr ⟨?_, rfl, rfl, _, rfl⟩
      rintro ⟨c1, telefone, r, h, h2, _⟩
      cases h
      rw [ht] at h2
      cases h2
    | some telefone =>
      dsimp only
      by_cases he : telefone = ""
      · rw [if_pos he]
        refine Or.inr ⟨?_, rfl, rfl, _, rfl⟩
        rintro ⟨c1, telefone1, r, h, h2, h3, _⟩
        cases h
        rw [ht] at h2
        cases h2
        exact h3 he
      · rw [if_neg he]
        rcases hs : sendMessage env st.w telefone
          (confirmText env c (servicos.find? (fun sv => sv.id == a.servico_id)) a) with ⟨e | r, w1⟩
        · refine Or.inr ⟨?_, rfl, rfl, _, rfl⟩
          rintro ⟨c1, telefone1, r, h, h2, _, h4⟩
          cases h
          rw [ht] at h2
          cases h2
          rw [hs] at h4
          cases h4
        · exact Or.inl ⟨⟨c, telefone, r, rfl, ht, he, by rw [hs]⟩, ⟨w1.tick, rfl⟩, rfl, rfl⟩

theorem confirmItem_spec (env : Env) (clientes : List Cliente)
    (servicos : List Servico) :
    ItemSpec "enviado" (SentOk env clientes servicos (confirmText env))
      (confirmItem env clientes servicos) := by
  intro st a
  rcases confirmItem_cases env clientes servicos st a with
    ⟨hq, _, hcnt, hres⟩ | ⟨hq, _, hcnt, msg, hres⟩
  · exact ⟨_, hres, rfl, fun _ => ⟨rfl, hcnt⟩, fun hn => absurd hq hn⟩
  · exact ⟨_, hres, rfl, fun h => absurd h hq, fun _ => ⟨rfl, hcnt⟩⟩

theorem cancelItem_cases (env : Env) (reason : String) (clientes : List Cliente)
    (servicos : List Servico) (st : LoopState) (a : Agendamento) :
    (SentOk env clientes servicos (cancelText env reason) st.w a ∧
      (∃ n, (cancelItem env reason clientes servicos st a).1 =
        { a with
          status := "cancelado"
          cancelado_em := some (env.now n)
          motivo_cancelamento := some reason }) ∧
      (cancelItem env reason clientes servicos st a).2.count = st.count + 1 ∧
      (cancelItem env reason clientes servicos st a).2.results = st.results ++
        [{ agendamento_id := a.id, status := "cancelado", message := "Confirmação cancelada com sucesso" }]) ∨
    (¬ SentOk env clientes servicos (cancelText env reason) st.w a ∧
      (cancelItem env reason clientes servicos st a).1 = a ∧
      (cancelItem env reason clientes servicos st a).2.count = st.count ∧
      ∃ msg, (cancelItem env reason clientes servicos st a).2.results = st.results ++
        [{ agendamento_id := a.id, status := "erro", message := msg }]) := by
  unfold cancelItem SentOk
  dsimp only
  cases hc : clientes.find? (fun c => c.id == a.cliente_id) with
  | none =>
    refine Or.inr ⟨?_, rfl, rfl, _, rfl⟩
    rintro ⟨c, telefone, r, h, _⟩
    cases h
  | some c =>
    dsimp only
    cases ht : c.telefone with
    | none =>
      refine Or.inr ⟨?_, rfl, rfl, _, rfl⟩
      rintro ⟨c1, telefone, r, h, h2, _⟩
      cases h
      rw [ht] at h2
      cases h2
    | some telefone =>
      dsimp only
      by_cases he : telefone = ""
      · rw [if_pos he]
        refine Or.inr ⟨?_, rfl, rfl, _, rfl⟩
        rintro ⟨c1, telefone1, r, h, h2, h3, _⟩
        cases h
        rw [ht] at h2
        cases h2
        exact h3 he
      · rw [if_neg he]
        rcases hs : sendMessage env st.w telefone
          (cancelText env reason c (servicos.find? (fun sv => sv.id == a.servico_id)) a) with ⟨e | r, w1⟩
        · refine Or.inr ⟨?_, rfl, rfl, _, rfl⟩
          rintro ⟨c1, telefone1, r, h, h2, _, h4⟩
          cases h
          rw [ht] at h2
          cases h2
          rw [hs] at h4
          cases h4
        · exact Or.inl ⟨⟨c, telefone, r, rfl, ht, he, by rw [hs]⟩, ⟨w1.tick, rfl⟩, rfl, rfl⟩

theorem cancelItem_spec (env : Env) (reason : String) (clientes : List Cliente)
    (servicos : List Servico) :
    ItemSpec "cancelado" (SentOk env clientes servicos (cancelText env reason))
      (cancelItem env reason clientes servicos) := by
  intro st a
  rcases cancelItem_cases env reason clientes servicos st a with
    ⟨hq, _, hcnt, hres⟩ | ⟨hq, _, hcnt, msg, hres⟩
  · exact ⟨_, hres, rfl, fun _ => ⟨rfl, hcnt⟩, fun hn => absurd hq hn⟩
  · exact ⟨_, hres, rfl, fun h => absurd h hq, fun _ => ⟨rfl, hcnt⟩⟩

theorem sendMessage_svc (env : Env) (w : World) (to_ message : String) :
    (sendMessage env w to_ message).2.svc = w.svc := by
  unfold sendMessage
  split
  · rfl
  · have h := (sendBody_frame env w to_ message).2.2.1
    rcases hs : sendBody env w to_ message with ⟨_ | _, w1⟩ <;> rw [hs] at h <;> exact h

theorem confirmItem_svc (env : Env) (clientes : List Cliente) (servicos : List Servico)
    (st : LoopState) (a : Agendamento) :
    (confirmItem env clientes servicos st a).2.w.svc = st.w.svc := by
  unfold confirmItem
  dsimp only
  cases clientes.find? (fun c => c.id == a.cliente_id) with
  | none => rfl
  | some c =>
    dsimp only
    cases c.telefone with
    | none => rfl
    | some telefone =>
      dsimp only
      split
      · rfl
      · have h := sendMessage_svc env st.w telefone
          (confirmText env c (servicos.find? (fun sv => sv.id == a.servico_id)) a)
        rcases hs : sendMessage env st.w telefone
          (confirmText env c (servicos.find? (fun sv => sv.id == a.servico_id)) a)
          with ⟨_ | _, w1⟩ <;> rw [hs] at h <;> exact h

theorem cancelItem_svc (env : Env) (reason : String) (clientes : List Cliente)
    (servicos : List Servico) (st : LoopState) (a : Agendamento) :
    (cancelItem env reason clientes servicos st a).2.w.svc = st.w.svc := by
  unfold cancelItem
  dsimp only
  cases clientes.find? (fun c => c.id == a.cliente_id) with
  | none => rfl
  | some c =>
    dsimp only
    cases c.telefone with
    | none => rfl
    | some telefone =>
      dsimp only
      split
      · rfl
      · have h := sendMessage_svc env st.w telefone
          (cancelText env reason c (servicos.find? (fun sv => sv.id == a.servico_id)) a)
        rcases hs : sendMessage env st.w telefone
          (cancelText env reason c (servicos.find? (fun sv => sv.id == a.servico_id)) a)
          with ⟨_ | _, w1⟩ <;> rw [hs] at h <;> exact h

theorem bulkLoop_svc (target : Agendamento → Bool)
    (body : LoopState → Agendamento → Agendamento × LoopState)
    (hbody : ∀ st a, (body st a).2.w.svc = st.w.svc) :
    ∀ (l : List Agendamento) (st : LoopState), (bulkLoop target body l st).2.w.svc = st.w.svc
  | [], _ => rfl
  | a :: rest, st => by
    rw [bulkLoop_cons]
    dsimp only
    rw [bulkLoop_svc target body hbody rest]
    split
    · exact hbody st a
    · rfl

theorem splitChar_nomatch (sep : Char) : ∀ l : List Char, sep ∉ l → splitChar sep l = [l]
  | [], _ => rfl
  | c :: cs, h => by
    have hc : c ≠ sep := fun e => h (by rw [e]; exact List.mem_cons_self _ _)
    have hcs : sep ∉ cs := fun e => h (List.mem_cons_of_mem _ e)
    rw [splitChar, if_neg hc, splitChar_nomatch sep cs hcs]

theorem splitChar_append (sep : Char) (b : List Char) :
    ∀ a : List Char, sep ∉ a → splitChar sep (a ++ sep :: b) = a :: splitChar sep b
  | [], _ => by rw [List.nil_append, splitChar, if_pos rfl]
  | c :: cs, h => by
    have hc : c ≠ sep := fun e => h (by rw [e]; exact List.mem_cons_self _ _)
    have hcs : sep ∉ cs := fun e => h (List.mem_cons_of_mem _ e)
    rw [List.cons_append, splitChar, if_neg hc, splitChar_append sep b cs hcs]

theorem todayISO_eq (env : Env) (dd mm yyyy : String)
    (hhoje : env.todayPtBR = dd ++ "/" ++ mm ++ "/" ++ yyyy)
    (hdd : '/' ∉ dd.data) (hmm : '/' ∉ mm.data) (hyyyy : '/' ∉ yyyy.data) :
    todayISO env = yyyy ++ "-" ++ mm ++ "-" ++ dd := by
  have hdata : env.todayPtBR.data = dd.data ++ '/' :: (mm.data ++ '/' :: yyyy.data) := by
    rw [hhoje]
    simp [String.data_append]
  unfold todayISO
  rw [hdata, splitChar_append _ _ _ hdd, splitChar_append _ _ _ hmm,
    splitChar_nomatch _ _ hyyyy]
  rfl

theorem sendBulkConfirmations_run (env : Env) (w : World) (db : Database)
    (ags : List Agendamento) (hc : w.svc.isConnected = true) (hdb : db.agendamentos = some ags)
    (hread : env.readOutcome "agendamentos.json" = none) :
    (ags.filter (isConfirmTarget (todayISO env)) = [] →
      sendBulkConfirmations env w db = (.nothingToDo, w, db)) ∧
    (ags.filter (isConfirmTarget (todayISO env)) ≠ [] →
      (∀ e, erroDeLeitura env db = some e →
        sendBulkConfirmations env w db = (.serverError e, w, db)) ∧
      (erroDeLeitura env db = none →
        (∀ e, env.writeOutcome (confirmLoop env w db ags).2.w.calls.length = some e →
          sendBulkConfirmations env w db =
            (.serverError e, (confirmLoop env w db ags).2.w, db)) ∧
        (env.writeOutcome (confirmLoop env w db ags).2.w.calls.length = none →
          sendBulkConfirmations env w db =
            (.done (confirmLoop env w db ags).2.count
              (ags.filter (isConfirmTarget (todayISO env))).length
              (confirmLoop env w db ags).2.results,
             (confirmLoop env w db ags).2.w,
             { db with agendamentos := some (confirmLoop env w db ags).1 })))) := by
  constructor
  · intro h
    unfold sendBulkConfirmations
    simp [hc, hdb, hread, h]
  · intro h
    have hlen : ¬ (ags.filter (isConfirmTarget (todayISO env))).length = 0 := by
      intro h0
      exact h (List.length_eq_zero.mp h0)
    refine ⟨fun e he => ?_, fun he => ⟨fun e hw => ?_, fun hw => ?_⟩⟩
    · unfold sendBulkConfirmations
      simp only [hc, hdb, hread, Bool.not_true, Bool.false_eq_true, if_false, hlen, he]
    · unfold sendBulkConfirmations
      unfold confirmLoop at hw
      simp only [hc, hdb, hread, Bool.not_true, Bool.false_eq_true, if_false, hlen, he, hw]
      rfl
    · unfold sendBulkConfirmations
      unfold confirmLoop at hw
      simp only [hc, hdb, hread, Bool.not_true, Bool.false_eq_true, if_false, hlen, he, hw]
      rfl

theorem cancelConfirmations_run (env : Env) (w : World) (db : Database)
    (ags : List Agendamento) (motivo : String) (hc : w.svc.isConnected = true)
    (hdb : db.agendamentos = some ags) (hm : motivo ≠ "")
    (hread : env.readOutcome "agendamentos.json" = none) :
    (ags.filter (isCancelTarget (todayISO env)) = [] →
      cancelConfirmations env w db (some motivo) = (.nothingToDo, w, db)) ∧
    (ags.filter (isCancelTarget (todayISO env)) ≠ [] →
      (∀ e, erroDeLeitura env db = some e →
        cancelConfirmations env w db (some motivo) = (.serverError e, w, db)) ∧
      (erroDeLeitura env db = none →
        (∀ e, env.writeOutcome (cancelLoop env motivo w db ags).2.w.calls.length = some e →
          cancelConfirmations env w db (some motivo) =
            (.serverError e, (cancelLoop env motivo w db ags).2.w, db)) ∧
        (env.writeOutcome (cancelLoop env motivo w db ags).2.w.calls.length = none →
          cancelConfirmations env w db (some motivo) =
            (.done (cancelLoop env motivo w db ags).2.count
              (ags.filter (isCancelTarget (todayISO env))).length
              (cancelLoop env motivo w db ags).2.results,
             (cancelLoop env motivo w db ags).2.w,
             { db with agendamentos := some (cancelLoop env motivo w db ags).1 })))) := by
  constructor
  · intro h
    unfold cancelConfirmations
    simp [hc, hdb, hread, h, hm]
  · intro h
    have hlen : ¬ (ags.filter (isCancelTarget (todayISO env))).length = 0 := by
      intro h0
      exact h (List.length_eq_zero.mp h0)
    refine ⟨fun e he => ?_, fun he => ⟨fun e hw => ?_, fun hw => ?_⟩⟩
    · unfold cancelConfirmations
      simp only [hc, hdb, hread, Bool.not_true, Bool.false_eq_true, if_false, hlen, he, hm]
    · unfold cancelConfirmations
      unfold cancelLoop at hw
      simp only [hc, hdb, hread, Bool.not_true, Bool.false_eq_true, if_false, hlen, he, hw, hm]
      rfl
    · unfold cancelConfirmations
      unfold cancelLoop at hw
      simp only [hc, hdb, hread, Bool.not_true, Bool.false_eq_true, if_false, hlen, he, hw, hm]
      rfl

theorem loop_results (okStatus : String) (hok : okStatus ≠ "erro")
    (Q : World → Agendamento → Prop) (target : Agendamento → Bool)
    (body : LoopState → Agendamento → Agendamento × LoopState)
    (hspec : ItemSpec okStatus Q body) (ags : List Agendamento) (w : World) :
    ∃ results,
      (bulkLoop target body ags { w := w, count := 0, results := [] }).2.results = results ∧
      (bulkLoop target body ags { w := w, count := 0, results := [] }).2.count =
        results.countP (fun r => r.status == okStatus) ∧
      results.length = (ags.filter target).length ∧
      results.map (fun r => r.agendamento_id) = (ags.filter target).map (fun a => a.id) ∧
      ∀ k a, (ags.filter target)[k]? = some a →
        ((results[k]?).map (fun r => r.status) = some okStatus ↔
          Q (((ags.filter target).take k).foldl (fun s a => (body s a).2)
            { w := w, count := 0, results := [] }).w a) := by
  obtain ⟨rs, h1, h2, h3, h4⟩ := foldl_results okStatus hok Q body hspec (ags.filter target)
    { w := w, count := 0, results := [] }
  rw [bulkLoop_state]
  refine ⟨rs, ?_, ?_, ?_, h2, h4⟩
  · rw [h1]
    rfl
  · rw [h3]
    exact Nat.zero_add _
  · have := congrArg List.length h2
    simpa using this

theorem isConfirmTarget_iff (today : String) (a : Agendamento) :
    isConfirmTarget today a = true ↔
      a.data_agendamento = today ∧ (a.status = "pendente" ∨ a.status = "Agendado") := by
  unfold isConfirmTarget
  simp only [Bool.and_eq_true, Bool.or_eq_true, beq_iff_eq]

theorem isCancelTarget_iff (today : String) (a : Agendamento) :
    isCancelTarget today a = true ↔
      a.data_agendamento = today ∧
        (a.status = "pendente" ∨ a.status = "confirmado" ∨ a.status = "Agendado") := by
  unfold isCancelTarget
  simp only [Bool.and_eq_true, Bool.or_eq_true, beq_iff_eq, or_assoc]

theorem filter_ne_nil_of_getElem {target : Agendamento → Bool} {ags : List Agendamento}
    {j : Nat} {a : Agendamento} (hj : ags[j]? = some a) (ht : target a = true) :
    ags.filter target ≠ [] := by
  intro h
  have hmem : a ∈ ags.filter target :=
    List.mem_filter.mpr ⟨List.getElem?_mem hj, ht⟩
  rw [h] at hmem
  cases hmem

/-! ### Targets, results and updates of the bulk flows -/

/-- C11 fails as stated: with three bookings pending today, two of them with a
client and a phone on file, the flow whose final write throws answers 500 and
returns no results list, although both messages were sent; and when
`clientes.json` cannot be parsed it answers 500 before any booking is
processed. -/
theorem confirmation_flow_without_results_counterexample :
    ([exemploPendente, exemploSemCliente, exemploPendente2].filter
      (isConfirmTarget (todayISO Env.writeFails))).length = 3 ∧
    (sendBulkConfirmations Env.writeFails World.connected exemploTresDb).1 =
      .serverError "ENOSPC: no space left on device" ∧
    (sendBulkConfirmations Env.writeFails World.connected exemploTresDb).2.1.calls.filterMap
      TransportCall.sendJid = ["5511998761833@s.whatsapp.net", "21987654321@s.whatsapp.net"] ∧
    sendBulkConfirmations Env.clientesIlegivel World.connected exemploTresDb =
      (.serverError "Unexpected end of JSON input", World.connected, exemploTresDb) := by
  decide

/-- C11 (amended): when the confirmation flow has a non-empty target set and
the bookings file is read without error, then: if the client or service file
cannot be read, the flow answers 500 and nothing is sent or stored; otherwise
its loop produces one result per target booking, in target order and carrying
that booking's id, the result of a target booking being marked 'enviado'
exactly when its client is found with a phone and its send succeeded in the
state the loop had reached, whatever happened to the bookings before it; when
the final write succeeds the flow answers with these results, with `total` the
number of target bookings and `sent` the number of results marked 'enviado';
when the final write throws it answers 500 with the state the loop left. -/
theorem confirmation_flow_results (env : Env) (w : World) (db : Database)
    (ags : List Agendamento) (hc : w.svc.isConnected = true) (hdb : db.agendamentos = some ags)
    (hread : env.readOutcome "agendamentos.json" = none)
    (hne : ags.filter (isConfirmTarget (todayISO env)) ≠ []) :
    (∀ e, erroDeLeitura env db = some e →
      sendBulkConfirmations env w db = (.serverError e, w, db)) ∧
    (erroDeLeitura env db = none →
      ∃ results,
        (confirmLoop env w db ags).2.results = results ∧
        results.length = (ags.filter (isConfirmTarget (todayISO env))).length ∧
        results.map (fun r => r.agendamento_id) =
          (ags.filter (isConfirmTarget (todayISO env))).map (fun a => a.id) ∧
        (∀ k a, (ags.filter (isConfirmTarget (todayISO env)))[k]? = some a →
          ((results[k]?).map (fun r => r.status) = some "enviado" ↔
            SentOk env (db.clientes.getD []) (db.servicos.getD []) (confirmText env)
              (((ags.filter (isConfirmTarget (todayISO env))).take k).foldl
                (fun s a => (confirmItem env (db.clientes.getD []) (db.servicos.getD []) s a).2)
                { w := w, count := 0, results := [] }).w a)) ∧
        (env.writeOutcome (confirmLoop env w db ags).2.w.calls.length = none →
          (sendBulkConfirmations env w db).1 =
            .done (results.countP (fun r => r.status == "enviado"))
              (ags.filter (isConfirmTarget (todayISO env))).length results) ∧
        (∀ e, env.writeOutcome (confirmLoop env w db ags).2.w.calls.length = some e →
          sendBulkConfirmations env w db =
            (.serverError e, (confirmLoop env w db ags).2.w, db))) := by
  have hrun := (sendBulkConfirmations_run env w db ags hc hdb hread).2 hne
  refine ⟨hrun.1, fun herr => ?_⟩
  obtain ⟨results, h1, h2, h3, h4, h5⟩ := loop_results "enviado" (by decide)
    (SentOk env (db.clientes.getD []) (db.servicos.getD []) (confirmText env))
    (isConfirmTarget (todayISO env))
    (confirmItem env (db.clientes.getD []) (db.servicos.getD []))
    (confirmItem_spec env _ _) ags w
  refine ⟨results, h1, h3, h4, h5, fun hw => ?_, (hrun.2 herr).1⟩
  rw [(hrun.2 herr).2 hw]
  unfold confirmLoop
  rw [h1, h2]

theorem confirmation_flow_results_witness :
    ∃ results,
      (sendBulkConfirmations Env.allOk World.connected exemploTresDb).1 = .done 2 3 results ∧
      results.length = 3 ∧
      ((sendBulkConfirmations Env.allOk World.connected exemploTresDb).2.2.agendamentos.getD [])[1]?
        = some exemploSemCliente := by
  obtain ⟨results, _, _, _, _, h1, _⟩ := (confirmation_flow_results Env.allOk World.connected
    exemploTresDb [exemploPendente, exemploSemCliente, exemploPendente2] rfl rfl rfl
    (by decide)).2 rfl
  have hconc : (sendBulkConfirmations Env.allOk World.connected exemploTresDb).1 =
      .done 2 3
        [{ agendamento_id := 1, status := "enviado", message := "Confirmação enviada com sucesso" },
         { agendamento_id := 2, status := "erro",
           message := "Cliente não encontrado ou sem telefone" },
         { agendamento_id := 4, status := "enviado",
           message := "Confirmação enviada com sucesso" }] := by
    decide
  have hres := (h1 rfl).symm.trans hconc
  injection hres with _ _ hres
  subst hres
  exact ⟨_, hconc, rfl, by decide⟩

theorem isConfirmTarget_filter (ags : List Agendamento) (hoje : String) :
    ags.filter (isConfirmTarget hoje) =
      ags.filter (fun a => decide (a.data_agendamento = hoje ∧
        (a.status = "pendente" ∨ a.status = "Agendado"))) := by
  apply List.filter_congr
  intro a _
  rw [Bool.eq_iff_iff, isConfirmTarget_iff]
  simp

theorem isCancelTarget_filter (ags : List Agendamento) (hoje : String) :
    ags.filter (isCancelTarget hoje) =
      ags.filter (fun a => decide (a.data_agendamento = hoje ∧
        (a.status = "pendente" ∨ a.status = "confirmado" ∨ a.status = "Agendado"))) := by
  apply List.filter_congr
  intro a _
  rw [Bool.eq_iff_iff, isCancelTarget_iff]
  simp

/-- C14 fails as stated: when the final write throws, a target booking whose
message was sent is not written back: the flow answers 500 and the file still
holds the booking as 'pendente', without a confirmation timestamp. -/
theorem confirmation_sent_but_not_stored_counterexample :
    isConfirmTarget (todayISO Env.writeFails) exemploPendente = true ∧
    (sendMessage Env.writeFails World.connected "5511998761833"
      (confirmText Env.writeFails { id := 1, nome := some "Ana", telefone := some "5511998761833" }
        (some { id := 1, nome := some "Corte" }) exemploPendente)).1 =
      .ok { recipient := "5511998761833" } ∧
    (sendBulkConfirmations Env.writeFails World.connected exemploTresDb).1 =
      .serverError "ENOSPC: no space left on device" ∧
    ((sendBulkConfirmations Env.writeFails World.connected exemploTresDb).2.2.agendamentos.getD
      [])[0]? = some exemploPendente ∧
    exemploPendente.status = "pendente" ∧ exemploPendente.confirmado_em = none :=
  ⟨by decide, rfl, by decide, by decide, rfl, rfl⟩

/-- C14 (amended): let the local date of the process be day `dd`, month `mm`,
year `yyyy` (`toLocaleDateString('pt-BR')` gives `dd/mm/yyyy`) and let the
bookings file be read without error. The target list of the confirmation flow
is exactly the bookings whose date is `yyyy-mm-dd` and whose status is
'pendente' or 'Agendado': the flow answers that there is nothing to do when
there is none, and the total and the results it answers with are those of that
list. For every such booking whose send succeeds, the collection the loop
hands to the final write holds it with status 'confirmado' and a
`confirmado_em` timestamp read from the clock, every other field as before.
That collection is what the file holds afterwards when the client and service
files are read and the final write succeeds; when the final write throws, or
one of these files cannot be read, the flow answers 500 and the file holds what
it held before. -/
theorem confirmation_targets_and_update (env : Env) (w : World) (db : Database)
    (ags : List Agendamento) (dd mm yyyy : String)
    (hc : w.svc.isConnected = true) (hdb : db.agendamentos = some ags)
    (hread : env.readOutcome "agendamentos.json" = none)
    (hhoje : env.todayPtBR = dd ++ "/" ++ mm ++ "/" ++ yyyy)
    (hdd : '/' ∉ dd.data) (hmm : '/' ∉ mm.data) (hyyyy : '/' ∉ yyyy.data) :
    ags.filter (isConfirmTarget (todayISO env)) =
      ags.filter (fun a => decide (a.data_agendamento = yyyy ++ "-" ++ mm ++ "-" ++ dd ∧
        (a.status = "pendente" ∨ a.status = "Agendado"))) ∧
    (ags.filter (fun a => decide (a.data_agendamento = yyyy ++ "-" ++ mm ++ "-" ++ dd ∧
        (a.status = "pendente" ∨ a.status = "Agendado"))) = [] →
      sendBulkConfirmations env w db = (.nothingToDo, w, db)) ∧
    (∀ count total results, (sendBulkConfirmations env w db).1 = .done count total results →
      total = (ags.filter (fun a => decide (a.data_agendamento = yyyy ++ "-" ++ mm ++ "-" ++ dd ∧
        (a.status = "pendente" ∨ a.status = "Agendado")))).length ∧
      results.map (fun r => r.agendamento_id) =
        (ags.filter (fun a => decide (a.data_agendamento = yyyy ++ "-" ++ mm ++ "-" ++ dd ∧
          (a.status = "pendente" ∨ a.status = "Agendado")))).map (fun a => a.id)) ∧
    (∀ j a, ags[j]? = some a → a.data_agendamento = yyyy ++ "-" ++ mm ++ "-" ++ dd →
      a.status = "pendente" ∨ a.status = "Agendado" →
      SentOk env (db.clientes.getD []) (db.servicos.getD []) (confirmText env)
        (confirmLoop env w db (ags.take j)).2.w a →
      ∃ n, (confirmLoop env w db ags).1[j]? =
        some { a with status := "confirmado", confirmado_em := some (env.now n) }) ∧
    (ags.filter (fun a => decide (a.data_agendamento = yyyy ++ "-" ++ mm ++ "-" ++ dd ∧
        (a.status = "pendente" ∨ a.status = "Agendado"))) ≠ [] →
      (∀ e, erroDeLeitura env db = some e →
        sendBulkConfirmations env w db = (.serverError e, w, db)) ∧
      (erroDeLeitura env db = none →
        (∀ e, env.writeOutcome (confirmLoop env w db ags).2.w.calls.length = some e →
          sendBulkConfirmations env w db =
            (.serverError e, (confirmLoop env w db ags).2.w, db)) ∧
        (env.writeOutcome (confirmLoop env w db ags).2.w.calls.length = none →
          (sendBulkConfirmations env w db).2.2 =
            { db with agendamentos := some (confirmLoop env w db ags).1 }))) := by
  have htoday := todayISO_eq env dd mm yyyy hhoje hdd hmm hyyyy
  have hfilter := isConfirmTarget_filter ags (todayISO env)
  rw [htoday] at hfilter
  rw [← hfilter, ← htoday]
  have hrun := sendBulkConfirmations_run env w db ags hc hdb hread
  refine ⟨rfl, hrun.1, ?_, ?_, ?_⟩
  · intro count total results hdone
    obtain ⟨rs, h1, _, _, h4, _⟩ := loop_results "enviado" (by decide)
      (SentOk env (db.clientes.getD []) (db.servicos.getD []) (confirmText env))
      (isConfirmTarget (todayISO env))
      (confirmItem env (db.clientes.getD []) (db.servicos.getD []))
      (confirmItem_spec env _ _) ags w
    by_cases hne : ags.filter (isConfirmTarget (todayISO env)) = []
    · rw [hrun.1 hne] at hdone
      cases hdone
    · cases herr : erroDeLeitura env db with
      | some e =>
        rw [(hrun.2 hne).1 e herr] at hdone
        cases hdone
      | none =>
        cases hw : env.writeOutcome (confirmLoop env w db ags).2.w.calls.length with
        | some e =>
          rw [((hrun.2 hne).2 herr).1 e hw] at hdone
          cases hdone
        | none =>
          rw [((hrun.2 hne).2 herr).2 hw] at hdone
          injection hdone with _ htotal hresults
          refine ⟨htotal.symm, ?_⟩
          rw [← hresults]
          exact h1.trans (by rfl) ▸ h4
  · intro j a hj hdate hstatus hsent
    have ht : isConfirmTarget (todayISO env) a = true := by
      rw [isConfirmTarget_iff]
      exact ⟨hdate, hstatus⟩
    unfold confirmLoop
    rw [bulkLoop_getElem _ _ ags _ j a hj, if_pos ht]
    rcases confirmItem_cases env (db.clientes.getD []) (db.servicos.getD [])
      (bulkLoop (isConfirmTarget (todayISO env))
        (confirmItem env (db.clientes.getD []) (db.servicos.getD []))
        (ags.take j) { w := w, count := 0, results := [] }).2 a with
      ⟨_, ⟨n, hn⟩, _, _⟩ | ⟨hq, _⟩
    · exact ⟨n, by rw [hn]⟩
    · exact absurd hsent hq
  · intro hne
    refine ⟨(hrun.2 hne).1, fun herr => ⟨((hrun.2 hne).2 herr).1, fun hw => ?_⟩⟩
    rw [((hrun.2 hne).2 herr).2 hw]

theorem confirmation_targets_and_update_witness :
    [exemploPendente, exemploSemCliente, exemploPendente2, exemploFimDeMaio].filter
        (isConfirmTarget (todayISO (Env.comRelogio relogioSaoPaulo))) =
      [exemploPendente, exemploSemCliente, exemploPendente2] ∧
    [exemploPendente, exemploSemCliente, exemploPendente2, exemploFimDeMaio].filter
        (isConfirmTarget (todayISO (Env.comRelogio relogioFimDeMaio))) = [exemploFimDeMaio] ∧
    (∃ n, (confirmLoop (Env.comRelogio relogioSaoPaulo) World.connected exemploDoisDiasDb
        [exemploPendente, exemploSemCliente, exemploPendente2, exemploFimDeMaio]).1[2]? =
      some { exemploPendente2 with
             status := "confirmado"
             confirmado_em := some ((Env.comRelogio relogioSaoPaulo).now n) }) :=
  ⟨(confirmation_targets_and_update (Env.comRelogio relogioSaoPaulo) World.connected
      exemploDoisDiasDb [exemploPendente, exemploSemCliente, exemploPendente2, exemploFimDeMaio]
      "10" "05" "2024" rfl rfl rfl (by decide) (by decide) (by decide) (by decide)).1.trans
      (by decide),
   (confirmation_targets_and_update (Env.comRelogio relogioFimDeMaio) World.connected
      exemploDoisDiasDb [exemploPendente, exemploSemCliente, exemploPendente2, exemploFimDeMaio]
      "29" "05" "2024" rfl rfl rfl (by decide) (by decide) (by decide) (by decide)).1.trans
      (by decide),
   (confirmation_targets_and_update (Env.comRelogio relogioSaoPaulo) World.connected
      exemploDoisDiasDb [exemploPendente, exemploSemCliente, exemploPendente2, exemploFimDeMaio]
      "10" "05" "2024" rfl rfl rfl (by decide) (by decide) (by decide)
      (by decide)).2.2.2.1 2 exemploPendente2 rfl (by decide) (Or.inr rfl)
      ⟨{ id := 2, nome := some "Bia", telefone := some "(21) 98765-4321" }, "(21) 98765-4321",
        { recipient := "21987654321" }, rfl, rfl, by decide, rfl⟩⟩

/-- C15 fails as stated: when the final write throws, a target booking whose
cancellation message was sent is not written back and no cancelled count is
returned: the flow answers 500 and the file still holds the booking as
'pendente', without a cancellation timestamp or reason. -/
theorem cancellation_sent_but_not_stored_counterexample :
    isCancelTarget (todayISO Env.writeFails) exemploPendente = true ∧
    (sendMessage Env.writeFails World.connected "5511998761833"
      (cancelText Env.writeFails "Imprevisto"
        { id := 1, nome := some "Ana", telefone := some "5511998761833" }
        (some { id := 1, nome := some "Corte" }) exemploPendente)).1 =
      .ok { recipient := "5511998761833" } ∧
    (cancelConfirmations Env.writeFails World.connected exemploTresDb (some "Imprevisto")).1 =
      .serverError "ENOSPC: no space left on device" ∧
    ((cancelConfirmations Env.writeFails World.connected exemploTresDb
      (some "Imprevisto")).2.2.agendamentos.getD [])[0]? = some exemploPendente ∧
    exemploPendente.status = "pendente" ∧ exemploPendente.cancelado_em = none ∧
    exemploPendente.motivo_cancelamento = none :=
  ⟨by decide, rfl, by decide, by decide, rfl, rfl, rfl⟩

/-- C15 (amended): let the local date of the process be day `dd`, month `mm`,
year `yyyy`, the reason be non-empty and the bookings file be read without
error. The target list of the cancellation flow is exactly the bookings whose
date is `yyyy-mm-dd` and whose status is 'pendente', 'confirmado' or
'Agendado': the flow answers that there is nothing to do when there is none,
and when it answers with results, the total and the results are those of that
list, a result is marked 'cancelado' exactly when the send of its booking
succeeded, and the cancelled count is the number of results so marked. For
every such booking whose send succeeds, the collection the loop hands to the
final write holds it with status 'cancelado', a `cancelado_em` timestamp read
from the clock and the reason in `motivo_cancelamento`, every other field as
before. That collection is what the file holds afterwards when the client and
service files are read and the final write succeeds; when the final write
throws, or one of these files cannot be read, the flow answers 500, returns no
count, and the file holds what it held before. -/
theorem cancellation_targets_and_update (env : Env) (w : World) (db : Database)
    (ags : List Agendamento) (motivo dd mm yyyy : String)
    (hc : w.svc.isConnected = true) (hdb : db.agendamentos = some ags) (hm : motivo ≠ "")
    (hread : env.readOutcome "agendamentos.json" = none)
    (hhoje : env.todayPtBR = dd ++ "/" ++ mm ++ "/" ++ yyyy)
    (hdd : '/' ∉ dd.data) (hmm : '/' ∉ mm.data) (hyyyy : '/' ∉ yyyy.data) :
    ags.filter (isCancelTarget (todayISO env)) = ags.filter
      (fun a => decide (a.data_agendamento = yyyy ++ "-" ++ mm ++ "-" ++ dd ∧
        (a.status = "pendente" ∨ a.status = "confirmado" ∨ a.status = "Agendado"))) ∧
    (ags.filter
      (fun a => decide (a.data_agendamento = yyyy ++ "-" ++ mm ++ "-" ++ dd ∧
        (a.status = "pendente" ∨ a.status = "confirmado" ∨ a.status = "Agendado"))) = [] →
      cancelConfirmations env w db (some motivo) = (.nothingToDo, w, db)) ∧
    (∀ count total results,
      (cancelConfirmations env w db (some motivo)).1 = .done count total results →
      total = (ags.filter
      (fun a => decide (a.data_agendamento = yyyy ++ "-" ++ mm ++ "-" ++ dd ∧
        (a.status = "pendente" ∨ a.status = "confirmado" ∨ a.status = "Agendado")))).length ∧
      results.map (fun r => r.agendamento_id) = (ags.filter
      (fun a => decide (a.data_agendamento = yyyy ++ "-" ++ mm ++ "-" ++ dd ∧
        (a.status = "pendente" ∨ a.status = "confirmado" ∨ a.status = "Agendado")))).map (fun a => a.id) ∧
      count = results.countP (fun r => r.status == "cancelado") ∧
      ∀ k a, (ags.filter
      (fun a => decide (a.data_agendamento = yyyy ++ "-" ++ mm ++ "-" ++ dd ∧
        (a.status = "pendente" ∨ a.status = "confirmado" ∨ a.status = "Agendado"))))[k]? = some a →
        ((results[k]?).map (fun r => r.status) = some "cancelado" ↔
          SentOk env (db.clientes.getD []) (db.servicos.getD []) (cancelText env motivo)
            (((ags.filter
      (fun a => decide (a.data_agendamento = yyyy ++ "-" ++ mm ++ "-" ++ dd ∧
        (a.status = "pendente" ∨ a.status = "confirmado" ∨ a.status = "Agendado")))).take k).foldl
              (fun s a =>
                (cancelItem env motivo (db.clientes.getD []) (db.servicos.getD []) s a).2)
              { w := w, count := 0, results := [] }).w a)) ∧
    (∀ j a, ags[j]? = some a → a.data_agendamento = yyyy ++ "-" ++ mm ++ "-" ++ dd →
      a.status = "pendente" ∨ a.status = "confirmado" ∨ a.status = "Agendado" →
      SentOk env (db.clientes.getD []) (db.servicos.getD []) (cancelText env motivo)
        (cancelLoop env motivo w db (ags.take j)).2.w a →
      ∃ n, (cancelLoop env motivo w db ags).1[j]? =
        some { a with
               status := "cancelado"
               cancelado_em := some (env.now n)
               motivo_cancelamento := some motivo }) ∧
    (ags.filter
      (fun a => decide (a.data_agendamento = yyyy ++ "-" ++ mm ++ "-" ++ dd ∧
        (a.status = "pendente" ∨ a.status = "confirmado" ∨ a.status = "Agendado"))) ≠ [] →
      (∀ e, erroDeLeitura env db = some e →
        cancelConfirmations env w db (some motivo) = (.serverError e, w, db)) ∧
      (erroDeLeitura env db = none →
        (∀ e, env.writeOutcome (cancelLoop env motivo w db ags).2.w.calls.length = some e →
          cancelConfirmations env w db (some motivo) =
            (.serverError e, (cancelLoop env motivo w db ags).2.w, db)) ∧
        (env.writeOutcome (cancelLoop env motivo w db ags).2.w.calls.length = none →
          (cancelConfirmations env w db (some motivo)).2.2 =
            { db with agendamentos := some (cancelLoop env motivo w db ags).1 }))) := by
  have htoday := todayISO_eq env dd mm yyyy hhoje hdd hmm hyyyy
  have hfilter := isCancelTarget_filter ags (todayISO env)
  rw [htoday] at hfilter
  rw [← hfilter, ← htoday]
  have hrun := cancelConfirmations_run env w db ags motivo hc hdb hm hread
  refine ⟨rfl, hrun.1, ?_, ?_, ?_⟩
  · intro count total results hdone
    obtain ⟨rs, h1, h2, _, h4, h5⟩ := loop_results "cancelado" (by decide)
      (SentOk env (db.clientes.getD []) (db.servicos.getD []) (cancelText env motivo))
      (isCancelTarget (todayISO env))
      (cancelItem env motivo (db.clientes.getD []) (db.servicos.getD []))
      (cancelItem_spec env motivo _ _) ags w
    by_cases hne : ags.filter (isCancelTarget (todayISO env)) = []
    · rw [hrun.1 hne] at hdone
      cases hdone
    · cases herr : erroDeLeitura env db with
      | some e =>
        rw [(hrun.2 hne).1 e herr] at hdone
        cases hdone
      | none =>
        cases hw : env.writeOutcome (cancelLoop env motivo w db ags).2.w.calls.length with
        | some e =>
          rw [((hrun.2 hne).2 herr).1 e hw] at hdone
          cases hdone
        | none =>
          rw [((hrun.2 hne).2 herr).2 hw] at hdone
          injection hdone with hcount htotal hresults
          have hrs : rs = results := h1.symm.trans hresults
          subst hrs
          exact ⟨htotal.symm, h4, hcount.symm.trans h2, h5⟩
  · intro j a hj hdate hstatus hsent
    have ht : isCancelTarget (todayISO env) a = true := by
      rw [isCancelTarget_iff]
      exact ⟨hdate, hstatus⟩
    unfold cancelLoop
    rw [bulkLoop_getElem _ _ ags _ j a hj, if_pos ht]
    rcases cancelItem_cases env motivo (db.clientes.getD []) (db.servicos.getD [])
      (bulkLoop (isCancelTarget (todayISO env))
        (cancelItem env motivo (db.clientes.getD []) (db.servicos.getD []))
        (ags.take j) { w := w, count := 0, results := [] }).2 a with
      ⟨_, ⟨n, hn⟩, _, _⟩ | ⟨hq, _⟩
    · exact ⟨n, by rw [hn]⟩
    · exact absurd hsent hq
  · intro hne
    refine ⟨(hrun.2 hne).1, fun herr => ⟨((hrun.2 hne).2 herr).1, fun hw => ?_⟩⟩
    rw [((hrun.2 hne).2 herr).2 hw]

theorem cancellation_targets_and_update_witness :
    [exemploPendente, exemploSemCliente, exemploPendente2, exemploFimDeMaio].filter
        (isCancelTarget (todayISO (Env.comRelogio relogioSaoPaulo))) =
      [exemploPendente, exemploSemCliente, exemploPendente2] ∧
    [exemploPendente, exemploSemCliente, exemploPendente2, exemploFimDeMaio].filter
        (isCancelTarget (todayISO (Env.comRelogio relogioFimDeMaio))) = [exemploFimDeMaio] ∧
    (∃ n, (cancelLoop (Env.comRelogio relogioSaoPaulo) "Imprevisto" World.connected
        exemploDoisDiasDb
        [exemploPendente, exemploSemCliente, exemploPendente2, exemploFimDeMaio]).1[0]? =
      some { exemploPendente with
             status := "cancelado"
             cancelado_em := some ((Env.comRelogio relogioSaoPaulo).now n)
             motivo_cancelamento := some "Imprevisto" }) :=
  ⟨(cancellation_targets_and_update (Env.comRelogio relogioSaoPaulo) World.connected
      exemploDoisDiasDb [exemploPendente, exemploSemCliente, exemploPendente2, exemploFimDeMaio]
      "Imprevisto" "10" "05" "2024" rfl rfl (by decide) rfl (by decide) (by decide) (by decide)
      (by decide)).1.trans (by decide),
   (cancellation_targets_and_update (Env.comRelogio relogioFimDeMaio) World.connected
      exemploDoisDiasDb [exemploPendente, exemploSemCliente, exemploPendente2, exemploFimDeMaio]
      "Imprevisto" "29" "05" "2024" rfl rfl (by decide) rfl (by decide) (by decide) (by decide)
      (by decide)).1.trans (by decide),
   (cancellation_targets_and_update (Env.comRelogio relogioSaoPaulo) World.connected
      exemploDoisDiasDb [exemploPendente, exemploSemCliente, exemploPendente2, exemploFimDeMaio]
      "Imprevisto" "10" "05" "2024" rfl rfl (by decide) rfl (by decide) (by decide) (by decide)
      (by decide)).2.2.2.1 0 exemploPendente rfl (by decide) (Or.inl rfl)
      ⟨{ id := 1, nome := some "Ana", telefone := some "5511998761833" }, "5511998761833",
        { recipient := "5511998761833" }, rfl, rfl, by decide, rfl⟩⟩

/-! ### Top days of the monthly report -/

theorem lookup_bumpCount (d k : String) (acc : List (String × Nat)) :
    (bumpCount d acc).lookup k =
      if k = d then some ((acc.lookup d).getD 0 + 1) else acc.lookup k := by
  induction acc with
  | nil =>
    by_cases h : k = d
    · subst h
      simp [bumpCount, List.lookup]
    · have hb : (k == d) = false := beq_eq_false_iff_ne.mpr h
      simp [bumpCount, List.lookup, h, hb]
  | cons p rest ih =>
    obtain ⟨k0, n0⟩ := p
    by_cases h0 : k0 = d
    · subst h0
      by_cases h : k = k0
      · subst h
        simp [bumpCount, List.lookup]
      · have hb : (k == k0) = false := beq_eq_false_iff_ne.mpr h
        simp [bumpCount, List.lookup, h, hb]
    · by_cases h : k = d
      · subst h
        have hne : ¬ k = k0 := fun e => h0 e.symm
        have hb : (k == k0) = false := beq_eq_false_iff_ne.mpr hne
        simp [bumpCount, List.lookup, h0, hb, ih]
      · by_cases hk : k = k0
        · subst hk
          simp [bumpCount, List.lookup, h0, h]
        · have hb : (k == k0) = false := beq_eq_false_iff_ne.mpr hk
          simp [bumpCount, List.lookup, h0, h, hb, ih]

theorem keys_bumpCount (d : String) (acc : List (String × Nat)) :
    (bumpCount d acc).map Prod.fst =
      if d ∈ acc.map Prod.fst then acc.map Prod.fst else acc.map Prod.fst ++ [d] := by
  induction acc with
  | nil => simp [bumpCount]
  | cons p rest ih =>
    obtain ⟨k0, n0⟩ := p
    by_cases h0 : k0 = d
    · subst h0
      simp [bumpCount]
    · have hne : ¬ d = k0 := fun e => h0 e.symm
      by_cases hm : d ∈ rest.map Prod.fst
      · rw [if_pos hm] at ih
        have hm2 : d ∈ ((k0, n0) :: rest).map Prod.fst := by
          rw [List.map_cons]
          exact List.mem_cons_of_mem _ hm
        rw [if_pos hm2]
        simp [bumpCount, h0, ih]
      · rw [if_neg hm] at ih
        have hm2 : ¬ d ∈ ((k0, n0) :: rest).map Prod.fst := by
          rw [List.map_cons, List.mem_cons]
          rintro (h | h)
          · exact hne h
          · exact hm h
        rw [if_neg hm2]
        simp [bumpCount, h0, ih]

theorem contarPorDia_append (l : List Agendamento) (a : Agendamento) :
    contarPorDia (l ++ [a]) = bumpCount a.data_agendamento (contarPorDia l) := by
  unfold contarPorDia
  rw [List.foldl_append]
  rfl

theorem contarPorDia_keys_nodup (l : List Agendamento) :
    ((contarPorDia l).map Prod.fst).Nodup := by
  induction l using List.reverseRecOn with
  | nil => exact List.nodup_nil
  | append_singleton l a ih =>
    rw [contarPorDia_append, keys_bumpCount]
    split
    · exact ih
    · rename_i hm
      rw [List.nodup_append]
      refine ⟨ih, List.nodup_singleton _, ?_⟩
      intro x hx hx2
      rw [List.mem_singleton] at hx2
      subst hx2
      exact hm hx

theorem contarPorDia_lookup (l : List Agendamento) (k : String) :
    (contarPorDia l).lookup k =
      if l.countP (fun apt => apt.data_agendamento == k) = 0 then none
      else some (l.countP (fun apt => apt.data_agendamento == k)) := by
  induction l using List.reverseRecOn with
  | nil => rfl
  | append_singleton l a ih =>
    rw [contarPorDia_append, lookup_bumpCount, List.countP_append]
    by_cases h : k = a.data_agendamento
    · subst h
      rw [if_pos rfl, ih]
      have h1 : List.countP (fun apt => apt.data_agendamento == a.data_agendamento) [a] = 1 := by
        simp [List.countP_cons]
      rw [h1]
      split <;> simp_all
    · rw [if_neg h, ih]
      have h1 : List.countP (fun apt => apt.data_agendamento == k) [a] = 0 := by
        have : ¬ a.data_agendamento = k := fun e => h e.symm
        simp [List.countP_cons, this]
      rw [h1, Nat.add_zero]

theorem mem_iff_lookup_of_nodup (acc : List (String × Nat)) (hnd : (acc.map Prod.fst).Nodup)
    (k : String) (n : Nat) : (k, n) ∈ acc ↔ acc.lookup k = some n := by
  induction acc with
  | nil => simp [List.lookup]
  | cons p rest ih =>
    obtain ⟨k0, n0⟩ := p
    rw [List.map_cons, List.nodup_cons] at hnd
    by_cases h : k = k0
    · subst h
      have hnot : (k, n) ∉ rest := by
        intro hm
        exact hnd.1 (List.mem_map.mpr ⟨(k, n), hm, rfl⟩)
      simp [List.lookup, hnot]
      exact eq_comm
    · have hb : (k == k0) = false := beq_eq_false_iff_ne.mpr h
      simp [List.lookup, h, hb, ih hnd.2]

theorem mem_contarPorDia (l : List Agendamento) (k : String) (n : Nat) :
    (k, n) ∈ contarPorDia l ↔
      n ≠ 0 ∧ n = l.countP (fun apt => apt.data_agendamento == k) := by
  rw [mem_iff_lookup_of_nodup _ (contarPorDia_keys_nodup l), contarPorDia_lookup]
  split
  · rename_i h0
    constructor
    · intro h
      cases h
    · rintro ⟨hn, he⟩
      rw [h0] at he
      exact absurd he hn
  · rename_i h0
    constructor
    · intro h
      cases h
      exact ⟨h0, rfl⟩
    · rintro ⟨_, he⟩
      rw [he]

theorem mem_keys_contarPorDia (l : List Agendamento) (k : String) :
    k ∈ (contarPorDia l).map Prod.fst ↔ k ∈ l.map (fun apt => apt.data_agendamento) := by
  have hpos : 0 < l.countP (fun apt => apt.data_agendamento == k) ↔
      k ∈ l.map (fun apt => apt.data_agendamento) := by
    rw [List.countP_pos_iff, List.mem_map]
    constructor
    · rintro ⟨a, ha, he⟩
      exact ⟨a, ha, by simpa using he⟩
    · rintro ⟨a, ha, he⟩
      exact ⟨a, ha, by simpa using he⟩
  rw [← hpos, List.mem_map]
  constructor
  · rintro ⟨⟨k1, n⟩, hm, hk⟩
    simp only at hk
    subst hk
    obtain ⟨hn, he⟩ := (mem_contarPorDia l k1 n).mp hm
    omega
  · intro h
    exact ⟨(k, _), (mem_contarPorDia l k _).mpr ⟨by omega, rfl⟩, rfl⟩

theorem length_contarPorDia (l : List Agendamento) :
    (contarPorDia l).length = (l.map (fun apt => apt.data_agendamento)).dedup.length := by
  have hperm : List.Perm ((contarPorDia l).map Prod.fst)
      (l.map (fun apt => apt.data_agendamento)).dedup := by
    rw [List.perm_ext_iff_of_nodup (contarPorDia_keys_nodup l) (List.nodup_dedup _)]
    intro k
    rw [mem_keys_contarPorDia, List.mem_dedup]
  rw [← hperm.length_eq, List.length_map]

/-- C17: for every list of bookings selected for the monthly report, the
top-days list has `min 5 d` entries, `d` being the number of distinct dates of
the selection; its dates are distinct dates of the selection, each paired with
the exact number of selected bookings on that date; the counts are in
non-increasing order; and every date of the selection that is left out has a
count no greater than any count listed. -/
theorem topDias_spec (agendamentosMes : List Agendamento) :
    (topDias agendamentosMes).length =
      min 5 (agendamentosMes.map (fun apt => apt.data_agendamento)).dedup.length ∧
    ((topDias agendamentosMes).map Prod.fst).Nodup ∧
    (∀ p ∈ topDias agendamentosMes,
      p.1 ∈ agendamentosMes.map (fun apt => apt.data_agendamento) ∧
      p.2 = agendamentosMes.countP (fun apt => apt.data_agendamento == p.1)) ∧
    (topDias agendamentosMes).Pairwise (fun a b => b.2 ≤ a.2) ∧
    (∀ d ∈ agendamentosMes.map (fun apt => apt.data_agendamento),
      d ∉ (topDias agendamentosMes).map Prod.fst →
      ∀ p ∈ topDias agendamentosMes,
        agendamentosMes.countP (fun apt => apt.data_agendamento == d) ≤ p.2) := by
  haveI : IsTotal (String × Nat) (fun a b => b.2 ≤ a.2) := ⟨fun a b => Nat.le_total b.2 a.2⟩
  haveI : IsTrans (String × Nat) (fun a b => b.2 ≤ a.2) :=
    ⟨fun a b c hab hbc => Nat.le_trans hbc hab⟩
  have hsorted : ((contarPorDia agendamentosMes).insertionSort (fun a b => b.2 ≤ a.2)).Sorted
      (fun a b => b.2 ≤ a.2) := List.sorted_insertionSort _ _
  have hperm := List.perm_insertionSort (fun a b : String × Nat => b.2 ≤ a.2)
    (contarPorDia agendamentosMes)
  have hsub : List.Sublist (topDias agendamentosMes)
      ((contarPorDia agendamentosMes).insertionSort (fun a b => b.2 ≤ a.2)) :=
    List.take_sublist _ _
  have hmem : ∀ p ∈ topDias agendamentosMes, p ∈ contarPorDia agendamentosMes :=
    fun p hp => hperm.subset (hsub.subset hp)
  refine ⟨?_, ?_, ?_, ?_, ?_⟩
  · unfold topDias
    rw [List.length_take, List.length_insertionSort, length_contarPorDia]
  · have hnd : (((contarPorDia agendamentosMes).insertionSort
        (fun a b => b.2 ≤ a.2)).map Prod.fst).Nodup :=
      ((hperm.map Prod.fst).nodup_iff).mpr (contarPorDia_keys_nodup agendamentosMes)
    exact hnd.sublist (hsub.map Prod.fst)
  · intro p hp
    obtain ⟨k, n⟩ := p
    have hm := hmem (k, n) hp
    refine ⟨?_, ((mem_contarPorDia agendamentosMes k n).mp hm).2⟩
    rw [← mem_keys_contarPorDia]
    exact List.mem_map.mpr ⟨(k, n), hm, rfl⟩
  · exact hsorted.sublist hsub
  · intro d hd hnot p hp
    have hk := (mem_keys_contarPorDia agendamentosMes d).mpr hd
    obtain ⟨⟨k, n⟩, hkn, hkd⟩ := List.mem_map.mp hk
    simp only at hkd
    subst hkd
    have hn := ((mem_contarPorDia agendamentosMes k n).mp hkn).2
    have hin : (k, n) ∈ (contarPorDia agendamentosMes).insertionSort (fun a b => b.2 ≤ a.2) :=
      hperm.mem_iff.mpr hkn
    rw [← List.take_append_drop 5
      ((contarPorDia agendamentosMes).insertionSort (fun a b => b.2 ≤ a.2)),
      List.mem_append] at hin
    rcases hin with hin | hin
    · exact absurd (List.mem_map.mpr ⟨(k, n), hin, rfl⟩) hnot
    · have hrel := hsorted.rel_of_mem_take_of_mem_drop hp hin
      rw [← hn]
      exact hrel

theorem topDias_spec_witness :
    topDias exemploMes =
      [("2024-05-10", 5), ("2024-05-06", 4), ("2024-05-02", 3), ("2024-05-03", 1),
       ("2024-05-07", 1)] ∧
    (topDias exemploMes).length =
      min 5 (exemploMes.map (fun apt => apt.data_agendamento)).dedup.length ∧
    (topDias exemploMes).Pairwise (fun a b => b.2 ≤ a.2) :=
  ⟨by decide, (topDias_spec exemploMes).1, (topDias_spec exemploMes).2.2.2.1⟩

/-! ### Collaborators -/

/-- C21, the code at the failing input: for every stored collection, the
router answers `GET /ativos` through the route `/:id` registered before it:
`parseInt('ativos')` is `NaN`, no collaborator is found, and the answer is
404 'Colaborador não encontrado'. -/
theorem get_ativos_answered_by_id_route (hoje : String) (writeOk : Bool)
    (colaboradores : List Colaborador) (body : ColaboradorBody) :
    despachar hoje writeOk colaboradores .GET ["ativos"] body =
      (.erro 404 "Colaborador não encontrado", colaboradores) ∧
    (despachar hoje writeOk [exemploColaborador] .GET ["ativos"] body).1 ≠
      colaboradoresAtivos [exemploColaborador] := by
  have hfind : rotasRegistradas.find? (fun r => (r.casa .GET ["ativos"]).isSome) =
      some .buscarPorId := by decide
  have hparse : jsParseInt "ativos" = .nan := by decide
  have h : ∀ col : List Colaborador, despachar hoje writeOk col .GET ["ativos"] body =
      (.erro 404 "Colaborador não encontrado", col) := by
    intro col
    unfold despachar
    rw [hfind]
    have hnone : col.find? (fun c => idIgual c.id .nan) = none := by
      rw [List.find?_eq_none]
      intro c _
      simp [idIgual]
    simp only [Rota.tratar, Rota.casa, Option.getD_some, buscarColaborador, hparse, hnone]
  refine ⟨h colaboradores, ?_⟩
  rw [h]
  decide

theorem set_of_getElem? {α : Type} :
    ∀ (l : List α) (i : Nat) (a : α), l[i]? = some a → l.set i a = l
  | [], _, _, h => by simp at h
  | x :: rest, 0, a, h => by
    simp only [List.getElem?_cons_zero, Option.some.injEq] at h
    rw [h]
    rfl
  | x :: rest, i + 1, a, h => by
    simp only [List.getElem?_cons_succ] at h
    rw [List.set_cons_succ, set_of_getElem? rest i a h]

theorem foldl_max_ge (l : List Int) (a : Int) :
    a ≤ l.foldl max a ∧ ∀ x ∈ l, x ≤ l.foldl max a := by
  induction l generalizing a with
  | nil => exact ⟨le_refl a, fun x hx => by cases hx⟩
  | cons b rest ih =>
    rw [List.foldl_cons]
    obtain ⟨h1, h2⟩ := ih (max a b)
    refine ⟨le_trans (le_max_left a b) h1, ?_⟩
    intro x hx
    rcases List.mem_cons.mp hx with hx | hx
    · rw [hx]
      exact le_trans (le_max_right a b) h1
    · exact h2 x hx

theorem toDouble_of_safe (z : Int) (h : z.natAbs ≤ 2 ^ 53) : toDouble z = z := by
  unfold toDouble toDoubleNat
  by_cases hz : 0 ≤ z
  · rw [if_pos hz, if_pos (by omega)]
    omega
  · rw [if_neg hz, if_pos (by omega)]
    omega

theorem lt_getNextId (colaboradores : List Colaborador)
    (hsafe : ∀ c ∈ colaboradores, c.id.natAbs < 2 ^ 53) :
    ∀ c ∈ colaboradores, c.id < getNextId colaboradores := by
  intro c hc
  cases colaboradores with
  | nil => cases hc
  | cons c0 rest =>
    obtain ⟨h1, h2⟩ := foldl_max_ge (rest.map (fun x => x.id)) c0.id
    have hmem : ∃ m ∈ c0 :: rest, (rest.map (fun x => x.id)).foldl max c0.id = m.id := by
      have : ∀ (l : List Colaborador) (a : Colaborador), a ∈ c0 :: rest →
          (∀ x ∈ l, x ∈ c0 :: rest) →
          ∃ m ∈ c0 :: rest, (l.map (fun x => x.id)).foldl max a.id = m.id := by
        intro l
        induction l with
        | nil => exact fun a ha _ => ⟨a, ha, rfl⟩
        | cons b l ih =>
          intro a ha hl
          rw [List.map_cons, List.foldl_cons]
          rcases max_choice a.id b.id with hm | hm
          · rw [hm]
            exact ih a ha (fun x hx => hl x (List.mem_cons_of_mem _ hx))
          · rw [hm]
            exact ih b (hl b (List.mem_cons_self _ _))
              (fun x hx => hl x (List.mem_cons_of_mem _ hx))
      exact this rest c0 (List.mem_cons_self _ _) (fun x hx => List.mem_cons_of_mem _ hx)
    obtain ⟨m, hm, hmax⟩ := hmem
    have hmsafe := hsafe m hm
    have hg : getNextId (c0 :: rest) =
        toDouble ((rest.map (fun x => x.id)).foldl max c0.id + 1) := rfl
    rw [hg, hmax, toDouble_of_safe _ (by omega), ← hmax]
    rcases List.mem_cons.mp hc with hc | hc
    · rw [hc]
      omega
    · have := h2 c.id (List.mem_map.mpr ⟨c, hc, rfl⟩)
      omega

theorem findIndexById_spec (colaboradores : List Colaborador) (id : JsNumber) (i : Nat)
    (h : findIndexById colaboradores id = some i) :
    ∃ n c, id = .finite n ∧ colaboradores[i]? = some c ∧ c.id = n := by
  unfold findIndexById at h
  dsimp only at h
  split at h
  · rename_i hlt
    cases h
    have hp := List.findIdx_getElem (w := hlt)
    cases id with
    | nan => simp [idIgual] at hp
    | infinity negative => simp [idIgual] at hp
    | finite n =>
      refine ⟨n, colaboradores[colaboradores.findIdx (fun c => idIgual c.id (.finite n))], rfl,
        List.getElem?_eq_getElem hlt, ?_⟩
      simpa [idIgual] using hp
  · cases h

theorem criarColaborador_keeps_unique (hoje : String) (writeOk : Bool)
    (colaboradores : List Colaborador) (body : ColaboradorBody)
    (he : (colaboradores.map (fun c => c.email)).Nodup)
    (hi : (colaboradores.map (fun c => c.id)).Nodup) :
    ((criarColaborador hoje writeOk colaboradores body).2.map (fun c => c.email)).Nodup ∧
    ((∀ c ∈ colaboradores, c.id.natAbs < 2 ^ 53) →
      ((criarColaborador hoje writeOk colaboradores body).2.map (fun c => c.id)).Nodup) := by
  unfold criarColaborador
  split
  · exact ⟨he, fun _ => hi⟩
  · split
    · exact ⟨he, fun _ => hi⟩
    · rename_i hany
      dsimp only
      cases writeOk with
      | false => exact ⟨he, fun _ => hi⟩
      | true =>
        simp only [if_true, List.map_append, List.map_cons, List.map_nil]
        constructor
        · rw [List.nodup_append]
          refine ⟨he, List.nodup_singleton _, ?_⟩
          intro x hx hx2
          rw [List.mem_singleton] at hx2
          subst hx2
          apply hany
          rw [List.any_eq_true]
          obtain ⟨c, hc, hce⟩ := List.mem_map.mp hx
          exact ⟨c, hc, by simpa using hce⟩
        · intro hsafe
          rw [List.nodup_append]
          refine ⟨hi, List.nodup_singleton _, ?_⟩
          intro x hx hx2
          rw [List.mem_singleton] at hx2
          subst hx2
          obtain ⟨c, hc, hce⟩ := List.mem_map.mp hx
          have hlt := lt_getNextId colaboradores hsafe c hc
          have hce1 : c.id = getNextId colaboradores := hce
          omega

theorem atualizarColaborador_keeps_unique (writeOk : Bool)
    (colaboradores : List Colaborador) (param : String) (body : ColaboradorBody)
    (he : (colaboradores.map (fun c => c.email)).Nodup)
    (hi : (colaboradores.map (fun c => c.id)).Nodup) :
    ((atualizarColaborador writeOk colaboradores param body).2.map (fun c => c.email)).Nodup ∧
    ((atualizarColaborador writeOk colaboradores param body).2.map (fun c => c.id)).Nodup := by
  unfold atualizarColaborador
  dsimp only
  split
  · exact ⟨he, hi⟩
  · rename_i i hfind
    obtain ⟨n, c, hn, hget, hcid⟩ := findIndexById_spec _ _ _ hfind
    rw [hn]
    split
    · exact ⟨he, hi⟩
    · split
      · exact ⟨he, hi⟩
      · rename_i hany
        rw [hget]
        dsimp only
        cases writeOk with
        | false => exact ⟨he, hi⟩
        | true =>
          simp only [if_true, List.map_set]
          constructor
          · by_cases hsame : jsStr body.email = c.email
            · rw [hsame, set_of_getElem? _ _ _ (by rw [List.getElem?_map, hget]; rfl)]
              exact he
            · apply he.set
              intro hmem
              obtain ⟨c1, hc1, hc1e0⟩ := List.mem_map.mp hmem
              have hc1e : c1.email = jsStr body.email := hc1e0
              have hid1 : c1.id = n := by
                by_contra hne
                apply hany
                rw [List.any_eq_true]
                exact ⟨c1, hc1, by simp [hc1e, hne, idIgual]⟩
              have hceq : c1 = c :=
                List.inj_on_of_nodup_map hi hc1 (List.getElem?_mem hget) (by rw [hid1, hcid])
              rw [hceq] at hc1e
              exact hsame hc1e.symm
          · rw [set_of_getElem? _ _ _ (by rw [List.getElem?_map, hget]; rfl)]
            exact hi

theorem excluirColaborador_keeps_unique (writeOk : Bool)
    (colaboradores : List Colaborador) (param : String)
    (he : (colaboradores.map (fun c => c.email)).Nodup)
    (hi : (colaboradores.map (fun c => c.id)).Nodup) :
    ((excluirColaborador writeOk colaboradores param).2.map (fun c => c.email)).Nodup ∧
    ((excluirColaborador writeOk colaboradores param).2.map (fun c => c.id)).Nodup := by
  unfold excluirColaborador
  split
  · exact ⟨he, hi⟩
  · split
    · exact ⟨he, hi⟩
    · cases writeOk with
      | false => exact ⟨he, hi⟩
      | true =>
        simp only [if_true]
        exact ⟨he.sublist ((List.eraseIdx_sublist _ _).map _),
          hi.sublist ((List.eraseIdx_sublist _ _).map _)⟩

theorem atualizarStatus_keeps_unique (writeOk : Bool)
    (colaboradores : List Colaborador) (param : String) (body : ColaboradorBody)
    (he : (colaboradores.map (fun c => c.email)).Nodup)
    (hi : (colaboradores.map (fun c => c.id)).Nodup) :
    ((atualizarStatusColaborador writeOk colaboradores param body).2.map
      (fun c => c.email)).Nodup ∧
    ((atualizarStatusColaborador writeOk colaboradores param body).2.map
      (fun c => c.id)).Nodup := by
  unfold atualizarStatusColaborador
  split
  · exact ⟨he, hi⟩
  · split
    · exact ⟨he, hi⟩
    · split
      · exact ⟨he, hi⟩
      · rename_i atual hget
        dsimp only
        cases writeOk with
        | false => exact ⟨he, hi⟩
        | true =>
          simp only [if_true, List.map_set]
          rw [set_of_getElem? _ _ _ (by rw [List.getElem?_map, hget]; rfl),
            set_of_getElem? _ _ _ (by rw [List.getElem?_map, hget]; rfl)]
          exact ⟨he, hi⟩

/-- Values of `parseInt`: leading white space (here U+3000) is skipped, the
digits stop at the first other character, `0x` selects radix 16, an integer
beyond `2 ^ 53` is rounded to a double, and a string without digits gives
`NaN`. -/
theorem jsParseInt_examples :
    jsParseInt "12" = .finite 12 ∧ jsParseInt "\u3000-7x" = .finite (-7) ∧
    jsParseInt "0x1F" = .finite 31 ∧
    jsParseInt "9007199254740993" = .finite 9007199254740992 ∧
    jsParseInt "ativos" = .nan ∧ jsParseInt "" = .nan := by
  decide

/-- Beyond the safe integers the next id is not fresh: with the one stored
id `2 ^ 53`, `getNextId` is `2 ^ 53` again (`2 ^ 53 + 1` is not a double), and
the collaborator created is stored under the id of the first. -/
theorem getNextId_at_two_pow_53 :
    getNextId [{ exemploColaborador with id := 2 ^ 53 }] = 2 ^ 53 ∧
    ((criarColaborador "2024-05-10" true [{ exemploColaborador with id := 2 ^ 53 }]
      (exemploBody "ana@barbearia.com")).2.map (fun c => c.id)) = [2 ^ 53, 2 ^ 53] := by
  decide

/-- C25 fails as stated: with two records stored under the same id and
different emails, an update of that id to the email of the second record is
accepted and leaves two collaborators with one email. -/
theorem update_with_shared_id_duplicates_email_counterexample :
    ([exemploColaborador, exemploColaboradorMesmoId].map (fun c => c.email)).Nodup ∧
    (atualizarColaborador true [exemploColaborador, exemploColaboradorMesmoId] "1"
      (exemploBody "pedro@barbearia.com")).1 =
        .um 200 { exemploColaborador with email := "pedro@barbearia.com" } ∧
    ¬ ((atualizarColaborador true [exemploColaborador, exemploColaboradorMesmoId] "1"
      (exemploBody "pedro@barbearia.com")).2.map (fun c => c.email)).Nodup := by
  decide

/-- C25 (amended): if no two stored collaborators share an email and no two
share an id, then after any create, update, delete or status-change request,
successful or not, no two stored collaborators share an email; no two share an
id after an update, a delete or a status change, and after a create provided
every stored id is below `2 ^ 53` in magnitude (the next id is computed in
double precision); a create whose email is that of a stored collaborator, and
an update whose email is that of a stored collaborator with another id, are
answered with an error and leave the collection as it was. -/
theorem colaboradores_stay_unique (hoje : String) (writeOk : Bool)
    (colaboradores : List Colaborador) (param : String) (body : ColaboradorBody)
    (he : (colaboradores.map (fun c => c.email)).Nodup)
    (hi : (colaboradores.map (fun c => c.id)).Nodup) :
    (((criarColaborador hoje writeOk colaboradores body).2.map (fun c => c.email)).Nodup ∧
      ((∀ c ∈ colaboradores, c.id.natAbs < 2 ^ 53) →
        ((criarColaborador hoje writeOk colaboradores body).2.map (fun c => c.id)).Nodup)) ∧
    (((atualizarColaborador writeOk colaboradores param body).2.map (fun c => c.email)).Nodup ∧
      ((atualizarColaborador writeOk colaboradores param body).2.map (fun c => c.id)).Nodup) ∧
    (((excluirColaborador writeOk colaboradores param).2.map (fun c => c.email)).Nodup ∧
      ((excluirColaborador writeOk colaboradores param).2.map (fun c => c.id)).Nodup) ∧
    (((atualizarStatusColaborador writeOk colaboradores param body).2.map
        (fun c => c.email)).Nodup ∧
      ((atualizarStatusColaborador writeOk colaboradores param body).2.map
        (fun c => c.id)).Nodup) ∧
    ((∃ c ∈ colaboradores, c.email = jsStr body.email) →
      ∃ msg, criarColaborador hoje writeOk colaboradores body = (.erro 400 msg, colaboradores)) ∧
    (∀ id, jsParseInt param = .finite id →
      (∃ c ∈ colaboradores, c.email = jsStr body.email ∧ c.id ≠ id) →
      ∃ st msg, atualizarColaborador writeOk colaboradores param body =
        (.erro st msg, colaboradores)) := by
  refine ⟨criarColaborador_keeps_unique hoje writeOk colaboradores body he hi,
    atualizarColaborador_keeps_unique writeOk colaboradores param body he hi,
    excluirColaborador_keeps_unique writeOk colaboradores param he hi,
    atualizarStatus_keeps_unique writeOk colaboradores param body he hi, ?_, ?_⟩
  · rintro ⟨c, hc, hce⟩
    have hany : colaboradores.any (fun c => c.email == jsStr body.email) = true := by
      rw [List.any_eq_true]
      exact ⟨c, hc, by simpa using hce⟩
    unfold criarColaborador
    split
    · exact ⟨_, rfl⟩
    · exact ⟨_, rfl⟩
  · rintro id hid ⟨c, hc, hce, hne⟩
    have hany : colaboradores.any
        (fun c => c.email == jsStr body.email && !idIgual c.id (.finite id)) = true := by
      rw [List.any_eq_true]
      exact ⟨c, hc, by simp [hce, hne, idIgual]⟩
    unfold atualizarColaborador
    dsimp only
    rw [hid]
    split
    · exact ⟨_, _, rfl⟩
    · split
      · exact ⟨_, _, rfl⟩
      · exact ⟨_, _, rfl⟩

theorem colaboradores_stay_unique_witness :
    ((criarColaborador "2024-05-10" true [exemploColaborador]
      (exemploBody "ana@barbearia.com")).2.map (fun c => c.email)).Nodup ∧
    ((criarColaborador "2024-05-10" true [exemploColaborador]
      (exemploBody "ana@barbearia.com")).2.map (fun c => c.id)).Nodup ∧
    (∃ msg, criarColaborador "2024-05-10" true [exemploColaborador]
      (exemploBody "joao@barbearia.com") = (.erro 400 msg, [exemploColaborador])) :=
  ⟨(colaboradores_stay_unique "2024-05-10" true [exemploColaborador] "1"
      (exemploBody "ana@barbearia.com") (by decide) (by decide)).1.1,
   (colaboradores_stay_unique "2024-05-10" true [exemploColaborador] "1"
      (exemploBody "ana@barbearia.com") (by decide) (by decide)).1.2 (by decide),
   (colaboradores_stay_unique "2024-05-10" true [exemploColaborador] "1"
      (exemploBody "joao@barbearia.com") (by decide) (by decide)).2.2.2.2.1
      ⟨exemploColaborador, by simp, rfl⟩⟩

/-! ### The two connection flags -/

theorem connect_isConnected (env : Env) (w : World) :
    (connect env w).2.svc.isConnected = w.svc.isConnected := by
  unfold connect connectFailed
  split
  · rfl
  · split
    · rfl
    · dsimp only
      split
      · rfl
      · split
        · rfl
        · split <;> rfl

theorem connect_keeps_flags_apart (env : Env) (w : World)
    (h : ¬ (w.svc.isConnected = true ∧ w.svc.isConnecting = true)) :
    ¬ ((connect env w).2.svc.isConnected = true ∧ (connect env w).2.svc.isConnecting = true) := by
  by_cases hc : w.svc.isConnected = true
  · have : (connect env w).2 = w := by
      unfold connect
      rw [if_pos hc]
    rw [this]
    exact h
  · rw [connect_isConnected]
    exact fun hh => hc hh.1

theorem disconnect_flags (env : Env) (w : World) :
    ((disconnect env w).2.svc.isConnected = false ∧
      (disconnect env w).2.svc.isConnecting = false) ∨
    ((disconnect env w).2.svc.isConnected = w.svc.isConnected ∧
      (disconnect env w).2.svc.isConnecting = w.svc.isConnecting) := by
  unfold disconnect disconnectReset
  cases w.svc.sock with
  | none => exact Or.inl ⟨rfl, rfl⟩
  | some s =>
    dsimp only
    cases env.logoutOutcome (logMessage env w "info" "Desconectando WhatsApp").calls.length with
    | none => exact Or.inl ⟨rfl, rfl⟩
    | some err => exact Or.inr ⟨rfl, rfl⟩

theorem disconnect_keeps_flags_apart (env : Env) (w : World)
    (h : ¬ (w.svc.isConnected = true ∧ w.svc.isConnecting = true)) :
    ¬ ((disconnect env w).2.svc.isConnected = true ∧
      (disconnect env w).2.svc.isConnecting = true) := by
  rcases disconnect_flags env w with ⟨h1, _⟩ | ⟨h1, h2⟩
  · rw [h1]
    exact fun hh => Bool.false_ne_true hh.1
  · rw [h1, h2]
    exact h

theorem handleQR_flags (env : Env) (w : World) (u : ConnectionUpdate) :
    (handleQR env w u).svc.isConnected = w.svc.isConnected ∧
    (handleQR env w u).svc.isConnecting = w.svc.isConnecting := by
  unfold handleQR
  cases u.qr with
  | none => exact ⟨rfl, rfl⟩
  | some qr =>
    dsimp only
    split
    · exact ⟨rfl, rfl⟩
    · cases env.qrToDataURL qr <;> exact ⟨rfl, rfl⟩

theorem event_keeps_flags_apart (env : Env) (w : World) (u : ConnectionUpdate)
    (h : ¬ (w.svc.isConnected = true ∧ w.svc.isConnecting = true)) :
    ¬ ((onConnectionUpdate env w u).svc.isConnected = true ∧
      (onConnectionUpdate env w u).svc.isConnecting = true) := by
  unfold onConnectionUpdate
  have hq := handleQR_flags env w u
  have h1 : ¬ ((handleOpen env (handleQR env w u) u).svc.isConnected = true ∧
      (handleOpen env (handleQR env w u) u).svc.isConnecting = true) := by
    unfold handleOpen
    split
    · exact fun hh => Bool.false_ne_true hh.2
    · rw [hq.1, hq.2]
      exact h
  generalize handleOpen env (handleQR env w u) u = w1 at h1
  unfold handleClose
  split
  · dsimp only
    split
    · rw [clearSession_svc]
      have := disconnect_keeps_cleared env
        (logMessage env
          { w1 with svc := { w1.svc with isConnected := false, isConnecting := false,
                                          currentQRCode := none } }
          "warning" "Logout do WhatsApp - sessão removida") ⟨rfl, rfl, rfl⟩
      rw [this.1]
      exact fun hh => Bool.false_ne_true hh.1
    · split <;> exact fun hh => Bool.false_ne_true hh.1
  · exact h1

/-- C26: starting from a freshly constructed service, after every finite
sequence of `connect`, `disconnect` and `clearSession` calls and connection
events, whatever the outcomes of the transport, the QR encoder and the file
system, `isConnected` and `isConnecting` are not both true. -/
theorem flags_never_both_true (env : Env) (steps : List Step) (w : World)
    (h0 : w.svc = Service.init) :
    ¬ ((runSteps env steps w).svc.isConnected = true ∧
      (runSteps env steps w).svc.isConnecting = true) := by
  have hinv : ∀ (steps : List Step) (w : World),
      ¬ (w.svc.isConnected = true ∧ w.svc.isConnecting = true) →
      ¬ ((runSteps env steps w).svc.isConnected = true ∧
        (runSteps env steps w).svc.isConnecting = true) := by
    intro steps
    induction steps with
    | nil => exact fun w h => h
    | cons st rest ih =>
      intro w h
      unfold runSteps
      rw [List.foldl_cons]
      apply ih
      cases st with
      | connect => exact connect_keeps_flags_apart env w h
      | disconnect => exact disconnect_keeps_flags_apart env w h
      | clearSession =>
        show ¬ ((clearSession env w).svc.isConnected = true ∧
          (clearSession env w).svc.isConnecting = true)
        rw [clearSession_svc]
        exact disconnect_keeps_flags_apart env w h
      | event u => exact event_keeps_flags_apart env w u h
  apply hinv
  rw [h0]
  exact fun hh => Bool.false_ne_true hh.1

theorem flags_never_both_true_witness :
    ¬ ((runSteps Env.allOk
        [.connect, .event { connection := none, statusCode := none, qr := some "2@abc" },
         .event { connection := some "open", statusCode := none, qr := none }, .connect,
         .disconnect, .connect] World.fresh).svc.isConnected = true ∧
      (runSteps Env.allOk
        [.connect, .event { connection := none, statusCode := none, qr := some "2@abc" },
         .event { connection := some "open", statusCode := none, qr := none }, .connect,
         .disconnect, .connect] World.fresh).svc.isConnecting = true) :=
  flags_never_both_true Env.allOk _ World.fresh rfl

/-! ### Running a bulk flow twice -/

theorem bulkLoop_rerun (target : Agendamento → Bool)
    (body : LoopState → Agendamento → Agendamento × LoopState)
    (hbody : ∀ st a, ∃ r, (body st a).2.results = st.results ++ [r] ∧
      ((r.status = "erro" ∧ (body st a).1 = a) ∨
        (r.status ≠ "erro" ∧ target (body st a).1 = false))) :
    ∀ (l : List Agendamento) (st : LoopState),
      ∃ rs,
        (bulkLoop target body l st).2.results = st.results ++ rs ∧
        (bulkLoop target body l st).1.filter target =
          ((l.filter target).zip rs).filterMap
            (fun p => if p.2.status = "erro" then some p.1 else none)
  | [], st => ⟨[], by simp [bulkLoop]⟩
  | a :: rest, st => by
    rw [bulkLoop_cons]
    by_cases ht : target a = true
    · obtain ⟨r, hr, hcase⟩ := hbody st a
      obtain ⟨rs, h1, h2⟩ := bulkLoop_rerun target body hbody rest (body st a).2
      refine ⟨r :: rs, ?_, ?_⟩
      · simp only [if_pos ht]
        rw [h1, hr, List.append_assoc]
        rfl
      · simp only [if_pos ht]
        rw [List.filter_cons_of_pos ht, List.zip_cons_cons, List.filterMap_cons]
        rcases hcase with ⟨hs, ha⟩ | ⟨hs, ha⟩
        · rw [ha, List.filter_cons_of_pos ht, h2]
          simp only [hs, if_true]
        · have hna : ¬ target (body st a).1 = true := by
            rw [ha]
            exact Bool.false_ne_true
          rw [List.filter_cons_of_neg hna, h2]
          simp only [hs, if_false]
    · obtain ⟨rs, h1, h2⟩ := bulkLoop_rerun target body hbody rest st
      refine ⟨rs, ?_, ?_⟩
      · simp only [if_neg ht]
        exact h1
      · simp only [if_neg ht]
        rw [List.filter_cons_of_neg ht, List.filter_cons_of_neg ht, h2]

theorem confirmItem_rerun (env : Env) (clientes : List Cliente) (servicos : List Servico) :
    ∀ st a, ∃ r, (confirmItem env clientes servicos st a).2.results = st.results ++ [r] ∧
      ((r.status = "erro" ∧ (confirmItem env clientes servicos st a).1 = a) ∨
        (r.status ≠ "erro" ∧
          isConfirmTarget (todayISO env) (confirmItem env clientes servicos st a).1 = false)) := by
  intro st a
  rcases confirmItem_cases env clientes servicos st a with
    ⟨_, ⟨n, hn⟩, _, hres⟩ | ⟨_, hsame, _, msg, hres⟩
  · have hne : ("enviado" : String) ≠ "erro" := by decide
    refine ⟨_, hres, Or.inr ⟨hne, ?_⟩⟩
    rw [hn]
    simp [isConfirmTarget]
  · exact ⟨_, hres, Or.inl ⟨rfl, hsame⟩⟩

theorem cancelItem_rerun (env : Env) (reason : String) (clientes : List Cliente)
    (servicos : List Servico) :
    ∀ st a, ∃ r, (cancelItem env reason clientes servicos st a).2.results = st.results ++ [r] ∧
      ((r.status = "erro" ∧ (cancelItem env reason clientes servicos st a).1 = a) ∨
        (r.status ≠ "erro" ∧
          isCancelTarget (todayISO env)
            (cancelItem env reason clientes servicos st a).1 = false)) := by
  intro st a
  rcases cancelItem_cases env reason clientes servicos st a with
    ⟨_, ⟨n, hn⟩, _, hres⟩ | ⟨_, hsame, _, msg, hres⟩
  · have hne : ("cancelado" : String) ≠ "erro" := by decide
    refine ⟨_, hres, Or.inr ⟨hne, ?_⟩⟩
    rw [hn]
    simp [isCancelTarget]
  · exact ⟨_, hres, Or.inl ⟨rfl, hsame⟩⟩

theorem sendBulkConfirmations_rerun (env : Env) (w : World) (db : Database)
    (ags : List Agendamento) (hc : w.svc.isConnected = true)
    (hdb : db.agendamentos = some ags)
    (hread : env.readOutcome "agendamentos.json" = none)
    (run1 run2 : BulkResponse × World × Database)
    (h1 : run1 = sendBulkConfirmations env w db)
    (h2 : run2 = sendBulkConfirmations env run1.2.1 run1.2.2) :
    (∀ count total results, run1.1 = .done count total results →
      (run1.2.2.agendamentos.getD []).filter (isConfirmTarget (todayISO env)) =
        ((ags.filter (isConfirmTarget (todayISO env))).zip results).filterMap
          (fun p => if p.2.status = "erro" then some p.1 else none) ∧
      (∀ j b, (run1.2.2.agendamentos.getD [])[j]? = some b →
        isConfirmTarget (todayISO env) b = true →
        ags[j]? = some b ∧
        ¬ SentOk env (db.clientes.getD []) (db.servicos.getD []) (confirmText env)
          (confirmLoop env w db (ags.take j)).2.w b) ∧
      ((∀ r ∈ results, r.status ≠ "erro") →
        run2 = (.nothingToDo, run1.2.1, run1.2.2))) ∧
    (run1.1 = .nothingToDo → run1 = (.nothingToDo, w, db) ∧ run2 = run1) ∧
    (∀ e, run1.1 = .serverError e →
      run1.2.2 = db ∧
      (run1.2.2.agendamentos.getD []).filter (isConfirmTarget (todayISO env)) =
        ags.filter (isConfirmTarget (todayISO env))) := by
  subst h2
  subst h1
  have hrun := sendBulkConfirmations_run env w db ags hc hdb hread
  obtain ⟨rs, hr1, hr2⟩ := bulkLoop_rerun (isConfirmTarget (todayISO env))
    (confirmItem env (db.clientes.getD []) (db.servicos.getD []))
    (confirmItem_rerun env _ _) ags { w := w, count := 0, results := [] }
  have hrs : rs = (confirmLoop env w db ags).2.results := by
    unfold confirmLoop
    simpa using hr1.symm
  subst hrs
  by_cases hne : ags.filter (isConfirmTarget (todayISO env)) = []
  · have hflow := hrun.1 hne
    rw [hflow]
    refine ⟨fun c t r h => (by cases h), fun _ => ⟨rfl, hflow⟩, fun e h => (by cases h)⟩
  · cases herr : erroDeLeitura env db with
    | some e =>
      rw [(hrun.2 hne).1 e herr]
      refine ⟨fun c t r h => (by cases h), fun h => (by cases h), fun e1 _ => ⟨rfl, ?_⟩⟩
      simp only [hdb, Option.getD_some]
    | none =>
      cases hw : env.writeOutcome (confirmLoop env w db ags).2.w.calls.length with
      | some e =>
        rw [((hrun.2 hne).2 herr).1 e hw]
        refine ⟨fun c t r h => (by cases h), fun h => (by cases h), fun e1 _ => ⟨rfl, ?_⟩⟩
        simp only [hdb, Option.getD_some]
      | none =>
        rw [((hrun.2 hne).2 herr).2 hw]
        refine ⟨?_, fun h => (by cases h), fun e h => (by cases h)⟩
        intro count total results hdone
        injection hdone with _ _ hresults
        subst hresults
        have hstored : (confirmLoop env w db ags).1.filter (isConfirmTarget (todayISO env)) =
            ((ags.filter (isConfirmTarget (todayISO env))).zip (confirmLoop env w db ags).2.results).filterMap
              (fun p => if p.2.status = "erro" then some p.1 else none) := hr2
        refine ⟨hstored, ?_, ?_⟩
        · intro j b hj hb
          simp only [Option.getD_some] at hj
          have hlt : j < ags.length := by
            have := (List.getElem?_eq_some_iff.mp hj).1
            unfold confirmLoop at this
            rwa [bulkLoop_length] at this
          have hja : ags[j]? = some ags[j] := List.getElem?_eq_getElem hlt
          unfold confirmLoop at hj
          rw [bulkLoop_getElem _ _ ags _ j _ hja] at hj
          by_cases ht : isConfirmTarget (todayISO env) ags[j] = true
          · rw [if_pos ht] at hj
            rcases confirmItem_cases env (db.clientes.getD []) (db.servicos.getD [])
              (bulkLoop (isConfirmTarget (todayISO env))
                (confirmItem env (db.clientes.getD []) (db.servicos.getD []))
                (ags.take j) { w := w, count := 0, results := [] }).2 ags[j] with
              ⟨_, ⟨n, hn⟩, _, _⟩ | ⟨hq, hsame, _⟩
            · rw [hn] at hj
              cases hj
              simp [isConfirmTarget] at hb
            · rw [hsame] at hj
              cases hj
              exact ⟨hja, hq⟩
          · rw [if_neg ht] at hj
            cases hj
            exact absurd hb ht
        · intro hall
          have hnone : (confirmLoop env w db ags).1.filter (isConfirmTarget (todayISO env)) = [] := by
            rw [hstored, List.filterMap_eq_nil_iff]
            intro p hp
            have := hall p.2 (List.of_mem_zip hp).2
            simp [this]
          have hc2 : (confirmLoop env w db ags).2.w.svc.isConnected = true := by
            unfold confirmLoop
            rw [bulkLoop_svc _ _ (confirmItem_svc env _ _)]
            exact hc
          exact (sendBulkConfirmations_run env (confirmLoop env w db ags).2.w
            { db with agendamentos := some (confirmLoop env w db ags).1 }
            (confirmLoop env w db ags).1 hc2 rfl hread).1 hnone

theorem cancelConfirmations_rerun (env : Env) (w : World) (db : Database)
    (ags : List Agendamento) (motivo : String) (hc : w.svc.isConnected = true)
    (hdb : db.agendamentos = some ags) (hm : motivo ≠ "")
    (hread : env.readOutcome "agendamentos.json" = none)
    (run1 run2 : BulkResponse × World × Database)
    (h1 : run1 = cancelConfirmations env w db (some motivo))
    (h2 : run2 = cancelConfirmations env run1.2.1 run1.2.2 (some motivo)) :
    (∀ count total results, run1.1 = .done count total results →
      (run1.2.2.agendamentos.getD []).filter (isCancelTarget (todayISO env)) =
        ((ags.filter (isCancelTarget (todayISO env))).zip results).filterMap
          (fun p => if p.2.status = "erro" then some p.1 else none) ∧
      (∀ j b, (run1.2.2.agendamentos.getD [])[j]? = some b →
        isCancelTarget (todayISO env) b = true →
        ags[j]? = some b ∧
        ¬ SentOk env (db.clientes.getD []) (db.servicos.getD []) (cancelText env motivo)
          (cancelLoop env motivo w db (ags.take j)).2.w b) ∧
      ((∀ r ∈ results, r.status ≠ "erro") →
        run2 = (.nothingToDo, run1.2.1, run1.2.2))) ∧
    (run1.1 = .nothingToDo → run1 = (.nothingToDo, w, db) ∧ run2 = run1) ∧
    (∀ e, run1.1 = .serverError e →
      run1.2.2 = db ∧
      (run1.2.2.agendamentos.getD []).filter (isCancelTarget (todayISO env)) =
        ags.filter (isCancelTarget (todayISO env))) := by
  subst h2
  subst h1
  have hrun := cancelConfirmations_run env w db ags motivo hc hdb hm hread
  obtain ⟨rs, hr1, hr2⟩ := bulkLoop_rerun (isCancelTarget (todayISO env))
    (cancelItem env motivo (db.clientes.getD []) (db.servicos.getD []))
    (cancelItem_rerun env motivo _ _) ags { w := w, count := 0, results := [] }
  have hrs : rs = (cancelLoop env motivo w db ags).2.results := by
    unfold cancelLoop
    simpa using hr1.symm
  subst hrs
  by_cases hne : ags.filter (isCancelTarget (todayISO env)) = []
  · have hflow := hrun.1 hne
    rw [hflow]
    refine ⟨fun c t r h => (by cases h), fun _ => ⟨rfl, hflow⟩, fun e h => (by cases h)⟩
  · cases herr : erroDeLeitura env db with
    | some e =>
      rw [(hrun.2 hne).1 e herr]
      refine ⟨fun c t r h => (by cases h), fun h => (by cases h), fun e1 _ => ⟨rfl, ?_⟩⟩
      simp only [hdb, Option.getD_some]
    | none =>
      cases hw : env.writeOutcome (cancelLoop env motivo w db ags).2.w.calls.length with
      | some e =>
        rw [((hrun.2 hne).2 herr).1 e hw]
        refine ⟨fun c t r h => (by cases h), fun h => (by cases h), fun e1 _ => ⟨rfl, ?_⟩⟩
        simp only [hdb, Option.getD_some]
      | none =>
        rw [((hrun.2 hne).2 herr).2 hw]
        refine ⟨?_, fun h => (by cases h), fun e h => (by cases h)⟩
        intro count total results hdone
        injection hdone with _ _ hresults
        subst hresults
        have hstored : (cancelLoop env motivo w db ags).1.filter (isCancelTarget (todayISO env)) =
            ((ags.filter (isCancelTarget (todayISO env))).zip (cancelLoop env motivo w db ags).2.results).filterMap
              (fun p => if p.2.status = "erro" then some p.1 else none) := hr2
        refine ⟨hstored, ?_, ?_⟩
        · intro j b hj hb
          simp only [Option.getD_some] at hj
          have hlt : j < ags.length := by
            have := (List.getElem?_eq_some_iff.mp hj).1
            unfold cancelLoop at this
            rwa [bulkLoop_length] at this
          have hja : ags[j]? = some ags[j] := List.getElem?_eq_getElem hlt
          unfold cancelLoop at hj
          rw [bulkLoop_getElem _ _ ags _ j _ hja] at hj
          by_cases ht : isCancelTarget (todayISO env) ags[j] = true
          · rw [if_pos ht] at hj
            rcases cancelItem_cases env motivo (db.clientes.getD []) (db.servicos.getD [])
              (bulkLoop (isCancelTarget (todayISO env))
                (cancelItem env motivo (db.clientes.getD []) (db.servicos.getD []))
                (ags.take j) { w := w, count := 0, results := [] }).2 ags[j] with
              ⟨_, ⟨n, hn⟩, _, _⟩ | ⟨hq, hsame, _⟩
            · rw [hn] at hj
              cases hj
              simp [isCancelTarget] at hb
            · rw [hsame] at hj
              cases hj
              exact ⟨hja, hq⟩
          · rw [if_neg ht] at hj
            cases hj
            exact absurd hb ht
        · intro hall
          have hnone : (cancelLoop env motivo w db ags).1.filter (isCancelTarget (todayISO env)) = [] := by
            rw [hstored, List.filterMap_eq_nil_iff]
            intro p hp
            have := hall p.2 (List.of_mem_zip hp).2
            simp [this]
          have hc2 : (cancelLoop env motivo w db ags).2.w.svc.isConnected = true := by
            unfold cancelLoop
            rw [bulkLoop_svc _ _ (cancelItem_svc env motivo _ _)]
            exact hc
          exact (cancelConfirmations_run env (cancelLoop env motivo w db ags).2.w
            { db with agendamentos := some (cancelLoop env motivo w db ags).1 }
            (cancelLoop env motivo w db ags).1 motivo hc2 rfl hm hread).1 hnone

/-- C27 fails as stated: when the final write of the first run throws, the
first run has sent its messages (its results are sent, error, sent) and
answers 500; the file is unchanged, so the second run has all three bookings
as targets, not only the one whose result was an error, and the first booking
is sent the confirmation message a second time. -/
theorem second_run_after_failed_write_counterexample :
    (confirmLoop Env.writeFails World.connected exemploTresDb
      [exemploPendente, exemploSemCliente, exemploPendente2]).2.results.map
        (fun r => r.status) = ["enviado", "erro", "enviado"] ∧
    (sendBulkConfirmations Env.writeFails World.connected exemploTresDb).1 =
      .serverError "ENOSPC: no space left on device" ∧
    ((sendBulkConfirmations Env.writeFails World.connected
      exemploTresDb).2.2.agendamentos.getD []).filter
        (isConfirmTarget (todayISO Env.writeFails)) =
      [exemploPendente, exemploSemCliente, exemploPendente2] ∧
    (sendBulkConfirmations Env.writeFails
      (sendBulkConfirmations Env.writeFails World.connected exemploTresDb).2.1
      (sendBulkConfirmations Env.writeFails World.connected exemploTresDb).2.2).2.1.calls.filterMap
        TransportCall.sendJid =
      ["5511998761833@s.whatsapp.net", "21987654321@s.whatsapp.net",
       "5511998761833@s.whatsapp.net", "21987654321@s.whatsapp.net"] :=
  ⟨by decide, by decide, by decide, by decide⟩

/-- C27 (amended): let the confirmation flow run on a connected session with
the bookings file read without error, and run again on the same day on what
the first run left (`run1`, `run2`). If the first run answers with its
results (its final write succeeded), the target list of the second run is
exactly the list of first-run target bookings whose result was an error; a
target of the second run is a booking whose record the first run left as it was
and whose first send did not succeed (it is tried again), so no booking is
sent the message successfully in both runs; and when no first-run result is an
error the second run answers that there is nothing to do and returns the state
and the files as it received them, sending nothing. If the first run found
nothing to do, so does the second. If the first run answers 500 (a file could
not be read, or the final write threw after the messages were sent), the
bookings file holds what it held before, and the target list of the second run
is that of the first. The same holds for the cancellation flow (`can1`,
`can2`) run twice with a reason. -/
theorem second_run_targets (env : Env) (w : World) (db : Database)
    (ags : List Agendamento) (motivo : String) (hc : w.svc.isConnected = true)
    (hdb : db.agendamentos = some ags) (hm : motivo ≠ "")
    (hread : env.readOutcome "agendamentos.json" = none)
    (run1 run2 can1 can2 : BulkResponse × World × Database)
    (h1 : run1 = sendBulkConfirmations env w db)
    (h2 : run2 = sendBulkConfirmations env run1.2.1 run1.2.2)
    (h3 : can1 = cancelConfirmations env w db (some motivo))
    (h4 : can2 = cancelConfirmations env can1.2.1 can1.2.2 (some motivo)) :
    ((∀ count total results, run1.1 = .done count total results →
        (run1.2.2.agendamentos.getD []).filter (isConfirmTarget (todayISO env)) =
          ((ags.filter (isConfirmTarget (todayISO env))).zip results).filterMap
            (fun p => if p.2.status = "erro" then some p.1 else none) ∧
        (∀ j b, (run1.2.2.agendamentos.getD [])[j]? = some b →
          isConfirmTarget (todayISO env) b = true →
          ags[j]? = some b ∧
          ¬ SentOk env (db.clientes.getD []) (db.servicos.getD []) (confirmText env)
            (confirmLoop env w db (ags.take j)).2.w b) ∧
        ((∀ r ∈ results, r.status ≠ "erro") →
          run2 = (.nothingToDo, run1.2.1, run1.2.2))) ∧
      (run1.1 = .nothingToDo → run1 = (.nothingToDo, w, db) ∧ run2 = run1) ∧
      (∀ e, run1.1 = .serverError e →
        run1.2.2 = db ∧
        (run1.2.2.agendamentos.getD []).filter (isConfirmTarget (todayISO env)) =
          ags.filter (isConfirmTarget (todayISO env)))) ∧
    ((∀ count total results, can1.1 = .done count total results →
        (can1.2.2.agendamentos.getD []).filter (isCancelTarget (todayISO env)) =
          ((ags.filter (isCancelTarget (todayISO env))).zip results).filterMap
            (fun p => if p.2.status = "erro" then some p.1 else none) ∧
        (∀ j b, (can1.2.2.agendamentos.getD [])[j]? = some b →
          isCancelTarget (todayISO env) b = true →
          ags[j]? = some b ∧
          ¬ SentOk env (db.clientes.getD []) (db.servicos.getD []) (cancelText env motivo)
            (cancelLoop env motivo w db (ags.take j)).2.w b) ∧
        ((∀ r ∈ results, r.status ≠ "erro") →
          can2 = (.nothingToDo, can1.2.1, can1.2.2))) ∧
      (can1.1 = .nothingToDo → can1 = (.nothingToDo, w, db) ∧ can2 = can1) ∧
      (∀ e, can1.1 = .serverError e →
        can1.2.2 = db ∧
        (can1.2.2.agendamentos.getD []).filter (isCancelTarget (todayISO env)) =
          ags.filter (isCancelTarget (todayISO env)))) :=
  ⟨sendBulkConfirmations_rerun env w db ags hc hdb hread run1 run2 h1 h2,
   cancelConfirmations_rerun env w db ags motivo hc hdb hm hread can1 can2 h3 h4⟩

theorem second_run_targets_witness :
    ((sendBulkConfirmations Env.allOk World.connected exemploTresDb).2.2.agendamentos.getD
        []).filter (isConfirmTarget (todayISO Env.allOk)) = [exemploSemCliente] ∧
    (sendBulkConfirmations Env.writeFails World.connected exemploTresDb).2.2 = exemploTresDb :=
  ⟨((second_run_targets Env.allOk World.connected exemploTresDb
      [exemploPendente, exemploSemCliente, exemploPendente2] "Imprevisto" rfl rfl (by decide) rfl
      _ _ _ _ rfl rfl rfl rfl).1.1 2 3
      [{ agendamento_id := 1, status := "enviado", message := "Confirmação enviada com sucesso" },
       { agendamento_id := 2, status := "erro",
         message := "Cliente não encontrado ou sem telefone" },
       { agendamento_id := 4, status := "enviado",
         message := "Confirmação enviada com sucesso" }] (by decide)).1.trans (by decide),
   ((second_run_targets Env.writeFails World.connected exemploTresDb
      [exemploPendente, exemploSemCliente, exemploPendente2] "Imprevisto" rfl rfl (by decide) rfl
      _ _ _ _ rfl rfl rfl rfl).1.2.2 "ENOSPC: no space left on device" (by decide)).1⟩

/-! ### Report windows, order and counts at concrete inputs -/

/-- C22, the code at the failing input: on Friday 10 May 2024 in a process
running at UTC-3, the week is labelled 05/05/2024 to 11/05/2024, yet a booking
dated Sunday 2024-05-05 is not selected by the weekly filter and one dated
Sunday 2024-05-12 is; a booking dated 2024-05-01 is not selected by the monthly
filter. The weekly report for these two Sundays counts one booking. In a
process running in UTC the same Sunday 5 May is selected. -/
theorem report_windows_at_utc_minus_3 :
    (Calendar.ofClock relogioSaoPaulo).startOfWeekLabel = "05/05/2024" ∧
    (Calendar.ofClock relogioSaoPaulo).endOfWeekLabel = "11/05/2024" ∧
    inWindow (Calendar.ofClock relogioSaoPaulo) (Calendar.ofClock relogioSaoPaulo).startOfWeek
      (Calendar.ofClock relogioSaoPaulo).endOfWeek (exemploNoDia "2024-05-05") = false ∧
    inWindow (Calendar.ofClock relogioSaoPaulo) (Calendar.ofClock relogioSaoPaulo).startOfWeek
      (Calendar.ofClock relogioSaoPaulo).endOfWeek (exemploNoDia "2024-05-12") = true ∧
    inWindow (Calendar.ofClock relogioSaoPaulo) (Calendar.ofClock relogioSaoPaulo).startOfMonth
      (Calendar.ofClock relogioSaoPaulo).endOfMonth (exemploNoDia "2024-05-01") = false ∧
    (sendReportWeekly (Env.comRelogio relogioSaoPaulo) (Calendar.ofClock relogioSaoPaulo)
      World.connected
      { agendamentos := some [exemploNoDia "2024-05-05", exemploNoDia "2024-05-12"]
        clientes := some [], servicos := some [] }).1 =
      .sent "05/05/2024 a 11/05/2024" 1 1 0 0 ∧
    inWindow (Calendar.ofClock relogioUTC) (Calendar.ofClock relogioUTC).startOfWeek
      (Calendar.ofClock relogioUTC).endOfWeek (exemploNoDia "2024-05-05") = true := by
  decide

/-- C28, the code at the failing input: in the week from Sunday 26 May to
Saturday 1 June 2024, with bookings on 31 May and on 1 June, the sorted group
keys put 01/06/2024 before 31/05/2024. -/
theorem weekly_groups_across_months :
    ((groupByDia (Env.comRelogio relogioFimDeMaio)
        [exemploNoDia "2024-05-31", exemploNoDia "2024-06-01"]).map Prod.fst).insertionSort
        (fun a b => jsStrLe a b = true) = ["01/06/2024", "31/05/2024"] ∧
    inWindow (Calendar.ofClock relogioFimDeMaio) (Calendar.ofClock relogioFimDeMaio).startOfWeek
      (Calendar.ofClock relogioFimDeMaio).endOfWeek (exemploNoDia "2024-05-31") = true ∧
    inWindow (Calendar.ofClock relogioFimDeMaio) (Calendar.ofClock relogioFimDeMaio).startOfWeek
      (Calendar.ofClock relogioFimDeMaio).endOfWeek (exemploNoDia "2024-06-01") = true := by
  decide

/-- C29, the code at the failing input: a booking of today with status
'Agendado' is a target of the confirmation flow, and the daily report counts
it in the total but in none of pending, confirmed and cancelled. -/
theorem agendado_counted_in_no_status :
    isConfirmTarget (todayISO Env.allOk) { exemploPendente with status := "Agendado" } = true ∧
    (sendReportDaily Env.allOk World.connected
      { agendamentos := some [{ exemploPendente with status := "Agendado" }]
        clientes := some [], servicos := some [] }).1 = .sent "2024-05-10" 1 0 0 0 := by
  decide

/-- C30, the code at the failing inputs: with no stored booking the new id is
`-Infinity`; a body carrying the id of a stored booking gets that id; the
status is 'pendente' for every collection and body. -/
theorem novoAgendamento_id_not_fresh (agora : String) (agendamentos : List Agendamento)
    (body : AgendamentoBody) :
    (novoAgendamento agora [] { id := none, status := none, outros := [] }).id = .negInfinity ∧
    (novoAgendamento agora [exemploPendente]
      { id := some exemploPendente.id, status := some "confirmado", outros := [] }).id =
      .num exemploPendente.id ∧
    (novoAgendamento agora agendamentos body).status = "pendente" :=
  ⟨rfl, rfl, rfl⟩

/-! ### Statistics of the monthly report -/

theorem roundDiv_eq_floor (n d : Nat) (hd : 0 < d) :
    ((roundDiv n d : Nat) : Int) = ⌊(n : ℚ) / d + 1 / 2⌋ := by
  have hq : (n : ℚ) / d + 1 / 2 = ((2 * n + d : Nat) : ℚ) / ((2 * d : Nat) : ℚ) := by
    have hd0 : (d : ℚ) ≠ 0 := by exact_mod_cast hd.ne'
    push_cast
    field_simp
    ring
  rw [hq, Rat.floor_natCast_div_natCast]
  rfl

theorem roundDiv_le (n d k : Nat) (hd : 0 < d) (h : n ≤ k * d) : roundDiv n d ≤ k := by
  unfold roundDiv
  have h2 : 2 * n + d < (k + 1) * (2 * d) := by nlinarith
  exact Nat.lt_succ_iff.mp ((Nat.div_lt_iff_lt_mul (by omega)).mpr h2)

theorem countStatus_le (status : String) (l : List Agendamento) :
    countStatus status l ≤ l.length := by
  unfold countStatus
  exact List.length_filter_le _ _

theorem monthlyReportText_stats (env : Env) (cal : Calendar) (agendamentosMes : List Agendamento) :
    monthlyReportText env cal agendamentosMes =
      "📊 RELATÓRIO MENSAL - " ++ cal.monthLabel ++ resumoGeral agendamentosMes ++
        "\n\n📊 ESTATÍSTICAS:\n• Taxa de confirmação: " ++
        toString (taxaPct (countStatus "confirmado" agendamentosMes) agendamentosMes.length) ++
        "%\n• Taxa de cancelamento: " ++
        toString (taxaPct (countStatus "cancelado" agendamentosMes) agendamentosMes.length) ++
        "%\n• Média de agendamentos por dia: " ++
        toString (mediaPorDia agendamentosMes.length) ++
        (if (topDias agendamentosMes).length > 0 then
           "\n\n📅 TOP 5 DIAS COM MAIS AGENDAMENTOS:" ++
             String.join ((topDias agendamentosMes).enum.map (topDiaLine env))
         else "") ++
        rodape := rfl

/-! #### Rounding to a double -/

theorem bitsAux_spec : ∀ (fuel n : Nat), n ≤ fuel → 0 < n →
    2 ^ (bitsAux fuel n - 1) ≤ n ∧ n < 2 ^ bitsAux fuel n ∧ 0 < bitsAux fuel n
  | 0, n, h, hn => by omega
  | fuel + 1, n, h, hn => by
    have hne : n ≠ 0 := by omega
    simp only [bitsAux, if_neg hne]
    by_cases h2 : n / 2 = 0
    · have h1 : n = 1 := by omega
      subst h1
      cases fuel with
      | zero => simp [bitsAux]
      | succ f => simp [bitsAux]
    · obtain ⟨h1, h3, h4⟩ := bitsAux_spec fuel (n / 2) (by omega) (by omega)
      refine ⟨?_, ?_, by omega⟩
      · simp only [Nat.add_sub_cancel]
        have hp : 2 ^ (bitsAux fuel (n / 2)) = 2 * 2 ^ (bitsAux fuel (n / 2) - 1) := by
          rw [← pow_succ']
          congr 1
          omega
        omega
      · rw [pow_succ]
        omega

theorem bitLength_spec (n : Nat) (hn : 0 < n) :
    2 ^ (bitLength n - 1) ≤ n ∧ n < 2 ^ bitLength n ∧ 0 < bitLength n :=
  bitsAux_spec n n (le_refl n) hn

theorem roundHalfEven_nat (num den : Nat) (hd : 0 < den) :
    2 * (roundHalfEven num den * den) ≤ 2 * num + den ∧
    2 * num ≤ 2 * (roundHalfEven num den * den) + den := by
  have h1 := Nat.div_add_mod num den
  have h2 := Nat.mod_lt num hd
  have h3 : (num / den + 1) * den = den * (num / den) + den := by ring
  have h4 : num / den * den = den * (num / den) := by ring
  unfold roundHalfEven
  dsimp only
  split_ifs <;> simp only [h3, h4] <;> omega

theorem roundHalfEven_err (num den : Nat) (hd : 0 < den) :
    |((roundHalfEven num den : ℕ) : ℚ) - (num : ℚ) / den| ≤ 1 / 2 := by
  obtain ⟨h1, h2⟩ := roundHalfEven_nat num den hd
  have hd' : (0 : ℚ) < den := by exact_mod_cast hd
  have h1' : (2 : ℚ) * (roundHalfEven num den * den) ≤ 2 * num + den := by exact_mod_cast h1
  have h2' : (2 : ℚ) * num ≤ 2 * (roundHalfEven num den * den) + den := by exact_mod_cast h2
  have key : ((roundHalfEven num den : ℕ) : ℚ) - (num : ℚ) / den =
      ((roundHalfEven num den : ℚ) * den - num) / den := by
    field_simp
  rw [key, abs_le]
  constructor
  · rw [le_div_iff₀ hd']
    linarith
  · rw [div_le_iff₀ hd']
    linarith

theorem zpow_toNat (s : Int) (hs : 0 ≤ s) : ((2 : ℚ) ^ s.toNat) = (2 : ℚ) ^ s := by
  rw [← zpow_natCast, Int.toNat_of_nonneg hs]

theorem scaledRound_err (n d : Nat) (s : Int) (hd : 0 < d) :
    |((scaledRound n d s : ℕ) : ℚ) - (n : ℚ) / d * (2 : ℚ) ^ s| ≤ 1 / 2 := by
  have hd' : (0 : ℚ) < d := by exact_mod_cast hd
  unfold scaledRound
  by_cases hs : 0 ≤ s
  · rw [if_pos hs]
    have h := roundHalfEven_err (n * 2 ^ s.toNat) d hd
    have e1 : ((n * 2 ^ s.toNat : ℕ) : ℚ) / d = (n : ℚ) / d * (2 : ℚ) ^ s := by
      push_cast
      rw [zpow_toNat s hs]
      ring
    rwa [e1] at h
  · rw [if_neg hs]
    have hs' : 0 ≤ -s := by omega
    have hp : (0 : ℚ) < (2 : ℚ) ^ (-s).toNat := by positivity
    have h := roundHalfEven_err n (d * 2 ^ (-s).toNat) (Nat.mul_pos hd (by positivity))
    have e1 : (n : ℚ) / ((d * 2 ^ (-s).toNat : ℕ) : ℚ) = (n : ℚ) / d * (2 : ℚ) ^ s := by
      push_cast
      rw [zpow_toNat (-s) hs', zpow_neg]
      field_simp
    rwa [e1] at h

theorem geTwoPow_iff (n d : Nat) (l : Int) (hd : 0 < d) :
    geTwoPow n d l = true ↔ (2 : ℚ) ^ l ≤ (n : ℚ) / d := by
  have hd' : (0 : ℚ) < d := by exact_mod_cast hd
  unfold geTwoPow
  by_cases hl : 0 ≤ l
  · rw [if_pos hl, decide_eq_true_iff, le_div_iff₀ hd', ← zpow_toNat l hl, ← Nat.cast_le (α := ℚ)]
    push_cast
    rw [mul_comm]
  · rw [if_neg hl, decide_eq_true_iff]
    have hl' : 0 ≤ -l := by omega
    have hp : (0 : ℚ) < (2 : ℚ) ^ (-l).toNat := by positivity
    have e1 : (2 : ℚ) ^ l = ((2 : ℚ) ^ (-l).toNat)⁻¹ := by
      rw [zpow_toNat (-l) hl', zpow_neg, inv_inv]
    rw [e1, le_div_iff₀ hd', ← Nat.cast_le (α := ℚ), inv_mul_le_iff₀ hp]
    push_cast
    rw [mul_comm]

theorem norm_bounds (n d : Nat) (hn : 0 < n) (hd : 0 < d) (e : Int)
    (he : e = if geTwoPow n d ((bitLength n : Int) - (bitLength d : Int)) then
      (bitLength n : Int) - (bitLength d : Int) - 52 else
      (bitLength n : Int) - (bitLength d : Int) - 53) :
    (2 : ℚ) ^ (e + 52) ≤ (n : ℚ) / d ∧ (n : ℚ) / d < (2 : ℚ) ^ (e + 53) := by
  obtain ⟨hn1, hn2, hn3⟩ := bitLength_spec n hn
  obtain ⟨hd1, hd2, hd3⟩ := bitLength_spec d hd
  have hd' : (0 : ℚ) < d := by exact_mod_cast hd
  have hn' : (0 : ℚ) < n := by exact_mod_cast hn
  have qn1 : (2 : ℚ) ^ (bitLength n - 1) ≤ n := by exact_mod_cast hn1
  have qn2 : (n : ℚ) < 2 ^ bitLength n := by exact_mod_cast hn2
  have qd1 : (2 : ℚ) ^ (bitLength d - 1) ≤ d := by exact_mod_cast hd1
  have qd2 : (d : ℚ) < 2 ^ bitLength d := by exact_mod_cast hd2
  have two : (2 : ℚ) ≠ 0 := two_ne_zero
  by_cases hg : geTwoPow n d ((bitLength n : Int) - (bitLength d : Int)) = true
  · rw [if_pos hg] at he
    subst he
    constructor
    · have := (geTwoPow_iff n d _ hd).mp hg
      convert this using 2
      ring
    · have e1 : (bitLength n : Int) - (bitLength d : Int) - 52 + 53 =
          (bitLength n : Int) - ((bitLength d - 1 : ℕ) : Int) := by omega
      rw [e1, zpow_sub₀ two, zpow_natCast, zpow_natCast, div_lt_div_iff₀ hd' (by positivity)]
      calc (n : ℚ) * 2 ^ (bitLength d - 1) ≤ n * d := by
            exact mul_le_mul_of_nonneg_left qd1 hn'.le
        _ < 2 ^ bitLength n * d := by
            exact mul_lt_mul_of_pos_right qn2 hd'
  · rw [if_neg hg] at he
    subst he
    constructor
    · have e1 : (bitLength n : Int) - (bitLength d : Int) - 53 + 52 =
          ((bitLength n - 1 : ℕ) : Int) - (bitLength d : Int) := by omega
      rw [e1, zpow_sub₀ two, zpow_natCast, zpow_natCast, div_le_div_iff₀ (by positivity) hd']
      calc (2 : ℚ) ^ (bitLength n - 1) * d ≤ n * d := by
            exact mul_le_mul_of_nonneg_right qn1 hd'.le
        _ ≤ n * 2 ^ bitLength d := by
            exact mul_le_mul_of_nonneg_left qd2.le hn'.le
    · have := (geTwoPow_iff n d _ hd).not.mp hg
      rw [not_le] at this
      convert this using 2
      ring

theorem Binary64.round_normal (n d : Nat) (k : Int) (hn : 0 < n) (hd : 0 < d)
    (hv : (2 : ℚ) ^ (-1022 : ℤ) ≤ (n : ℚ) / d * (2 : ℚ) ^ k) :
    ∃ e : Int, (2 : ℚ) ^ (e + 52) ≤ (n : ℚ) / d ∧ (n : ℚ) / d < (2 : ℚ) ^ (e + 53) ∧
      Binary64.round n d k = { mant := scaledRound n d (-e), exp := e + k } := by
  have two : (2 : ℚ) ≠ 0 := two_ne_zero
  obtain ⟨e, he⟩ : ∃ e : Int, e = if geTwoPow n d ((bitLength n : Int) - (bitLength d : Int)) then
      (bitLength n : Int) - (bitLength d : Int) - 52 else
      (bitLength n : Int) - (bitLength d : Int) - 53 := ⟨_, rfl⟩
  obtain ⟨hlo, hhi⟩ := norm_bounds n d hn hd e he
  have hk : (0 : ℚ) < (2 : ℚ) ^ k := by positivity
  have hrange : -1074 ≤ e + k := by
    have h1 : (2 : ℚ) ^ (-1022 : ℤ) < (2 : ℚ) ^ (e + 53 + k) := by
      rw [zpow_add₀ two (e + 53) k]
      exact lt_of_le_of_lt hv (mul_lt_mul_of_pos_right hhi hk)
    have := (zpow_lt_zpow_iff_right₀ (by norm_num : (1 : ℚ) < 2)).mp h1
    omega
  refine ⟨e, hlo, hhi, ?_⟩
  unfold Binary64.round
  rw [if_neg hn.ne']
  simp only [← he, max_eq_left hrange]
  congr 2
  omega

theorem Binary64.round_err (n d : Nat) (k : Int) (hn : 0 < n) (hd : 0 < d)
    (hv : (2 : ℚ) ^ (-1022 : ℤ) ≤ (n : ℚ) / d * (2 : ℚ) ^ k) :
    |(Binary64.round n d k).toRat - (n : ℚ) / d * (2 : ℚ) ^ k| ≤
      (n : ℚ) / d * (2 : ℚ) ^ k * (2 : ℚ) ^ (-53 : ℤ) := by
  have two : (2 : ℚ) ≠ 0 := two_ne_zero
  obtain ⟨e, hlo, hhi, hround⟩ := Binary64.round_normal n d k hn hd hv
  have hk : (0 : ℚ) < (2 : ℚ) ^ k := by positivity
  rw [hround]
  unfold Binary64.toRat
  simp only
  have herr := scaledRound_err n d (-e) hd
  have hpos : (0 : ℚ) < (2 : ℚ) ^ (e + k) := by positivity
  have e1 : ((scaledRound n d (-e) : ℕ) : ℚ) * (2 : ℚ) ^ (e + k) - (n : ℚ) / d * (2 : ℚ) ^ k =
      (((scaledRound n d (-e) : ℕ) : ℚ) - (n : ℚ) / d * (2 : ℚ) ^ (-e)) * (2 : ℚ) ^ (e + k) := by
    rw [sub_mul, mul_assoc, ← zpow_add₀ two]
    congr 3
    omega
  rw [e1, abs_mul, abs_of_pos hpos]
  have e2 : (2 : ℚ) ^ (e + k) = (2 : ℚ) ^ (e + 52) * (2 : ℚ) ^ k * (2 : ℚ) ^ (-53 : ℤ) * 2 := by
    rw [← zpow_add₀ two, ← zpow_add₀ two]
    have : (2 : ℚ) ^ (e + 52 + k + -53) * 2 = (2 : ℚ) ^ (e + 52 + k + -53 + 1) := by
      rw [zpow_add₀ two _ 1, zpow_one]
    rw [this]
    congr 1
    omega
  calc |((scaledRound n d (-e) : ℕ) : ℚ) - (n : ℚ) / d * (2 : ℚ) ^ (-e)| * (2 : ℚ) ^ (e + k)
      ≤ 1 / 2 * (2 : ℚ) ^ (e + k) := mul_le_mul_of_nonneg_right herr hpos.le
    _ = (2 : ℚ) ^ (e + 52) * (2 : ℚ) ^ k * (2 : ℚ) ^ (-53 : ℤ) := by
        rw [e2]
        ring
    _ ≤ (n : ℚ) / d * (2 : ℚ) ^ k * (2 : ℚ) ^ (-53 : ℤ) := by
        apply mul_le_mul_of_nonneg_right _ (by positivity)
        exact mul_le_mul_of_nonneg_right hlo hk.le

theorem scaledRound_exact (n d : Nat) (s : Int) (m : Nat) (hd : 0 < d)
    (h : (n : ℚ) / d * (2 : ℚ) ^ s = m) : scaledRound n d s = m := by
  have herr := scaledRound_err n d s hd
  rw [h, abs_le] at herr
  have h1 : ((scaledRound n d s : ℕ) : ℚ) < ((m + 1 : ℕ) : ℚ) := by
    push_cast
    linarith
  have h2 : (m : ℚ) < ((scaledRound n d s + 1 : ℕ) : ℚ) := by
    push_cast
    linarith
  have h1' : scaledRound n d s < m + 1 := by exact_mod_cast h1
  have h2' : m < scaledRound n d s + 1 := by exact_mod_cast h2
  omega

theorem jsRound_eq_floor (x : Binary64) : ((jsRound x : ℕ) : ℤ) = ⌊x.toRat + 1 / 2⌋ := by
  unfold jsRound Binary64.toRat
  by_cases hx : 0 ≤ x.exp
  · rw [if_pos hx]
    symm
    rw [Int.floor_eq_iff, ← zpow_toNat x.exp hx]
    push_cast
    constructor <;> linarith
  · rw [if_neg hx]
    have hx' : 0 ≤ -x.exp := by omega
    have hp : (0 : ℚ) < (2 : ℚ) ^ (-x.exp).toNat := by positivity
    have e1 : (x.mant : ℚ) * (2 : ℚ) ^ x.exp + 1 / 2 =
        ((2 * x.mant + 2 ^ (-x.exp).toNat : ℕ) : ℚ) / ((2 ^ ((-x.exp).toNat + 1) : ℕ) : ℚ) := by
      have : (2 : ℚ) ^ x.exp = ((2 : ℚ) ^ (-x.exp).toNat)⁻¹ := by
        rw [zpow_toNat (-x.exp) hx', zpow_neg, inv_inv]
      rw [this]
      push_cast
      rw [pow_succ]
      field_simp
      ring
    rw [e1, Rat.floor_natCast_div_natCast]
    exact Int.natCast_div _ _

theorem eps_eq : (2 : ℚ) ^ (-53 : ℤ) = 1 / 9007199254740992 := by
  rw [zpow_neg]
  norm_num

theorem tiny_le : (2 : ℚ) ^ (-1022 : ℤ) ≤ 1 / 17179869184 := by
  have h : (2 : ℚ) ^ (-1022 : ℤ) ≤ (2 : ℚ) ^ (-34 : ℤ) :=
    zpow_le_zpow_right₀ (by norm_num) (by norm_num)
  have e : (2 : ℚ) ^ (-34 : ℤ) = 1 / 17179869184 := by
    rw [zpow_neg]
    norm_num
  rwa [e] at h

/-- The double computation of `(parte / total) * 100`, before `Math.round`. -/
theorem taxa_double_close (C T : Nat) (hC0 : 0 < C) (hCT : C ≤ T) (hT : T < 2 ^ 32) :
    |(Binary64.round ((Binary64.round C T 0).mant * 100) 1 (Binary64.round C T 0).exp).toRat -
      100 * (C : ℚ) / T| ≤ 1 / 30000000000000 := by
  have hT0 : 0 < T := lt_of_lt_of_le hC0 hCT
  have qT0 : (0 : ℚ) < T := by exact_mod_cast hT0
  have qC0 : (1 : ℚ) ≤ C := by exact_mod_cast hC0
  have qCT : (C : ℚ) ≤ T := by exact_mod_cast hCT
  have qT : (T : ℚ) < 4294967296 := by exact_mod_cast hT
  have ha1 : (C : ℚ) / T ≤ 1 := (div_le_one qT0).mpr qCT
  have ha0 : 1 / 4294967296 < (C : ℚ) / T := by
    rw [lt_div_iff₀ qT0]
    linarith
  -- first rounding
  have hv1 : (2 : ℚ) ^ (-1022 : ℤ) ≤ (C : ℚ) / T * (2 : ℚ) ^ (0 : ℤ) := by
    rw [zpow_zero, mul_one]
    linarith [tiny_le]
  have err1 := Binary64.round_err C T 0 hC0 hT0 hv1
  rw [zpow_zero, mul_one, eps_eq, abs_le] at err1
  obtain ⟨e1a, e1b⟩ := err1
  -- the first result is positive
  have hy1 : 1 / 8589934592 < (Binary64.round C T 0).toRat := by linarith
  have hm1 : 0 < (Binary64.round C T 0).mant := by
    rcases Nat.eq_zero_or_pos (Binary64.round C T 0).mant with h0 | h0
    · exfalso
      unfold Binary64.toRat at hy1
      rw [h0] at hy1
      simp at hy1
      linarith
    · exact h0
  -- second rounding
  have hval : (((Binary64.round C T 0).mant * 100 : ℕ) : ℚ) / ((1 : ℕ) : ℚ) *
      (2 : ℚ) ^ (Binary64.round C T 0).exp = 100 * (Binary64.round C T 0).toRat := by
    unfold Binary64.toRat
    push_cast
    ring
  have hv2 : (2 : ℚ) ^ (-1022 : ℤ) ≤ (((Binary64.round C T 0).mant * 100 : ℕ) : ℚ) / ((1 : ℕ) : ℚ) *
      (2 : ℚ) ^ (Binary64.round C T 0).exp := by
    rw [hval]
    exact le_trans tiny_le (by linarith)
  have err2 := Binary64.round_err ((Binary64.round C T 0).mant * 100) 1 (Binary64.round C T 0).exp
    (Nat.mul_pos hm1 (by norm_num)) (by norm_num) hv2
  rw [hval, eps_eq, abs_le] at err2
  obtain ⟨e2a, e2b⟩ := err2
  rw [abs_le]
  have e3 : 100 * (C : ℚ) / T = 100 * ((C : ℚ) / T) := by ring
  rw [e3]
  constructor <;> linarith

theorem taxaPct_near (C T : Nat) (hCT : C ≤ T) (hT0 : 0 < T) (hT : T < 2 ^ 32) :
    taxaPct C T ≤ roundDiv (C * 100) T ∧
    roundDiv (C * 100) T ≤ taxaPct C T + 1 ∧
    ((2 * (C * 100) + T) % (2 * T) ≠ 0 → taxaPct C T = roundDiv (C * 100) T) := by
  rcases Nat.eq_zero_or_pos C with hC | hC0
  · subst hC
    have h1 : taxaPct 0 T = 0 := by
      unfold taxaPct
      rw [if_pos hT0]
      rfl
    have h2 : roundDiv (0 * 100) T = 0 := by
      unfold roundDiv
      exact Nat.div_eq_of_lt (by omega)
    rw [h1, h2]
    exact ⟨le_refl _, by omega, fun _ => rfl⟩
  · have hclose := taxa_double_close C T hC0 hCT hT
    have hfloor := jsRound_eq_floor
      (Binary64.round ((Binary64.round C T 0).mant * 100) 1 (Binary64.round C T 0).exp)
    have hrate : taxaPct C T = jsRound
        (Binary64.round ((Binary64.round C T 0).mant * 100) 1 (Binary64.round C T 0).exp) := by
      unfold taxaPct
      rw [if_pos hT0]
    rw [← hrate] at hfloor
    generalize (Binary64.round ((Binary64.round C T 0).mant * 100) 1
      (Binary64.round C T 0).exp).toRat = y at hclose hfloor
    rw [abs_le] at hclose
    obtain ⟨hc1, hc2⟩ := hclose
    have qT0 : (0 : ℚ) < T := by exact_mod_cast hT0
    have qT : (T : ℚ) < 4294967296 := by exact_mod_cast hT
    -- the exact quotient
    have hdm := Nat.div_add_mod (2 * (C * 100) + T) (2 * T)
    have hml := Nat.mod_lt (2 * (C * 100) + T) (show 0 < 2 * T by omega)
    have hj : roundDiv (C * 100) T = (2 * (C * 100) + T) / (2 * T) := rfl
    set j := (2 * (C * 100) + T) / (2 * T) with hjdef
    set r := (2 * (C * 100) + T) % (2 * T) with hrdef
    have qdm : (2 * (T : ℚ)) * j + r = 2 * ((C : ℚ) * 100) + T := by exact_mod_cast hdm
    have qml : (r : ℚ) + 1 ≤ 2 * T := by exact_mod_cast hml
    have qr0 : (0 : ℚ) ≤ r := Nat.cast_nonneg r
    -- y + 1/2 in terms of j and r
    have hS : 100 * (C : ℚ) / T + 1 / 2 = j + r / (2 * T) := by
      have h1 : (j : ℚ) + r / (2 * T) = (2 * T * j + r) / (2 * T) := by
        field_simp
        ring
      rw [h1, qdm]
      field_simp
      ring
    have hinv : (0 : ℚ) < 1 / (2 * T) := by positivity
    have hinv2 : 1 / 8589934592 < 1 / (2 * (T : ℚ)) := by
      apply one_div_lt_one_div_of_lt (by positivity)
      linarith
    have hrD : (r : ℚ) / (2 * T) = r * (1 / (2 * T)) := by ring
    have hD1 : (2 * (T : ℚ)) * (1 / (2 * T)) = 1 := by field_simp
    have hup : (r : ℚ) * (1 / (2 * T)) + 1 / (2 * T) ≤ 1 := by
      have := mul_le_mul_of_nonneg_right qml hinv.le
      rw [hD1] at this
      linarith
    rw [hj]
    have hlow : (j : ℚ) - 1 < y + 1 / 2 := by
      have : (0 : ℚ) ≤ r * (1 / (2 * T)) := mul_nonneg qr0 hinv.le
      linarith
    have hhigh : y + 1 / 2 < (j : ℚ) + 1 := by linarith
    have hfl1 : (j : ℤ) - 1 ≤ ⌊y + 1 / 2⌋ := by
      rw [Int.le_floor]
      push_cast
      linarith
    have hfl2 : ⌊y + 1 / 2⌋ < (j : ℤ) + 1 := by
      rw [Int.floor_lt]
      push_cast
      linarith
    refine ⟨by omega, by omega, ?_⟩
    intro hr
    have hr1 : (1 : ℚ) ≤ r := by
      have : 1 ≤ r := Nat.one_le_iff_ne_zero.mpr hr
      exact_mod_cast this
    have hfl3 : (j : ℤ) ≤ ⌊y + 1 / 2⌋ := by
      rw [Int.le_floor]
      push_cast
      have : 1 / (2 * (T : ℚ)) ≤ r * (1 / (2 * T)) := le_mul_of_one_le_left hinv.le hr1
      linarith
    omega

theorem taxaPct_spec (C T : Nat) (hCT : C ≤ T) (hT0 : 0 < T) (hT : T < 2 ^ 32) :
    |((taxaPct C T : ℕ) : ℚ) - 100 * (C : ℚ) / T| ≤ 1 / 2 ∧
    ((∀ k : ℤ, 100 * (C : ℚ) / T ≠ k + 1 / 2) →
      ((taxaPct C T : ℕ) : ℤ) = ⌊100 * (C : ℚ) / T + 1 / 2⌋) ∧
    taxaPct C T ≤ 100 := by
  obtain ⟨h1, h2, h3⟩ := taxaPct_near C T hCT hT0 hT
  have qT0 : (0 : ℚ) < T := by exact_mod_cast hT0
  have hj := roundDiv_eq_floor (C * 100) T hT0
  have hcast : ((C * 100 : ℕ) : ℚ) / T + 1 / 2 = 100 * (C : ℚ) / T + 1 / 2 := by
    push_cast
    ring
  rw [hcast] at hj
  have hle : roundDiv (C * 100) T ≤ 100 := roundDiv_le _ _ _ hT0 (by nlinarith)
  have hfl1 := Int.floor_le (100 * (C : ℚ) / T + 1 / 2)
  have hfl2 := Int.lt_floor_add_one (100 * (C : ℚ) / T + 1 / 2)
  rw [← hj] at hfl1 hfl2
  have htie : (2 * (C * 100) + T) % (2 * T) = 0 →
      100 * (C : ℚ) / T + 1 / 2 = ((roundDiv (C * 100) T : ℕ) : ℚ) := by
    intro h0
    have hdm := Nat.div_add_mod (2 * (C * 100) + T) (2 * T)
    rw [h0, Nat.add_zero] at hdm
    have hr : roundDiv (C * 100) T = (2 * (C * 100) + T) / (2 * T) := rfl
    rw [← hr] at hdm
    have qdm : (2 * (T : ℚ)) * (roundDiv (C * 100) T : ℕ) = 2 * ((C : ℚ) * 100) + T := by
      exact_mod_cast hdm
    field_simp
    linarith
  refine ⟨?_, ?_, le_trans h1 hle⟩
  · by_cases heq : taxaPct C T = roundDiv (C * 100) T
    · rw [heq, abs_le]
      push_cast at hfl1 hfl2
      constructor <;> linarith
    · have h0 : (2 * (C * 100) + T) % (2 * T) = 0 := by
        by_contra hne
        exact heq (h3 hne)
      have hS := htie h0
      have hnat : roundDiv (C * 100) T = taxaPct C T + 1 := by omega
      rw [hnat] at hS
      push_cast at hS
      rw [abs_le]
      constructor <;> linarith
  · intro hk
    have hne : (2 * (C * 100) + T) % (2 * T) ≠ 0 := by
      intro h0
      have hS := htie h0
      apply hk (((roundDiv (C * 100) T : ℕ) : ℤ) - 1)
      push_cast
      linarith
    rw [h3 hne, hj]

theorem mediaPorDia_eq_double (T : Nat) (hT : T < 2 ^ 32) :
    mediaPorDia T = if T > 0 then jsRound (Binary64.round T 30 0) else 0 := by
  unfold mediaPorDia
  by_cases hT0 : T > 0
  swap
  · rw [if_neg hT0, if_neg hT0]
  rw [if_pos hT0, if_pos hT0]
  have two : (2 : ℚ) ≠ 0 := two_ne_zero
  have qT : (T : ℚ) < 4294967296 := by exact_mod_cast hT
  have qT1 : (1 : ℚ) ≤ T := by exact_mod_cast hT0
  have hq30 : (T : ℚ) / ((30 : ℕ) : ℚ) = (T : ℚ) / 30 := by norm_num
  have hv : (2 : ℚ) ^ (-1022 : ℤ) ≤ (T : ℚ) / ((30 : ℕ) : ℚ) * (2 : ℚ) ^ (0 : ℤ) := by
    rw [zpow_zero, mul_one, hq30]
    refine le_trans tiny_le ?_
    rw [le_div_iff₀ (by norm_num)]
    linarith
  obtain ⟨e, hlo, hhi, hround⟩ := Binary64.round_normal T 30 0 hT0 (by norm_num) hv
  have herr := Binary64.round_err T 30 0 hT0 (by norm_num) hv
  have hfloor := jsRound_eq_floor (Binary64.round T 30 0)
  rw [zpow_zero, mul_one, eps_eq, abs_le] at herr
  obtain ⟨e1a, e1b⟩ := herr
  rw [hq30] at e1a e1b hlo hhi
  have hdm := Nat.div_add_mod (2 * T + 30) (2 * 30)
  have hml := Nat.mod_lt (2 * T + 30) (show 0 < 2 * 30 by norm_num)
  have hj : roundDiv T 30 = (2 * T + 30) / (2 * 30) := rfl
  rw [hj]
  generalize (2 * T + 30) / (2 * 30) = j at hdm ⊢
  generalize (2 * T + 30) % (2 * 30) = r at hdm hml
  have qdm : (60 : ℚ) * j + r = 2 * (T : ℚ) + 30 := by exact_mod_cast hdm
  have qml : (r : ℚ) + 1 ≤ 60 := by
    have : r + 1 ≤ 60 := by omega
    exact_mod_cast this
  have qr0 : (0 : ℚ) ≤ r := Nat.cast_nonneg _
  suffices h : ⌊(Binary64.round T 30 0).toRat + 1 / 2⌋ = (j : ℤ) by
    rw [← hfloor] at h
    exact_mod_cast h.symm
  by_cases hr : r = 0
  · -- an exact half: the quotient is a double
    have hj1 : 1 ≤ j := by omega
    have qj : (60 : ℚ) * j = 2 * (T : ℚ) + 30 := by
      have h60 : 60 * j = 2 * T + 30 := by omega
      exact_mod_cast h60
    have he : e + 52 < 28 := by
      have h1 : (2 : ℚ) ^ (e + 52) < (2 : ℚ) ^ (28 : ℤ) := by
        refine lt_of_le_of_lt hlo ?_
        have : (2 : ℚ) ^ (28 : ℤ) = 268435456 := by norm_num
        rw [this, div_lt_iff₀ (by norm_num)]
        linarith
      exact (zpow_lt_zpow_iff_right₀ (by norm_num : (1 : ℚ) < 2)).mp h1
    have hcast : ((2 * j - 1 : ℕ) : ℚ) = 2 * (j : ℚ) - 1 := by
      rw [Nat.cast_sub (by omega)]
      push_cast
      ring
    have hquo : (T : ℚ) / 30 = ((2 * j - 1 : ℕ) : ℚ) / 2 := by
      rw [hcast]
      linarith
    have hexp : (2 : ℚ) ^ (-e) = 2 * (2 : ℚ) ^ (-e - 1).toNat := by
      rw [zpow_toNat (-e - 1) (by omega), ← zpow_one_add₀ two]
      congr 1
      omega
    have hmant : scaledRound T 30 (-e) = (2 * j - 1) * 2 ^ (-e - 1).toNat := by
      apply scaledRound_exact _ _ _ _ (by norm_num)
      rw [hq30, hquo, hexp]
      push_cast
      ring
    have hval : (Binary64.round T 30 0).toRat = (T : ℚ) / 30 := by
      rw [hround]
      unfold Binary64.toRat
      simp only [hmant, add_zero]
      rw [hquo]
      have h2 : (2 : ℚ) ^ (-e - 1).toNat * (2 : ℚ) ^ e = 1 / 2 := by
        rw [zpow_toNat (-e - 1) (by omega), ← zpow_add₀ two]
        have : -e - 1 + e = -1 := by omega
        rw [this]
        norm_num
      rw [Nat.cast_mul, Nat.cast_pow, Nat.cast_ofNat, mul_assoc, h2]
      ring
    rw [hval, Int.floor_eq_iff]
    simp only [Int.cast_natCast]
    constructor <;> linarith
  · have hr1 : (1 : ℚ) ≤ r := by
      have : 1 ≤ r := Nat.one_le_iff_ne_zero.mpr hr
      exact_mod_cast this
    rw [Int.floor_eq_iff]
    simp only [Int.cast_natCast]
    constructor <;> linarith

/-- C23 fails as stated: with 23 confirmed bookings out of 40, `100 * C / T` is
57.5, whose nearest integer with halves up is 58; the report prints 57, because
the quotient 23/40 is rounded to a double (slightly below 0.575) before it is
multiplied by 100. -/
theorem monthly_rate_23_of_40_counterexample :
    exemploQuarenta.length = 40 ∧ countStatus "confirmado" exemploQuarenta = 23 ∧
    taxaPct (countStatus "confirmado" exemploQuarenta) exemploQuarenta.length = 57 ∧
    roundDiv (23 * 100) 40 = 58 ∧ 2 * (23 * 100) + 40 = 58 * (2 * 40) ∧
    Binary64.round 23 40 0 = { mant := 5179139571476070, exp := -53 } ∧
    5179139571476070 * 40 < 23 * 2 ^ 53 := by
  decide

/-- C23 (amended): for a monthly selection with `T` bookings (`T` below `2 ^ 32`,
as every array length), `C` confirmed and `X` cancelled, the confirmation rate
the report prints is 0 when `T = 0`; otherwise it is an integer nearest to
`100 * C / T`: it differs from `100 * C / T` by at most one half, and when
`100 * C / T` is not an integer plus one half it is the integer nearest to it.
At an exact half the rate printed may be the lower neighbour (23 of 40 prints
57) or the upper one (1 of 8 prints 13), because the quotient is computed in
double precision before it is multiplied by 100. The cancellation rate
likewise with `X`; and both rates lie between 0 and 100. -/
theorem monthly_rates (env : Env) (cal : Calendar) (agendamentosMes : List Agendamento)
    (hlen : agendamentosMes.length < 2 ^ 32) :
    (∃ pre mid post, monthlyReportText env cal agendamentosMes =
      pre ++ "• Taxa de confirmação: " ++
        toString (taxaPct (countStatus "confirmado" agendamentosMes) agendamentosMes.length) ++
        mid ++ "• Taxa de cancelamento: " ++
        toString (taxaPct (countStatus "cancelado" agendamentosMes) agendamentosMes.length) ++
        post) ∧
    (agendamentosMes.length = 0 →
      taxaPct (countStatus "confirmado" agendamentosMes) agendamentosMes.length = 0 ∧
      taxaPct (countStatus "cancelado" agendamentosMes) agendamentosMes.length = 0) ∧
    (0 < agendamentosMes.length →
      (|((taxaPct (countStatus "confirmado" agendamentosMes) agendamentosMes.length : ℕ) : ℚ) -
          100 * (countStatus "confirmado" agendamentosMes : ℚ) / agendamentosMes.length|
        ≤ 1 / 2 ∧
       ((∀ k : ℤ, 100 * (countStatus "confirmado" agendamentosMes : ℚ) / agendamentosMes.length
            ≠ k + 1 / 2) →
        ((taxaPct (countStatus "confirmado" agendamentosMes) agendamentosMes.length : ℕ) : ℤ) =
          ⌊100 * (countStatus "confirmado" agendamentosMes : ℚ) / agendamentosMes.length
            + 1 / 2⌋)) ∧
      (|((taxaPct (countStatus "cancelado" agendamentosMes) agendamentosMes.length : ℕ) : ℚ) -
          100 * (countStatus "cancelado" agendamentosMes : ℚ) / agendamentosMes.length|
        ≤ 1 / 2 ∧
       ((∀ k : ℤ, 100 * (countStatus "cancelado" agendamentosMes : ℚ) / agendamentosMes.length
            ≠ k + 1 / 2) →
        ((taxaPct (countStatus "cancelado" agendamentosMes) agendamentosMes.length : ℕ) : ℤ) =
          ⌊100 * (countStatus "cancelado" agendamentosMes : ℚ) / agendamentosMes.length
            + 1 / 2⌋))) ∧
    taxaPct (countStatus "confirmado" agendamentosMes) agendamentosMes.length ≤ 100 ∧
    taxaPct (countStatus "cancelado" agendamentosMes) agendamentosMes.length ≤ 100 := by
  have hle : ∀ c : Nat, c ≤ agendamentosMes.length → taxaPct c agendamentosMes.length ≤ 100 := by
    intro c hc
    rcases Nat.eq_zero_or_pos agendamentosMes.length with h0 | hT
    · unfold taxaPct
      simp [h0]
    · exact (taxaPct_spec c _ hc hT hlen).2.2
  refine ⟨?_, ?_, fun hT => ⟨?_, ?_⟩, hle _ (countStatus_le _ _), hle _ (countStatus_le _ _)⟩
  · refine ⟨"📊 RELATÓRIO MENSAL - " ++ cal.monthLabel ++ resumoGeral agendamentosMes ++
        "\n\n📊 ESTATÍSTICAS:\n", "%\n",
      "%\n• Média de agendamentos por dia: " ++ toString (mediaPorDia agendamentosMes.length) ++
        (if (topDias agendamentosMes).length > 0 then
           "\n\n📅 TOP 5 DIAS COM MAIS AGENDAMENTOS:" ++
             String.join ((topDias agendamentosMes).enum.map (topDiaLine env))
         else "") ++ rodape, ?_⟩
    rw [monthlyReportText_stats]
    simp only [String.append_assoc]
    rfl
  · intro h0
    unfold taxaPct
    simp [h0]
  · exact ⟨(taxaPct_spec _ _ (countStatus_le _ _) hT hlen).1,
      (taxaPct_spec _ _ (countStatus_le _ _) hT hlen).2.1⟩
  · exact ⟨(taxaPct_spec _ _ (countStatus_le _ _) hT hlen).1,
      (taxaPct_spec _ _ (countStatus_le _ _) hT hlen).2.1⟩

theorem monthly_rates_witness :
    taxaPct (countStatus "confirmado" exemploOito) exemploOito.length = 13 ∧
    taxaPct (countStatus "confirmado" exemploQuarenta) exemploQuarenta.length = 57 ∧
    |((taxaPct (countStatus "confirmado" exemploQuarenta) exemploQuarenta.length : ℕ) : ℚ) -
        100 * (countStatus "confirmado" exemploQuarenta : ℚ) / exemploQuarenta.length|
      ≤ 1 / 2 ∧
    taxaPct (countStatus "confirmado" exemploQuarenta) exemploQuarenta.length ≤ 100 :=
  ⟨by decide, by decide,
   ((monthly_rates Env.allOk exemploCalendar exemploQuarenta (by decide)).2.2.1
      (by decide)).1.1,
   (monthly_rates Env.allOk exemploCalendar exemploQuarenta (by decide)).2.2.2.1⟩

/-- C24 fails as stated: in May 2024, a month of 31 days, a selection of 15
bookings is reported with an average of 1 per day, while 15 divided by 31 and
rounded is 0. -/
theorem monthly_average_in_may_counterexample :
    civilFromDays (localDay relogioUTC) = (2024, 5, 10) ∧
    diasNoMes 2024 5 = 31 ∧
    mediaPorDia (List.replicate 15 (exemploNoDia "2024-05-02")).length = 1 ∧
    roundDiv (List.replicate 15 (exemploNoDia "2024-05-02")).length 31 = 0 := by
  decide

/-- C24 (amended): for every current month and every monthly selection with
`T` bookings, the average per day the report prints is 0 when `T = 0` and
otherwise `T` divided by 30, rounded to the nearest integer (halves up), in
exact arithmetic, whatever the number of days of the current month. -/
theorem monthly_average (env : Env) (cal : Calendar) (agendamentosMes : List Agendamento) :
    (∃ pre post, monthlyReportText env cal agendamentosMes =
      pre ++ "• Média de agendamentos por dia: " ++
        toString (mediaPorDia agendamentosMes.length) ++ post) ∧
    (agendamentosMes.length = 0 → mediaPorDia agendamentosMes.length = 0) ∧
    (0 < agendamentosMes.length →
      ((mediaPorDia agendamentosMes.length : Nat) : Int) =
        ⌊(agendamentosMes.length : ℚ) / 30 + 1 / 2⌋) := by
  refine ⟨?_, ?_, ?_⟩
  · refine ⟨"📊 RELATÓRIO MENSAL - " ++ cal.monthLabel ++ resumoGeral agendamentosMes ++
        "\n\n📊 ESTATÍSTICAS:\n• Taxa de confirmação: " ++
        toString (taxaPct (countStatus "confirmado" agendamentosMes) agendamentosMes.length) ++
        "%\n• Taxa de cancelamento: " ++
        toString (taxaPct (countStatus "cancelado" agendamentosMes) agendamentosMes.length) ++
        "%\n",
      (if (topDias agendamentosMes).length > 0 then
           "\n\n📅 TOP 5 DIAS COM MAIS AGENDAMENTOS:" ++
             String.join ((topDias agendamentosMes).enum.map (topDiaLine env))
         else "") ++ rodape, ?_⟩
    rw [monthlyReportText_stats]
    simp only [String.append_assoc]
    rfl
  · intro h0
    unfold mediaPorDia
    simp [h0]
  · intro hT
    unfold mediaPorDia
    rw [if_pos hT, roundDiv_eq_floor _ _ (by decide)]
    push_cast
    rfl

theorem monthly_average_witness :
    mediaPorDia (List.replicate 15 (exemploNoDia "2024-05-02")).length = 1 ∧
    ((mediaPorDia (List.replicate 15 (exemploNoDia "2024-05-02")).length : Nat) : Int) =
      ⌊((List.replicate 15 (exemploNoDia "2024-05-02")).length : ℚ) / 30 + 1 / 2⌋ :=
  ⟨by decide,
   (monthly_average Env.allOk exemploCalendar
     (List.replicate 15 (exemploNoDia "2024-05-02"))).2.2 (by decide)⟩

end Barbearia
